import Mathlib

/-! # Child-Behavior-Management-App: points ledger and reward exchange

A shallow embedding of the Go handlers in `backend/internal/api/handlers`
(`behavior.go`, `reward.go`, `user.go`, `auth.go`) over the tables declared in
`backend/internal/models/models.go`.

* A database is a `Store`: one list of rows per table, in insertion order, plus
  the last AUTO_INCREMENT value handed out per table.
* A handler is a function from the store, the authenticated actor
  (`user_id`, `user_role` as set by the auth middleware) and the bound request
  struct to the new store and the HTTP response.
* Go `int` is the 64-bit two's-complement integer of the usual server targets:
  `+` and `-` wrap (`addInt`, `subInt`).  Go `uint` identifiers are only
  compared and auto-incremented and are kept as `Nat`.
* `time.Now()` is a parameter `now` of the handlers that read the clock.
* The gorm-managed columns `CreatedAt`/`UpdatedAt` and the preloaded
  association fields carry no logic in the handlers and are left out.
* In the handlers themselves every store statement succeeds unless a unique
  index rejects it or it names a column the table does not have.  Lost
  connections and similar storage faults appear only in `ExchangeRewardFaulty`
  and `RecordBehaviorFaulty`, which take the set of failing statements as a
  parameter and agree with the handlers when that set is empty.
* Foreign-key constraints are modelled where a handler deletes an account
  (`Store.deleteUser`); inserts and updates are not checked against them.
-/

namespace ChildBehavior

/-! ## Go `int` -/

/-- The least value of a 64-bit Go `int`. -/
def minInt : Int := -9223372036854775808

/-- The greatest value of a 64-bit Go `int`. -/
def maxInt : Int := 9223372036854775807

/-- Predicate saying that `x` is representable as a 64-bit Go `int`. -/
@[reducible] def InInt (x : Int) : Prop := minInt ≤ x ∧ x ≤ maxInt

/-- Two's-complement reduction of a mathematical integer to a 64-bit Go `int`. -/
def wrapInt (x : Int) : Int :=
  (x + 9223372036854775808) % 18446744073709551616 - 9223372036854775808

/-- Go `a + b` on `int`. -/
def addInt (a b : Int) : Int := wrapInt (a + b)

/-- Go `a - b` on `int`. -/
def subInt (a b : Int) : Int := wrapInt (a - b)

/-! ## Tables (`models.go`) -/

/-- Row of the `users` table (`models.User`). -/
structure User where
  ID : Nat
  Phone : Option String
  Password : Option String
  Nickname : String
  Email : String
  Avatar : String
  Age : Int
  Gender : String
  Role : String
  ParentID : Option Nat
  deriving DecidableEq, Repr

/-- Row of the behavior ledger (`models.BehaviorRecord`). -/
structure BehaviorRecord where
  ID : Nat
  ChildID : Nat
  RecorderID : Nat
  BehaviorType : String
  BehaviorDesc : String
  ScoreChange : Int
  ImageURL : String
  RecordedAt : Nat
  deriving DecidableEq, Repr

/-- Row of the points table (`models.UserPoints`); `UserID` carries a unique index. -/
structure UserPoints where
  ID : Nat
  UserID : Nat
  TotalPoints : Int
  AvailablePoints : Int
  deriving DecidableEq, Repr

/-- Row of the reward catalog (`models.Reward`). -/
structure Reward where
  ID : Nat
  Name : String
  Description : String
  Points : Int
  Image : String
  Stock : Int
  IsActive : Bool
  CreatedBy : Nat
  deriving DecidableEq, Repr

/-- Row of the exchange ledger (`models.ExchangeRecord`). -/
structure ExchangeRecord where
  ID : Nat
  UserID : Nat
  RewardID : Nat
  PointsUsed : Int
  ExchangedAt : Nat
  Status : String
  deriving DecidableEq, Repr

/-- The database: the five tables with their AUTO_INCREMENT counters.  Primary
keys are the counter values handed out by `create…`, hence at least 1. -/
structure Store where
  users : List User
  userPoints : List UserPoints
  behaviorRecords : List BehaviorRecord
  rewards : List Reward
  exchangeRecords : List ExchangeRecord
  lastUserID : Nat
  lastUserPointsID : Nat
  lastBehaviorRecordID : Nat
  lastRewardID : Nat
  lastExchangeRecordID : Nat
  deriving DecidableEq, Repr

/-- The freshly migrated database: every table empty. -/
def emptyStore : Store :=
  { users := [], userPoints := [], behaviorRecords := [], rewards := [],
    exchangeRecords := [], lastUserID := 0, lastUserPointsID := 0,
    lastBehaviorRecordID := 0, lastRewardID := 0, lastExchangeRecordID := 0 }

/-! ## Requests, actors, responses -/

/-- The pair `(user_id, user_role)` that the auth middleware puts in the context. -/
structure Actor where
  userID : Nat
  userRole : String
  deriving DecidableEq, Repr

/-- What a handler writes with `c.JSON`: a 200 with its payload, an error built
by `utils.ErrorResponse(code, message)` (the HTTP status always equals `code`
in these handlers), or the 400 that carries the binder's own error text when
`ShouldBindJSON` rejects the body. -/
inductive Response (α : Type) where
  | success (data : α)
  | failure (code : Nat) (message : String)
  | bindFailure
  deriving DecidableEq, Repr

/-- True exactly for the 200 answers. -/
def Response.isSuccess {α : Type} : Response α → Bool
  | .success _ => true
  | _ => false

/-- Body of `POST /behaviors` (`RecordBehaviorRequest`). -/
structure RecordBehaviorRequest where
  ChildID : Nat
  BehaviorType : String
  BehaviorDesc : String
  ScoreChange : Int
  ImageURL : String
  deriving DecidableEq, Repr

/-- Outcome of `ShouldBindJSON` on a `RecordBehaviorRequest`: every field tagged
`binding:"required"` must differ from its zero value. -/
def RecordBehaviorRequest.bind (req : RecordBehaviorRequest) : Bool :=
  req.ChildID != 0 && req.BehaviorType != "" && req.BehaviorDesc != "" &&
    req.ScoreChange != 0

/-! ## Store statements used by the handlers -/

/-- Query `Where("id = ? AND parent_id = ?", id, parentID).First(&child)`. -/
def Store.firstChildOfParent (s : Store) (id parentID : Nat) : Option User :=
  s.users.find? (fun u => u.ID == id && u.ParentID == some parentID)

/-- Query `Where("user_id = ?", userID).First(&userPoints)`. -/
def Store.firstUserPoints (s : Store) (userID : Nat) : Option UserPoints :=
  s.userPoints.find? (fun p => p.UserID == userID)

/-- Statement `Create(&behaviorRecord)`: the row gets the next primary key. -/
def Store.createBehaviorRecord (s : Store) (r : BehaviorRecord) : Store × BehaviorRecord :=
  let row := { r with ID := s.lastBehaviorRecordID + 1 }
  ({ s with behaviorRecords := s.behaviorRecords ++ [row],
            lastBehaviorRecordID := s.lastBehaviorRecordID + 1 }, row)

/-- Statement `Create(&userPoints)`: rejected by the unique index when the user
already has a row (the struct then keeps its zero primary key), otherwise the
row is appended under the next primary key. -/
def Store.createUserPoints (s : Store) (p : UserPoints) : Store × UserPoints :=
  if s.userPoints.any (fun q => q.UserID == p.UserID) then (s, p)
  else
    let row := { p with ID := s.lastUserPointsID + 1 }
    ({ s with userPoints := s.userPoints ++ [row],
              lastUserPointsID := s.lastUserPointsID + 1 }, row)

/-- Statement `Save(&userPoints)`: overwrite the row with the same primary key;
when there is none, gorm falls back to an insert, which the unique index on
`user_id` may reject. -/
def Store.saveUserPoints (s : Store) (p : UserPoints) : Store :=
  if s.userPoints.any (fun q => q.ID == p.ID) then
    { s with userPoints := s.userPoints.map (fun q => if q.ID == p.ID then p else q) }
  else if s.userPoints.any (fun q => q.UserID == p.UserID) then s
  else { s with userPoints := s.userPoints ++ [p] }

/-! ## `BehaviorHandler.RecordBehavior` (`behavior.go`) -/

/-- Lines 59-65: the stored classification is computed from the sign of the score. -/
def behaviorTypeOf (scoreChange : Int) : String :=
  if scoreChange > 0 then "good" else "bad"

/-- Lines 95-106: update of the two counters for a behavior of type
`behaviorType` and score `scoreChange`. -/
def applyScoreChange (behaviorType : String) (scoreChange : Int) (p : UserPoints) :
    UserPoints :=
  if behaviorType = "good" then
    { p with TotalPoints := addInt p.TotalPoints scoreChange,
             AvailablePoints := addInt p.AvailablePoints scoreChange }
  else
    let available := addInt p.AvailablePoints scoreChange
    { p with TotalPoints := addInt p.TotalPoints scoreChange,
             AvailablePoints := if available < 0 then 0 else available }

/-- Lines 83-93: fetch the child's points row, creating a zeroed one when the
lookup fails. -/
def Store.getOrCreateUserPoints (s : Store) (childID : Nat) : Store × UserPoints :=
  match s.firstUserPoints childID with
  | some p => (s, p)
  | none =>
    s.createUserPoints { ID := 0, UserID := childID, TotalPoints := 0, AvailablePoints := 0 }

/-- The handler `RecordBehavior`. -/
def RecordBehavior (s : Store) (now : Nat) (a : Actor) (req : RecordBehaviorRequest) :
    Store × Response BehaviorRecord :=
  if a.userRole ≠ "parent" then
    (s, .failure 403 "Only parents can record behaviors")
  else if req.bind = false then
    (s, .bindFailure)
  else
    let parentID := a.userID
    match s.firstChildOfParent req.ChildID parentID with
    | none => (s, .failure 403 "Child not found or permission denied")
    | some _ =>
      let behaviorType := behaviorTypeOf req.ScoreChange
      let created := s.createBehaviorRecord
        { ID := 0, ChildID := req.ChildID, RecorderID := parentID,
          BehaviorType := behaviorType, BehaviorDesc := req.BehaviorDesc,
          ScoreChange := req.ScoreChange, ImageURL := req.ImageURL, RecordedAt := now }
      let fetched := created.1.getOrCreateUserPoints req.ChildID
      let userPoints := applyScoreChange behaviorType req.ScoreChange fetched.2
      (fetched.1.saveUserPoints userPoints, .success created.2)

/-! ## `RewardHandler.ExchangeReward` (`reward.go`) -/

/-- Body of `POST /rewards/exchange` (`ExchangeRewardRequest`); `ChildID` is the
optional `child_id`, zero when the body does not supply it. -/
structure ExchangeRewardRequest where
  RewardID : Nat
  PointsUsed : Int
  ChildID : Nat
  deriving DecidableEq, Repr

/-- Outcome of `ShouldBindJSON` on an `ExchangeRewardRequest`: `reward_id` and
`points_used` are tagged `binding:"required"`. -/
def ExchangeRewardRequest.bind (req : ExchangeRewardRequest) : Bool :=
  req.RewardID != 0 && req.PointsUsed != 0

/-- Payload of the 200 answer of `ExchangeReward`. -/
structure ExchangeData where
  exchange_id : Nat
  reward_name : String
  points : Int
  remaining_points : Int
  exchanged_at : Nat
  status : String
  deriving DecidableEq, Repr

/-- Query `First(&reward, rewardID)`: lookup by primary key. -/
def Store.firstReward (s : Store) (rewardID : Nat) : Option Reward :=
  s.rewards.find? (fun r => r.ID == rewardID)

/-- Statement `Save(&reward)`: overwrite the row with the same primary key, insert
when there is none. -/
def Store.saveReward (s : Store) (r : Reward) : Store :=
  if s.rewards.any (fun q => q.ID == r.ID) then
    { s with rewards := s.rewards.map (fun q => if q.ID == r.ID then r else q) }
  else { s with rewards := s.rewards ++ [r] }

/-- Statement `Create(&exchangeRecord)`: the row gets the next primary key. -/
def Store.createExchangeRecord (s : Store) (r : ExchangeRecord) : Store × ExchangeRecord :=
  let row := { r with ID := s.lastExchangeRecordID + 1 }
  ({ s with exchangeRecords := s.exchangeRecords ++ [row],
            lastExchangeRecordID := s.lastExchangeRecordID + 1 }, row)

/-- Lines 169-187: who the exchange is for.  A parent must name one of their own
children; every other role redeems for itself. -/
def resolveTargetUser (s : Store) (a : Actor) (req : ExchangeRewardRequest) :
    Except (Response ExchangeData) Nat :=
  if a.userRole = "parent" then
    if req.ChildID = 0 then
      .error (.failure 400 "Child ID is required for parent")
    else
      match s.firstChildOfParent req.ChildID a.userID with
      | none => .error (.failure 403 "Child not found or permission denied")
      | some _ => .ok req.ChildID
  else
    .ok a.userID

/-- Lines 220-265: the transaction that debits the points, takes one unit of
stock and appends the exchange record, and the 200 answer. -/
def commitExchange (s : Store) (now : Nat) (targetUserID : Nat) (req : ExchangeRewardRequest)
    (reward : Reward) (userPoints : UserPoints) : Store × Response ExchangeData :=
  let userPoints :=
    { userPoints with AvailablePoints := subInt userPoints.AvailablePoints reward.Points }
  let tx := s.saveUserPoints userPoints
  let reward := { reward with Stock := subInt reward.Stock 1 }
  let tx := tx.saveReward reward
  let created := tx.createExchangeRecord
    { ID := 0, UserID := targetUserID, RewardID := req.RewardID,
      PointsUsed := reward.Points, ExchangedAt := now, Status := "completed" }
  (created.1,
    .success
      { exchange_id := created.2.ID, reward_name := reward.Name,
        points := created.2.PointsUsed, remaining_points := userPoints.AvailablePoints,
        exchanged_at := created.2.ExchangedAt, status := created.2.Status })

/-- Lines 189-265: the five checks, then the transaction, for the resolved
`targetUserID`. -/
def exchangeFor (s : Store) (now : Nat) (targetUserID : Nat) (req : ExchangeRewardRequest) :
    Store × Response ExchangeData :=
  match s.firstReward req.RewardID with
  | none => (s, .failure 404 "Reward not found")
  | some reward =>
    if reward.IsActive = false then
      (s, .failure 400 "Reward is not active")
    else if reward.Stock ≤ 0 then
      (s, .failure 400 "Reward is out of stock")
    else
      match s.firstUserPoints targetUserID with
      | none => (s, .failure 404 "User points not found")
      | some userPoints =>
        if userPoints.AvailablePoints < reward.Points then
          (s, .failure 400 "Insufficient points")
        else
          commitExchange s now targetUserID req reward userPoints

/-- The handler `ExchangeReward`. -/
def ExchangeReward (s : Store) (now : Nat) (a : Actor) (req : ExchangeRewardRequest) :
    Store × Response ExchangeData :=
  if req.bind = false then
    (s, .bindFailure)
  else
    match resolveTargetUser s a req with
    | .error e => (s, e)
    | .ok targetUserID => exchangeFor s now targetUserID req

/-! ## `AuthHandler.Register` (`auth.go`) and `UserHandler.CreateChild` (`user.go`) -/

/-- Body of `POST /auth/register` (`RegisterRequest`). -/
structure RegisterRequest where
  Phone : String
  Password : String
  Nickname : String
  Role : String
  deriving DecidableEq, Repr

/-- Outcome of `ShouldBindJSON` on a `RegisterRequest`: all four fields are
required, the password has at least 6 characters and the role is `parent`. -/
def RegisterRequest.bind (req : RegisterRequest) : Bool :=
  req.Phone != "" && req.Password != "" && decide (6 ≤ req.Password.length) &&
    req.Nickname != "" && req.Role == "parent"

/-- Payload of the 200 answer of `Register`. -/
structure RegisterData where
  user_id : Nat
  token : String
  user : User
  deriving DecidableEq, Repr

/-- Statement `Create(&user)`: the row gets the next primary key. -/
def Store.createUser (s : Store) (u : User) : Store × User :=
  let row := { u with ID := s.lastUserID + 1 }
  ({ s with users := s.users ++ [row], lastUserID := s.lastUserID + 1 }, row)

/-- The handler `Register`.  `hashed` is the result of `utils.HashPassword` on the
request's password and `token` maps the new user id to the result of
`utils.GenerateToken` (`none` when the call returns an error). -/
def Register (s : Store) (hashed : Option String) (token : Nat → Option String)
    (req : RegisterRequest) : Store × Response RegisterData :=
  if req.bind = false then
    (s, .bindFailure)
  else if s.users.any (fun u => u.Phone == some req.Phone) then
    (s, .failure 409 "Phone number already exists")
  else
    match hashed with
    | none => (s, .failure 500 "Failed to hash password")
    | some hashedPassword =>
      let created := s.createUser
        { ID := 0, Phone := some req.Phone, Password := some hashedPassword,
          Nickname := req.Nickname, Email := "", Avatar := "", Age := 0, Gender := "",
          Role := "parent", ParentID := none }
      let withPoints := created.1.createUserPoints
        { ID := 0, UserID := created.2.ID, TotalPoints := 0, AvailablePoints := 0 }
      match token created.2.ID with
      | none => (withPoints.1, .failure 500 "Failed to generate token")
      | some tok =>
        (withPoints.1, .success { user_id := created.2.ID, token := tok, user := created.2 })

/-- Body of `POST /children` (`CreateChildRequest`). -/
structure CreateChildRequest where
  Nickname : String
  Age : Int
  Gender : String
  Avatar : String
  deriving DecidableEq, Repr

/-- Outcome of `ShouldBindJSON` on a `CreateChildRequest`: only `nickname` is
required. -/
def CreateChildRequest.bind (req : CreateChildRequest) : Bool :=
  req.Nickname != ""

/-- The handler `CreateChild`; the 200 payload is the new account (its two point
counters are reported as the constants 0 and 0). -/
def CreateChild (s : Store) (a : Actor) (req : CreateChildRequest) :
    Store × Response User :=
  if a.userRole ≠ "parent" then
    (s, .failure 403 "Only parents can create child accounts")
  else if req.bind = false then
    (s, .bindFailure)
  else
    let parentID := a.userID
    let created := s.createUser
      { ID := 0, Phone := none, Password := none, Nickname := req.Nickname, Email := "",
        Avatar := req.Avatar, Age := req.Age, Gender := req.Gender, Role := "child",
        ParentID := some parentID }
    let withPoints := created.1.createUserPoints
      { ID := 0, UserID := created.2.ID, TotalPoints := 0, AvailablePoints := 0 }
    (withPoints.1, .success created.2)

/-! ## `RewardHandler.CreateReward` (`reward.go`) -/

/-- Body of `POST /rewards` (`CreateRewardRequest`). -/
structure CreateRewardRequest where
  Name : String
  Description : String
  PointsCost : Int
  Image : String
  Stock : Int
  deriving DecidableEq, Repr

/-- Outcome of `ShouldBindJSON` on a `CreateRewardRequest`: `name` is required,
`points_cost` is `required,min=1` and `stock` is `required,min=0`. -/
def CreateRewardRequest.bind (req : CreateRewardRequest) : Bool :=
  req.Name != "" && req.PointsCost != 0 && decide (1 ≤ req.PointsCost) &&
    req.Stock != 0 && decide (0 ≤ req.Stock)

/-- Statement `Create(&reward)`: the row gets the next primary key; a zero `Stock`
or a false `IsActive` is left to the column default (`default:1`, `default:true`). -/
def Store.createReward (s : Store) (r : Reward) : Store × Reward :=
  let row :=
    { r with ID := s.lastRewardID + 1,
             Stock := if r.Stock = 0 then 1 else r.Stock,
             IsActive := true }
  ({ s with rewards := s.rewards ++ [row], lastRewardID := s.lastRewardID + 1 }, row)

/-- The handler `CreateReward`; the 200 payload is the new catalog row. -/
def CreateReward (s : Store) (a : Actor) (req : CreateRewardRequest) :
    Store × Response Reward :=
  if a.userRole ≠ "parent" then
    (s, .failure 403 "Only parents can create rewards")
  else if req.bind = false then
    (s, .bindFailure)
  else
    let parentID := a.userID
    let created := s.createReward
      { ID := 0, Name := req.Name, Description := req.Description, Points := req.PointsCost,
        Image := req.Image, Stock := req.Stock, CreatedBy := parentID, IsActive := true }
    (created.1, .success created.2)

/-! ## Sequences of `RecordBehavior` calls -/

/-- The store after the calls `(now, request)` of the list, made one after another by `a`. -/
def recordBehaviors (s : Store) (a : Actor) : List (Nat × RecordBehaviorRequest) → Store
  | [] => s
  | c :: rest => recordBehaviors (RecordBehavior s c.1 a c.2).1 a rest

/-- Whether every call of the list, made one after another by `a`, answers 200. -/
def recordBehaviorsSucceed (s : Store) (a : Actor) : List (Nat × RecordBehaviorRequest) → Bool
  | [] => true
  | c :: rest =>
    (RecordBehavior s c.1 a c.2).2.isSuccess &&
      recordBehaviorsSucceed (RecordBehavior s c.1 a c.2).1 a rest

/-- The `total_points` of a user, 0 when the user has no points row. -/
def totalOf (s : Store) (userID : Nat) : Int :=
  match s.firstUserPoints userID with
  | some p => p.TotalPoints
  | none => 0

/-- The `available_points` of a user, 0 when the user has no points row. -/
def availableOf (s : Store) (userID : Nat) : Int :=
  match s.firstUserPoints userID with
  | some p => p.AvailablePoints
  | none => 0

/-- No addition leaves the range of `int` when the score changes of the list are
applied, in order, to the counters `total` and `available`. -/
def noOverflow (total available : Int) : List Int → Bool
  | [] => true
  | d :: ds =>
    decide (InInt (total + d)) && decide (InInt (available + d)) &&
      noOverflow (total + d) (max 0 (available + d)) ds

/-- The spendable balance that the rule "add, then floor at 0" gives when the score
changes of the list are applied in order to `available`. -/
def clampedSum (available : Int) : List Int → Int
  | [] => available
  | d :: ds => clampedSum (max 0 (available + d)) ds

/-- The score changes carried by a list of calls, oldest first. -/
def scoreChanges (calls : List (Nat × RecordBehaviorRequest)) : List Int :=
  calls.map (fun x => x.2.ScoreChange)

/-! ## Sequences of calls to the mutating handlers of the points flow -/

/-- One call to a handler, with everything the handler reads besides the store. -/
inductive Call where
  | register (hashed : Option String) (token : Nat → Option String) (req : RegisterRequest)
  | createChild (a : Actor) (req : CreateChildRequest)
  | createReward (a : Actor) (req : CreateRewardRequest)
  | recordBehavior (now : Nat) (a : Actor) (req : RecordBehaviorRequest)
  | exchangeReward (now : Nat) (a : Actor) (req : ExchangeRewardRequest)

/-- The store a call leaves behind, whether it answers 200 or not. -/
def Call.run (s : Store) : Call → Store
  | .register hashed token req => (Register s hashed token req).1
  | .createChild a req => (CreateChild s a req).1
  | .createReward a req => (CreateReward s a req).1
  | .recordBehavior now a req => (RecordBehavior s now a req).1
  | .exchangeReward now a req => (ExchangeReward s now a req).1

/-- The store after the calls of the list, made one after another. -/
def runCalls (s : Store) : List Call → Store
  | [] => s
  | c :: rest => runCalls (c.run s) rest

/-- The call does not push a spendable balance past the largest `int`: for a
`RecordBehavior` call, the child's current `available_points` plus the score
change is at most `maxInt`. -/
def Call.inRange (s : Store) : Call → Bool
  | .recordBehavior _ _ req => decide (availableOf s req.ChildID + req.ScoreChange ≤ maxInt)
  | _ => true

/-- Every call of the list is `inRange` in the store it is made on. -/
def callsInRange (s : Store) : List Call → Bool
  | [] => true
  | c :: rest => c.inRange s && callsInRange (c.run s) rest

/-- Every spendable balance lies between 0 and the largest `int`, and no reward
has a negative price. -/
def PointsInvariant (s : Store) : Prop :=
  (∀ p ∈ s.userPoints, 0 ≤ p.AvailablePoints ∧ p.AvailablePoints ≤ maxInt) ∧
    (∀ r ∈ s.rewards, 0 ≤ r.Points)

/-- Every stored counter, price and stock is a 64-bit Go `int`. -/
def StoredInts (s : Store) : Prop :=
  (∀ p ∈ s.userPoints, InInt p.TotalPoints ∧ InInt p.AvailablePoints) ∧
    (∀ r ∈ s.rewards, InInt r.Points ∧ InInt r.Stock)

/-! ## The validation sequence of the exchange, as the specification words it -/

/-- The five checks of the specification's validation sequence. -/
inductive ExchangeCheck where
  | rewardExists
  | rewardActive
  | inStock
  | balanceExists
  | enoughPoints
  deriving DecidableEq, Repr

/-- The order in which the specification lists the checks. -/
def exchangeChecks : List ExchangeCheck :=
  [.rewardExists, .rewardActive, .inStock, .balanceExists, .enoughPoints]

/-- Whether a check holds for reward `rewardID` and beneficiary `targetUserID`:
the reward exists; it is active; its stock is positive; the beneficiary has a
points row; the available points cover the price. -/
def ExchangeCheck.holds (s : Store) (targetUserID rewardID : Nat) : ExchangeCheck → Bool
  | .rewardExists => (s.firstReward rewardID).isSome
  | .rewardActive =>
    match s.firstReward rewardID with
    | some r => r.IsActive
    | none => false
  | .inStock =>
    match s.firstReward rewardID with
    | some r => decide (0 < r.Stock)
    | none => false
  | .balanceExists => (s.firstUserPoints targetUserID).isSome
  | .enoughPoints =>
    match s.firstReward rewardID, s.firstUserPoints targetUserID with
    | some r, some p => decide (r.Points ≤ p.AvailablePoints)
    | _, _ => false

/-- The answer the handler gives when a check does not hold. -/
def ExchangeCheck.failure : ExchangeCheck → Response ExchangeData
  | .rewardExists => .failure 404 "Reward not found"
  | .rewardActive => .failure 400 "Reward is not active"
  | .inStock => .failure 400 "Reward is out of stock"
  | .balanceExists => .failure 404 "User points not found"
  | .enoughPoints => .failure 400 "Insufficient points"

/-- The first check, in the specification's order, that does not hold. -/
def firstFailedCheck (s : Store) (targetUserID rewardID : Nat) : Option ExchangeCheck :=
  exchangeChecks.find? (fun c => !c.holds s targetUserID rewardID)

/-! ## A small family, used to run the handlers on concrete inputs -/

/-- The parent account with id 1, as seen by the handlers after login. -/
def demoParent : Actor := { userID := 1, userRole := "parent" }

/-- The child account with id 2, as seen by the handlers after login. -/
def demoChild : Actor := { userID := 2, userRole := "child" }

/-- The first two calls of every run below: the parent registers and creates a child. -/
def demoSetup : List Call :=
  [.register (some "hash") (fun _ => some "token")
      { Phone := "13800000000", Password := "secret", Nickname := "Parent", Role := "parent" },
   .createChild demoParent { Nickname := "Kid", Age := 7, Gender := "", Avatar := "" }]

/-- The store after a parent registered (user 1) and created one child (user 2). -/
def demoFamily : Store := runCalls emptyStore demoSetup

/-- A `RecordBehavior` body for the child of `demoFamily` with the given score. -/
def demoBehavior (scoreChange : Int) : RecordBehaviorRequest :=
  { ChildID := 2, BehaviorType := "learning", BehaviorDesc := "homework",
    ScoreChange := scoreChange, ImageURL := "" }

/-- A `CreateReward` body: a toy for `price` points with `stock` units. -/
def demoReward (price stock : Int) : CreateRewardRequest :=
  { Name := "toy", Description := "", PointsCost := price, Image := "", Stock := stock }

/-- A run in which the child earns 5 points, spends them on a toy and is then
fined 15 points. -/
def demoCalls : List Call :=
  demoSetup ++
    [.createReward demoParent (demoReward 5 1),
     .recordBehavior 1 demoParent (demoBehavior 5),
     .exchangeReward 2 demoChild { RewardID := 1, PointsUsed := 5, ChildID := 0 },
     .recordBehavior 3 demoParent (demoBehavior (-15))]

/-- A run in which the parent records 2^62 points twice. -/
def overflowCalls : List Call :=
  demoSetup ++
    [.recordBehavior 1 demoParent (demoBehavior 4611686018427387904),
     .recordBehavior 2 demoParent (demoBehavior 4611686018427387904)]

/-- The store of `demoFamily` after the parent listed a toy for 5 points (one unit in
stock) and recorded +5 for the child. -/
def demoShop : Store :=
  runCalls emptyStore
    (demoSetup ++
      [.createReward demoParent (demoReward 5 1),
       .recordBehavior 1 demoParent (demoBehavior 5)])

/-- An `ExchangeReward` body for reward 1 carrying the given `points_used` and
`child_id`. -/
def demoExchange (pointsUsed : Int) (childID : Nat) : ExchangeRewardRequest :=
  { RewardID := 1, PointsUsed := pointsUsed, ChildID := childID }

/-- The store of `demoShop` after the child redeemed the only toy: stock 0 and no
spendable points left. -/
def demoSoldOut : Store :=
  (ExchangeReward demoShop 2 demoChild (demoExchange 5 0)).1

/-! ## `RewardHandler.UpdateReward` and `RewardHandler.DeleteReward` (`reward.go`) -/

/-- Result of `strconv.ParseUint(param, 10, 32)` on a path parameter: a non-empty
string of decimal digits whose value fits 32 bits, otherwise an error (`none`). -/
def parseUint32 (param : String) : Option Nat :=
  if param.data.isEmpty || !param.data.all Char.isDigit then none
  else
    let n := param.data.foldl (fun n c => 10 * n + (c.toNat - 48)) 0
    if n < 4294967296 then some n else none

/-- Body of `PUT /rewards/:reward_id` (the local `UpdateRewardRequest`); no field
carries a binding tag, so every body of this shape binds.  `IsActive` is the
`*bool`: `none` when the body has no `is_active`. -/
structure UpdateRewardRequest where
  Name : String
  Description : String
  Points : Int
  Image : String
  Stock : Int
  IsActive : Option Bool
  deriving DecidableEq, Repr

/-- Lines 380-399 applied to one row: the `updates` map built from the body,
written over the columns it names. -/
def applyRewardUpdates (req : UpdateRewardRequest) (r : Reward) : Reward :=
  let r := if req.Name ≠ "" then { r with Name := req.Name } else r
  let r := if req.Description ≠ "" then { r with Description := req.Description } else r
  let r := if req.Points > 0 then { r with Points := req.Points } else r
  let r := if req.Image ≠ "" then { r with Image := req.Image } else r
  let r := if req.Stock ≥ 0 then { r with Stock := req.Stock } else r
  match req.IsActive with
  | some active => { r with IsActive := active }
  | none => r

/-- Statement `Model(&models.Reward{}).Where("id = ?", rewardID).Updates(updates)`. -/
def Store.updatesReward (s : Store) (rewardID : Nat) (req : UpdateRewardRequest) : Store :=
  { s with
    rewards :=
      s.rewards.map (fun q => if q.ID == rewardID then applyRewardUpdates req q else q) }

/-- The handler `UpdateReward`; the 200 payload is its message. -/
def UpdateReward (s : Store) (a : Actor) (rewardIDParam : String) (req : UpdateRewardRequest) :
    Store × Response String :=
  if a.userRole ≠ "parent" then
    (s, .failure 403 "Only parents can update rewards")
  else
    match parseUint32 rewardIDParam with
    | none => (s, .failure 400 "Invalid reward ID")
    | some rewardID =>
      (s.updatesReward rewardID req, .success "Reward updated successfully")

/-- Query `Model(&models.ExchangeRecord{}).Where("reward_id = ?", rewardID).Count`. -/
def Store.countExchangesOfReward (s : Store) (rewardID : Nat) : Nat :=
  (s.exchangeRecords.filter (fun x => x.RewardID == rewardID)).length

/-- Statement `Model(&reward).Update("is_active", false)`. -/
def Store.deactivateReward (s : Store) (r : Reward) : Store :=
  { s with
    rewards :=
      s.rewards.map (fun q => if q.ID == r.ID then { q with IsActive := false } else q) }

/-- Statement `Delete(&reward)`: the row with the reward's primary key is removed. -/
def Store.deleteReward (s : Store) (r : Reward) : Store :=
  { s with rewards := s.rewards.filter (fun q => q.ID != r.ID) }

/-- The handler `DeleteReward`; the 200 payload is its message. -/
def DeleteReward (s : Store) (a : Actor) (rewardIDParam : String) : Store × Response String :=
  if a.userRole ≠ "parent" then
    (s, .failure 403 "Only parents can delete rewards")
  else
    match parseUint32 rewardIDParam with
    | none => (s, .failure 400 "Invalid reward ID")
    | some rewardID =>
      match s.firstReward rewardID with
      | none => (s, .failure 404 "Reward not found")
      | some reward =>
        if reward.CreatedBy ≠ a.userID then
          (s, .failure 403 "Permission denied")
        else if s.countExchangesOfReward rewardID > 0 then
          (s.deactivateReward reward, .success "Reward deactivated successfully")
        else
          (s.deleteReward reward, .success "Reward deleted successfully")

/-! ## The ledger seen from a child -/

/-- The sum of the score changes of all ledger rows whose subject is `childID`. -/
def ledgerSum (s : Store) (childID : Nat) : Int :=
  ((s.behaviorRecords.filter (fun b => b.ChildID == childID)).map
    (fun b => b.ScoreChange)).sum

/-- The points table as the database keeps it: primary keys are unique and were
handed out by the AUTO_INCREMENT counter, and `user_id` is unique. -/
def PointsTableWF (s : Store) : Prop :=
  (s.userPoints.map UserPoints.ID).Nodup ∧ (s.userPoints.map UserPoints.UserID).Nodup ∧
    ∀ p ∈ s.userPoints, p.ID ≤ s.lastUserPointsID

/-- The balance is a projection of the ledger, in Go arithmetic: the points table is
well-formed and every user's `total_points` is the sum of that user's ledger rows
reduced to a 64-bit `int`. -/
def LedgerInvariant (s : Store) : Prop :=
  PointsTableWF s ∧ ∀ c, totalOf s c = wrapInt (ledgerSum s c)

/-- A run that uses only CreateChild and RecordBehavior: a parent creates a child
(user 1) and records 2^62 points for it twice. -/
def overflowLedgerCalls : List Call :=
  [.createChild demoParent { Nickname := "Kid", Age := 7, Gender := "", Avatar := "" },
   .recordBehavior 1 demoParent
      { ChildID := 1, BehaviorType := "learning", BehaviorDesc := "homework",
        ScoreChange := 4611686018427387904, ImageURL := "" },
   .recordBehavior 2 demoParent
      { ChildID := 1, BehaviorType := "learning", BehaviorDesc := "homework",
        ScoreChange := 4611686018427387904, ImageURL := "" }]

/-- The store of `demoFamily` after the parent listed a toy for 5 points (one unit in
stock); the child's balance is still {0, 0}. -/
def demoToyShop : Store :=
  runCalls emptyStore (demoSetup ++ [.createReward demoParent (demoReward 5 1)])

/-- The toy of `demoToyShop` and `demoShop` as it is stored. -/
def demoToy : Reward :=
  { ID := 1, Name := "toy", Description := "", Points := 5, Image := "", Stock := 1,
    IsActive := true, CreatedBy := 1 }

/-- A store with a bicycle for 20 points (one unit in stock, reward 1) and 20
available points for the child. -/
def demoBikeShop : Store :=
  runCalls emptyStore
    (demoSetup ++
      [.createReward demoParent
          { Name := "bicycle", Description := "", PointsCost := 20, Image := "", Stock := 1 },
       .recordBehavior 1 demoParent (demoBehavior 20)])

/-- A store in which the toy (reward 1, 5 points, two units) has been redeemed once
by the child, who keeps 5 available points. -/
def demoUsedToy : Store :=
  runCalls emptyStore
    (demoSetup ++
      [.createReward demoParent (demoReward 5 2),
       .recordBehavior 1 demoParent (demoBehavior 10),
       .exchangeReward 2 demoChild (demoExchange 5 0)])

/-- An `UpdateReward` body that only switches the reward on again and sets one
unit of stock. -/
def demoReactivate : UpdateRewardRequest :=
  { Name := "", Description := "", Points := 0, Image := "", Stock := 1,
    IsActive := some true }

/-! ## Sequences of calls to the handlers that write the reward catalog -/

/-- One call to a handler that can write the `rewards` table. -/
inductive CatalogCall where
  | createReward (a : Actor) (req : CreateRewardRequest)
  | updateReward (a : Actor) (rewardIDParam : String) (req : UpdateRewardRequest)
  | deleteReward (a : Actor) (rewardIDParam : String)
  | exchangeReward (now : Nat) (a : Actor) (req : ExchangeRewardRequest)

/-- The store a catalog call leaves behind, whether it answers 200 or not. -/
def CatalogCall.run (s : Store) : CatalogCall → Store
  | .createReward a req => (CreateReward s a req).1
  | .updateReward a param req => (UpdateReward s a param req).1
  | .deleteReward a param => (DeleteReward s a param).1
  | .exchangeReward now a req => (ExchangeReward s now a req).1

/-- The store after the catalog calls of the list, made one after another. -/
def runCatalogCalls (s : Store) : List CatalogCall → Store
  | [] => s
  | c :: rest => runCatalogCalls (c.run s) rest

/-- The `stock` a request body carries is a 64-bit Go `int`. -/
def CatalogCall.wellTyped : CatalogCall → Bool
  | .createReward _ req => decide (InInt req.Stock)
  | .updateReward _ _ req => decide (InInt req.Stock)
  | _ => true

/-- Every reward has a positive price and a stock between 0 and the largest `int`. -/
def CatalogInvariant (s : Store) : Prop :=
  ∀ r ∈ s.rewards, 0 < r.Points ∧ 0 ≤ r.Stock ∧ r.Stock ≤ maxInt

/-- An `UpdateReward` body that carries nothing but a new name. -/
def demoRename : UpdateRewardRequest :=
  { Name := "ball", Description := "", Points := 0, Image := "", Stock := 0, IsActive := none }

/-- A second parent, registered after the first family; their account has id 3. -/
def otherParent : Actor := { userID := 3, userRole := "parent" }

/-- The store of `demoShop` after a second parent registered (user 3). -/
def demoTwoFamilies : Store :=
  (Register demoShop (some "hash2") (fun _ => some "token2")
    { Phone := "13900000000", Password := "secret", Nickname := "Other",
      Role := "parent" }).1

/-- An `UpdateReward` body that sets price 1, stock 99 and switches the reward off. -/
def demoHijack : UpdateRewardRequest :=
  { Name := "", Description := "", Points := 1, Image := "", Stock := 99,
    IsActive := some false }

/-- A run on the catalog: the child redeems the toy, the owner renames it, lists a
second reward and deletes the first. -/
def demoCatalogCalls : List CatalogCall :=
  [.exchangeReward 2 demoChild (demoExchange 5 0),
   .updateReward demoParent "1" demoRename,
   .createReward demoParent (demoReward 8 3),
   .deleteReward demoParent "1"]

/-! ## Stock of a reward against its exchange records -/

/-- The reward `rewardID` is stored with a stock that is at most the largest `int`,
its stock plus the number of exchange records that name it is `s0`, and the stock
is not negative when `s0` is not. -/
def StockConserved (s : Store) (rewardID : Nat) (s0 : Int) : Prop :=
  ∃ r, s.firstReward rewardID = some r ∧ r.Stock ≤ maxInt ∧
    r.Stock + (s.countExchangesOfReward rewardID : Int) = s0 ∧ (0 ≤ s0 → 0 ≤ r.Stock)

/-- A run on `demoToyShop` with three units of the toy: the child earns 12 points,
redeems the toy twice (5 points each) and fails the third time for lack of points. -/
def demoStockCalls : List Call :=
  [.recordBehavior 1 demoParent (demoBehavior 12),
   .exchangeReward 2 demoChild (demoExchange 5 0),
   .exchangeReward 3 demoParent (demoExchange 5 2),
   .exchangeReward 4 demoChild (demoExchange 5 0)]

/-- The store of `demoFamily` after the parent listed the toy with three units. -/
def demoStockShop : Store :=
  runCalls emptyStore (demoSetup ++ [.createReward demoParent (demoReward 5 3)])

/-- 1 when the call is an `ExchangeReward` of reward `rewardID` that answers 200
on store `s`, and 0 otherwise. -/
def Call.redeems (s : Store) (rewardID : Nat) : Call → Nat
  | .exchangeReward now a req =>
    if req.RewardID = rewardID ∧ (ExchangeReward s now a req).2.isSuccess = true then 1 else 0
  | _ => 0

/-- The number of `ExchangeReward` calls of reward `rewardID` that answer 200 when
the calls of the list are made one after another from `s`. -/
def successesOf (s : Store) (rewardID : Nat) : List Call → Nat
  | [] => 0
  | c :: rest => c.redeems s rewardID + successesOf (c.run s) rewardID rest

/-! ## The owner of a reward -/

/-- The store that differs from `s` only in the `created_by` of reward `rewardID`,
which becomes `owner`. -/
def Store.withCreatedBy (s : Store) (rewardID owner : Nat) : Store :=
  { s with
    rewards :=
      s.rewards.map (fun q => if q.ID == rewardID then { q with CreatedBy := owner } else q) }

/-- The store of `demoTwoFamilies` after the second parent (user 3), who has no
tie to the child of the first family, listed a reward of their own: reward 2, 5
points, one unit. -/
def demoForeignShop : Store :=
  (CreateReward demoTwoFamilies otherParent (demoReward 5 1)).1

/-! ## Points spent against points earned -/

/-- The sum of `points_used` over the exchange records of a user. -/
def spentBy (s : Store) (userID : Nat) : Int :=
  ((s.exchangeRecords.filter (fun x => x.UserID == userID)).map
    (fun x => x.PointsUsed)).sum

/-- The call adds no score that leaves the range of `int`: for a `RecordBehavior`
call, the child's `total_points` plus the score and the child's
`available_points` plus the score are both 64-bit values. -/
def Call.exact (s : Store) : Call → Bool
  | .recordBehavior _ _ req =>
    decide (InInt (totalOf s req.ChildID + req.ScoreChange)) &&
      decide (InInt (availableOf s req.ChildID + req.ScoreChange))
  | _ => true

/-- Every call of the list is `exact` in the store it is made on. -/
def callsExact (s : Store) : List Call → Bool
  | [] => true
  | c :: rest => c.exact s && callsExact (c.run s) rest

/-- The call is a `RecordBehavior` that answers 200 for child `userID` and takes
the floor of lines 103-105: the behavior is not "good" and the spendable balance
plus the score is negative. -/
def Call.clamps (s : Store) (userID : Nat) : Call → Bool
  | .recordBehavior now a req =>
    (RecordBehavior s now a req).2.isSuccess && req.ChildID == userID &&
      decide (behaviorTypeOf req.ScoreChange ≠ "good") &&
      decide (addInt (availableOf s userID) req.ScoreChange < 0)
  | _ => false

/-- Some call of the run, made one after another from `s`, `clamps` for `userID`. -/
def clampedFor (s : Store) (userID : Nat) : List Call → Bool
  | [] => false
  | c :: rest => c.clamps s userID || clampedFor (c.run s) userID rest

/-- A run that uses only CreateChild and RecordBehavior: a parent creates a child
(user 1), fines it 10 points, then records the largest `int` and 5 more points. -/
def overflowSpendCalls : List Call :=
  [.createChild demoParent { Nickname := "Kid", Age := 7, Gender := "", Avatar := "" },
   .recordBehavior 1 demoParent
      { ChildID := 1, BehaviorType := "chores", BehaviorDesc := "broke a vase",
        ScoreChange := -10, ImageURL := "" },
   .recordBehavior 2 demoParent
      { ChildID := 1, BehaviorType := "learning", BehaviorDesc := "homework",
        ScoreChange := 9223372036854775807, ImageURL := "" },
   .recordBehavior 3 demoParent
      { ChildID := 1, BehaviorType := "learning", BehaviorDesc := "homework",
        ScoreChange := 5, ImageURL := "" }]

/-- A run without a floor: the child earns 10 points and redeems the toy for 5. -/
def demoSpendCalls : List Call :=
  demoSetup ++
    [.createReward demoParent (demoReward 5 2),
     .recordBehavior 1 demoParent (demoBehavior 10),
     .exchangeReward 2 demoChild (demoExchange 5 0)]

/-! ## Storage faults in the transaction of `ExchangeReward` (`reward.go`) -/

/-- Which statements of lines 220-254 the database answers with an error. -/
structure ExchangeFaults where
  saveUserPoints : Bool
  saveReward : Bool
  createExchangeRecord : Bool
  commit : Bool
  deriving DecidableEq, Repr

/-- No statement fails. -/
def ExchangeFaults.none : ExchangeFaults :=
  { saveUserPoints := false, saveReward := false, createExchangeRecord := false,
    commit := false }

/-- Only `tx.Commit()` fails. -/
def ExchangeFaults.commitOnly : ExchangeFaults :=
  { saveUserPoints := false, saveReward := false, createExchangeRecord := false,
    commit := true }

/-- Lines 220-265 under faults.  An error of `tx.Save(&userPoints)`,
`tx.Save(&reward)` or `tx.Create(&exchangeRecord)` is read: the handler rolls back
and answers 500.  The result of `tx.Commit()` is not read: the handler goes on to
the 200 answer, built from its local variables, whether or not the transaction
was committed.  A transaction that was rolled back or not committed leaves the
tables as they were when it began. -/
def commitExchangeFaulty (s : Store) (now : Nat) (targetUserID : Nat)
    (req : ExchangeRewardRequest) (reward : Reward) (userPoints : UserPoints)
    (f : ExchangeFaults) : Store × Response ExchangeData :=
  let userPoints :=
    { userPoints with AvailablePoints := subInt userPoints.AvailablePoints reward.Points }
  if f.saveUserPoints then
    (s, .failure 500 "Failed to update points")
  else
    let tx := s.saveUserPoints userPoints
    let reward := { reward with Stock := subInt reward.Stock 1 }
    if f.saveReward then
      (s, .failure 500 "Failed to update stock")
    else
      let tx := tx.saveReward reward
      if f.createExchangeRecord then
        (s, .failure 500 "Failed to create exchange record")
      else
        let created := tx.createExchangeRecord
          { ID := 0, UserID := targetUserID, RewardID := req.RewardID,
            PointsUsed := reward.Points, ExchangedAt := now, Status := "completed" }
        (if f.commit then s else created.1,
          .success
            { exchange_id := created.2.ID, reward_name := reward.Name,
              points := created.2.PointsUsed, remaining_points := userPoints.AvailablePoints,
              exchanged_at := created.2.ExchangedAt, status := created.2.Status })

/-- Lines 189-265 under faults: the five checks, then the transaction. -/
def exchangeForFaulty (s : Store) (now : Nat) (targetUserID : Nat)
    (req : ExchangeRewardRequest) (f : ExchangeFaults) : Store × Response ExchangeData :=
  match s.firstReward req.RewardID with
  | none => (s, .failure 404 "Reward not found")
  | some reward =>
    if reward.IsActive = false then
      (s, .failure 400 "Reward is not active")
    else if reward.Stock ≤ 0 then
      (s, .failure 400 "Reward is out of stock")
    else
      match s.firstUserPoints targetUserID with
      | none => (s, .failure 404 "User points not found")
      | some userPoints =>
        if userPoints.AvailablePoints < reward.Points then
          (s, .failure 400 "Insufficient points")
        else
          commitExchangeFaulty s now targetUserID req reward userPoints f

/-- The handler `ExchangeReward` when the statements of its transaction may fail. -/
def ExchangeRewardFaulty (s : Store) (now : Nat) (a : Actor) (req : ExchangeRewardRequest)
    (f : ExchangeFaults) : Store × Response ExchangeData :=
  if req.bind = false then
    (s, .bindFailure)
  else
    match resolveTargetUser s a req with
    | .error e => (s, e)
    | .ok targetUserID => exchangeForFaulty s now targetUserID req f

/-! ## Storage faults in `RecordBehavior` (`behavior.go`) -/

/-- Which of the statements `h.db.Create(&behaviorRecord)` (line 78) and
`h.db.Save(&userPoints)` (line 108) the database answers with an error.  A fault
of the insert of a missing points row (line 92) is not modelled. -/
structure BehaviorFaults where
  createBehaviorRecord : Bool
  saveUserPoints : Bool
  deriving DecidableEq, Repr

/-- No statement fails. -/
def BehaviorFaults.none : BehaviorFaults :=
  { createBehaviorRecord := false, saveUserPoints := false }

/-- Only `h.db.Save(&userPoints)` fails. -/
def BehaviorFaults.saveOnly : BehaviorFaults :=
  { createBehaviorRecord := false, saveUserPoints := true }

/-- The handler `RecordBehavior` when its statements may fail.  There is no
transaction: each statement is applied when it is issued.  Only the error of
`h.db.Create(&behaviorRecord)` is read (500); a failed `h.db.Save(&userPoints)`
writes nothing and the handler still answers 200. -/
def RecordBehaviorFaulty (s : Store) (now : Nat) (a : Actor) (req : RecordBehaviorRequest)
    (f : BehaviorFaults) : Store × Response BehaviorRecord :=
  if a.userRole ≠ "parent" then
    (s, .failure 403 "Only parents can record behaviors")
  else if req.bind = false then
    (s, .bindFailure)
  else
    let parentID := a.userID
    match s.firstChildOfParent req.ChildID parentID with
    | none => (s, .failure 403 "Child not found or permission denied")
    | some _ =>
      let behaviorType := behaviorTypeOf req.ScoreChange
      if f.createBehaviorRecord then
        (s, .failure 500 "Failed to record behavior")
      else
        let created := s.createBehaviorRecord
          { ID := 0, ChildID := req.ChildID, RecorderID := parentID,
            BehaviorType := behaviorType, BehaviorDesc := req.BehaviorDesc,
            ScoreChange := req.ScoreChange, ImageURL := req.ImageURL, RecordedAt := now }
        let fetched := created.1.getOrCreateUserPoints req.ChildID
        let userPoints := applyScoreChange behaviorType req.ScoreChange fetched.2
        (if f.saveUserPoints then fetched.1 else fetched.1.saveUserPoints userPoints,
          .success created.2)

/-! ## `UserHandler.GetUserPoints` and `UserHandler.DeleteChild` (`user.go`) -/

/-- Payload of the 200 answer of `GetUserPoints`; its `updated_at` is a
gorm-managed column and is left out. -/
structure PointsData where
  total_points : Int
  available_points : Int
  deriving DecidableEq, Repr

/-- Query `First(&targetUser, targetUserID)`: lookup of an account by primary key. -/
def Store.firstUser (s : Store) (id : Nat) : Option User :=
  s.users.find? (fun u => u.ID == id)

/-- Lines 228-239 of `GetUserPoints`: the points row of the target, or 404. -/
def pointsOf (s : Store) (targetUserID : Nat) : Response PointsData :=
  match s.firstUserPoints targetUserID with
  | none => .failure 404 "Points record not found"
  | some userPoints =>
    .success { total_points := userPoints.TotalPoints,
               available_points := userPoints.AvailablePoints }

/-- The handler `GetUserPoints`; it writes nothing.  A child is refused for any
id but its own; a parent is refused unless the target account exists and its
`parent_id` is the parent's id. -/
def GetUserPoints (s : Store) (a : Actor) (userIDParam : String) : Response PointsData :=
  match parseUint32 userIDParam with
  | none => .failure 400 "Invalid user ID"
  | some targetUserID =>
    if a.userRole = "child" ∧ targetUserID ≠ a.userID then
      .failure 403 "Permission denied"
    else if a.userRole = "parent" then
      match s.firstUser targetUserID with
      | none => .failure 404 "User not found"
      | some targetUser =>
        if targetUser.ParentID = none ∨ targetUser.ParentID ≠ some a.userID then
          .failure 403 "Permission denied"
        else
          pointsOf s targetUserID
    else
      pointsOf s targetUserID

/-- Statement `Where("user_id = ?", userID).Delete(&models.UserPoints{})`. -/
def Store.deleteUserPointsOf (s : Store) (userID : Nat) : Store :=
  { s with userPoints := s.userPoints.filter (fun p => p.UserID != userID) }

/-- The integer columns of the table `behavior_records` under the names the gorm
tags give them (`models.go` lines 36-41): the field `ChildID` is the column
`user_id`, the field `ScoreChange` is the column `points`.  The table has no
column of any other name that holds an integer. -/
def behaviorRecordColumn (column : String) : Option (BehaviorRecord → Int) :=
  if column = "id" then some (fun b => b.ID)
  else if column = "user_id" then some (fun b => b.ChildID)
  else if column = "recorder_id" then some (fun b => b.RecorderID)
  else if column = "points" then some (fun b => b.ScoreChange)
  else none

/-- Statement `Where(column + " = ?", value).Delete(&models.BehaviorRecord{})` for an
identifier `value`: the rows whose column holds the value are removed.  When the
table has no such column the database rejects the statement and no row is
removed; `DeleteChild` does not read the error. -/
def Store.deleteBehaviorRecordsWhere (s : Store) (column : String) (value : Nat) : Store :=
  match behaviorRecordColumn column with
  | some col => { s with behaviorRecords := s.behaviorRecords.filter (fun b => col b != value) }
  | none => s

/-- Statement `Where("user_id = ?", userID).Delete(&models.ExchangeRecord{})`. -/
def Store.deleteExchangeRecordsOf (s : Store) (userID : Nat) : Store :=
  { s with exchangeRecords := s.exchangeRecords.filter (fun x => x.UserID != userID) }

/-- Whether a row of some table still points at account `id` through one of the
foreign keys that `AutoMigrate` derives from the associations of `models.go`:
`Parent` (another account's `parent_id`), `Child` and `Recorder` (behavior
records), `User` (points and exchange records) and `Creator` (rewards). -/
def Store.referencesUser (s : Store) (id : Nat) : Bool :=
  s.users.any (fun q => q.ID != id && q.ParentID == some id) ||
    s.behaviorRecords.any (fun b => b.ChildID == id || b.RecorderID == id) ||
    s.userPoints.any (fun p => p.UserID == id) ||
    s.rewards.any (fun r => r.CreatedBy == id) ||
    s.exchangeRecords.any (fun x => x.UserID == id)

/-- Statement `Delete(&child)`: the account with the child's primary key is
removed, unless a row of another table still references it; the database then
rejects the statement, and `DeleteChild` does not read the error. -/
def Store.deleteUser (s : Store) (u : User) : Store :=
  if s.referencesUser u.ID then s
  else { s with users := s.users.filter (fun q => q.ID != u.ID) }

/-- The handler `DeleteChild`; the 200 payload is its message.  The four delete
statements of lines 345-351 run one after another, outside any transaction, and
none of their errors is read. -/
def DeleteChild (s : Store) (a : Actor) (childIDParam : String) : Store × Response String :=
  if a.userRole ≠ "parent" then
    (s, .failure 403 "Only parents can delete child accounts")
  else
    match parseUint32 childIDParam with
    | none => (s, .failure 400 "Invalid child ID")
    | some childID =>
      let parentID := a.userID
      match s.firstChildOfParent childID parentID with
      | none => (s, .failure 403 "Child not found or permission denied")
      | some child =>
        let s := s.deleteUserPointsOf childID
        let s := s.deleteBehaviorRecordsWhere "child_id" childID
        let s := s.deleteExchangeRecordsOf childID
        let s := s.deleteUser child
        (s, .success "Child account deleted successfully")

/-! ## The handlers that write account columns only (`user.go`, `auth.go`) -/

/-- Body of `PUT /users/profile` (the local `UpdateRequest`); no field carries a
binding tag, so every body of this shape binds. -/
structure UpdateProfileRequest where
  Nickname : String
  Email : String
  Phone : String
  Avatar : String
  deriving DecidableEq, Repr

/-- Lines 172-185 applied to one row: the `updates` map built from the body,
written over the columns it names. -/
def applyProfileUpdates (req : UpdateProfileRequest) (u : User) : User :=
  let u := if req.Nickname ≠ "" then { u with Nickname := req.Nickname } else u
  let u := if req.Email ≠ "" then { u with Email := req.Email } else u
  let u := if req.Phone ≠ "" then { u with Phone := some req.Phone } else u
  if req.Avatar ≠ "" then { u with Avatar := req.Avatar } else u

/-- The handler `UpdateUserProfile`; the 200 payload is its message.  The
statement `Model(&models.User{}).Where("id = ?", userID).Updates(updates)` is
rejected by the unique index on `phone` when it would give the caller's row a
phone that another account has. -/
def UpdateUserProfile (s : Store) (a : Actor) (req : UpdateProfileRequest) :
    Store × Response String :=
  if req.Phone ≠ "" ∧ s.users.any (fun q => q.ID == a.userID) = true ∧
      s.users.any (fun q => q.ID != a.userID && q.Phone == some req.Phone) = true then
    (s, .failure 500 "Failed to update user profile")
  else
    ({ s with
       users := s.users.map (fun q => if q.ID == a.userID then applyProfileUpdates req q else q) },
      .success "Profile updated successfully")

/-- Body of `PUT /children/:child_id` (the local `UpdateChildRequest`); no field
carries a binding tag. -/
structure UpdateChildRequest where
  Nickname : String
  Age : Int
  Gender : String
  Avatar : String
  deriving DecidableEq, Repr

/-- Lines 283-295 applied to one row. -/
def applyChildUpdates (req : UpdateChildRequest) (u : User) : User :=
  let u := if req.Nickname ≠ "" then { u with Nickname := req.Nickname } else u
  let u := if req.Age > 0 then { u with Age := req.Age } else u
  let u := if req.Gender ≠ "" then { u with Gender := req.Gender } else u
  if req.Avatar ≠ "" then { u with Avatar := req.Avatar } else u

/-- The handler `UpdateChild`; the 200 payload is the account as it is read back
after the update. -/
def UpdateChild (s : Store) (a : Actor) (childIDParam : String) (req : UpdateChildRequest) :
    Store × Response User :=
  if a.userRole ≠ "parent" then
    (s, .failure 403 "Only parents can update child information")
  else
    match parseUint32 childIDParam with
    | none => (s, .failure 400 "Invalid child ID")
    | some childID =>
      let parentID := a.userID
      match s.firstChildOfParent childID parentID with
      | none => (s, .failure 403 "Child not found or permission denied")
      | some child =>
        let s' : Store :=
          { s with
            users := s.users.map (fun q => if q.ID == childID then applyChildUpdates req q else q) }
        (s', .success ((s'.firstUser childID).getD child))

/-- Body of `PUT /auth/password` (`ChangePasswordRequest`). -/
structure ChangePasswordRequest where
  OldPassword : String
  NewPassword : String
  deriving DecidableEq, Repr

/-- Outcome of `ShouldBindJSON` on a `ChangePasswordRequest`: both fields are
required and the new password has at least 6 characters. -/
def ChangePasswordRequest.bind (req : ChangePasswordRequest) : Bool :=
  req.OldPassword != "" && req.NewPassword != "" && decide (6 ≤ req.NewPassword.length)

/-- The handler `ChangePassword`; the 200 payload is its message.  `check` stands
for `utils.CheckPasswordHash` and `hashed` for the result of
`utils.HashPassword(req.NewPassword)` (`none` when bcrypt fails). -/
def ChangePassword (s : Store) (check : String → String → Bool) (hashed : Option String)
    (a : Actor) (req : ChangePasswordRequest) : Store × Response String :=
  if req.bind = false then
    (s, .bindFailure)
  else
    match s.firstUser a.userID with
    | none => (s, .failure 404 "User not found")
    | some user =>
      match user.Password with
      | none => (s, .failure 400 "旧密码不正确")
      | some stored =>
        if check req.OldPassword stored = false then
          (s, .failure 400 "旧密码不正确")
        else
          match hashed with
          | none => (s, .failure 500 "Failed to hash password")
          | some hashedPassword =>
            ({ s with
               users := s.users.map
                 (fun q => if q.ID == user.ID then { q with Password := some hashedPassword }
                   else q) },
              .success "密码修改成功")

/-! ## Sequences of calls to every handler that writes the store -/

/-- One call to any of the eleven handlers that write the database: the five of
`Call` (Register, CreateChild, CreateReward, RecordBehavior, ExchangeReward),
UpdateReward, DeleteReward, DeleteChild, UpdateUserProfile, UpdateChild and
ChangePassword.  Every other route of `routes.go` only reads it. -/
inductive AnyCall where
  | points (c : Call)
  | updateReward (a : Actor) (rewardIDParam : String) (req : UpdateRewardRequest)
  | deleteReward (a : Actor) (rewardIDParam : String)
  | deleteChild (a : Actor) (childIDParam : String)
  | updateUserProfile (a : Actor) (req : UpdateProfileRequest)
  | updateChild (a : Actor) (childIDParam : String) (req : UpdateChildRequest)
  | changePassword (check : String → String → Bool) (hashed : Option String) (a : Actor)
      (req : ChangePasswordRequest)

/-- The store a call leaves behind, whether it answers 200 or not. -/
def AnyCall.run (s : Store) : AnyCall → Store
  | .points c => c.run s
  | .updateReward a param req => (UpdateReward s a param req).1
  | .deleteReward a param => (DeleteReward s a param).1
  | .deleteChild a param => (DeleteChild s a param).1
  | .updateUserProfile a req => (UpdateUserProfile s a req).1
  | .updateChild a param req => (UpdateChild s a param req).1
  | .changePassword check hashed a req => (ChangePassword s check hashed a req).1

/-- The store after the calls of the list, made one after another. -/
def runAnyCalls (s : Store) : List AnyCall → Store
  | [] => s
  | c :: rest => runAnyCalls (c.run s) rest

/-- The call is an UpdateReward that passes the role check, names reward
`rewardID` and carries `is_active = true`. -/
def AnyCall.reactivates (rewardID : Nat) : AnyCall → Bool
  | .updateReward a param req =>
    decide (a.userRole = "parent") && parseUint32 param == some rewardID &&
      req.IsActive == some true
  | _ => false

/-- The call is a DeleteChild. -/
def AnyCall.isDeleteChild : AnyCall → Bool
  | .deleteChild _ _ => true
  | _ => false

/-- The reward `rewardID`, whose key was handed out by the counter, is either no
longer stored or stored with `is_active = false`. -/
def Retired (s : Store) (rewardID : Nat) : Prop :=
  rewardID ≤ s.lastRewardID ∧
    match s.firstReward rewardID with
    | none => True
    | some r => r.IsActive = false

/-- The reward `rewardID` is stored with `is_active = false` and at least one
exchange record names it. -/
def Shelved (s : Store) (rewardID : Nat) : Prop :=
  ∃ r, s.firstReward rewardID = some r ∧ r.IsActive = false ∧
    0 < s.countExchangesOfReward rewardID

/-- A run on `demoUsedToy` after which the toy is gone: the owner deletes it
(deactivation, one record names it), deletes the child (which erases that
record) and deletes the toy again. -/
def demoWipeCalls : List AnyCall :=
  [.deleteReward demoParent "1", .deleteChild demoParent "2", .deleteReward demoParent "1"]

/-- A run on `demoUsedToy` after which the toy is still stored inactive: the owner
deletes it, renames it, deletes it again, records 3 more points for the child,
edits the child's account and their own profile and changes their password. -/
def demoRetiredCalls : List AnyCall :=
  [.updateReward demoParent "1" demoRename, .deleteReward demoParent "1",
   .points (.recordBehavior 7 demoParent (demoBehavior 3)),
   .updateChild demoParent "2" { Nickname := "Kiddo", Age := 8, Gender := "", Avatar := "" },
   .updateUserProfile demoParent
      { Nickname := "", Email := "p@example.org", Phone := "", Avatar := "" },
   .changePassword (fun old stored => stored == "hash" && old == "secret") (some "hash2")
      demoParent { OldPassword := "secret", NewPassword := "secret2" }]

/-! ## Two exchanges in flight -/

/-- What lines 163-218 of `ExchangeReward` leave in the handler's local variables
when every check has passed: the beneficiary and the two rows as they were read. -/
structure ExchangeSnapshot where
  targetUserID : Nat
  reward : Reward
  userPoints : UserPoints
  deriving DecidableEq, Repr

/-- Lines 163-218: binding, beneficiary and the five checks.  Every read goes
through `h.db`; the transaction is opened only afterwards (line 221). -/
def exchangeRead (s : Store) (a : Actor) (req : ExchangeRewardRequest) :
    Except (Response ExchangeData) ExchangeSnapshot :=
  if req.bind = false then
    .error .bindFailure
  else
    match resolveTargetUser s a req with
    | .error e => .error e
    | .ok targetUserID =>
      match s.firstReward req.RewardID with
      | none => .error (.failure 404 "Reward not found")
      | some reward =>
        if reward.IsActive = false then
          .error (.failure 400 "Reward is not active")
        else if reward.Stock ≤ 0 then
          .error (.failure 400 "Reward is out of stock")
        else
          match s.firstUserPoints targetUserID with
          | none => .error (.failure 404 "User points not found")
          | some userPoints =>
            if userPoints.AvailablePoints < reward.Points then
              .error (.failure 400 "Insufficient points")
            else
              .ok { targetUserID := targetUserID, reward := reward, userPoints := userPoints }

/-- Lines 220-265 run on the store as it is when the transaction begins, with the
rows that were read earlier. -/
def exchangeWrite (s : Store) (now : Nat) (req : ExchangeRewardRequest)
    (snap : ExchangeSnapshot) : Store × Response ExchangeData :=
  commitExchange s now snap.targetUserID req snap.reward snap.userPoints

/-- One request served alone: its reads, then its transaction on the same store. -/
def exchangeAlone (s : Store) (now : Nat) (a : Actor) (req : ExchangeRewardRequest) :
    Store × Response ExchangeData :=
  match exchangeRead s a req with
  | .error e => (s, e)
  | .ok snap => exchangeWrite s now req snap

/-- Two requests served by two goroutines under the schedule in which both finish
their reads before either opens its transaction; the transactions then run one
after the other.  The result is the final store and the two answers. -/
def exchangeRace (s : Store) (now1 : Nat) (a1 : Actor) (req1 : ExchangeRewardRequest)
    (now2 : Nat) (a2 : Actor) (req2 : ExchangeRewardRequest) :
    Store × Response ExchangeData × Response ExchangeData :=
  let read1 := exchangeRead s a1 req1
  let read2 := exchangeRead s a2 req2
  let done1 : Store × Response ExchangeData :=
    match read1 with
    | .error e => (s, e)
    | .ok snap => exchangeWrite s now1 req1 snap
  let done2 : Store × Response ExchangeData :=
    match read2 with
    | .error e => (done1.1, e)
    | .ok snap => exchangeWrite done1.1 now2 req2 snap
  (done2.1, done1.2, done2.2)

/-- The second child of the first family; their account has id 3. -/
def demoSibling : Actor := { userID := 3, userRole := "child" }

/-- A family with two children (users 2 and 3) who have 5 available points each,
and the toy for 5 points with one unit in stock. -/
def demoTwoChildren : Store :=
  runCalls emptyStore
    (demoSetup ++
      [.createChild demoParent { Nickname := "Sib", Age := 9, Gender := "", Avatar := "" },
       .createReward demoParent (demoReward 5 1),
       .recordBehavior 1 demoParent (demoBehavior 5),
       .recordBehavior 1 demoParent
          { ChildID := 3, BehaviorType := "learning", BehaviorDesc := "homework",
            ScoreChange := 5, ImageURL := "" }])

/-- The account row of the parent of `demoFamily`. -/
def demoParentUser : User :=
  { ID := 1, Phone := some "13800000000", Password := some "hash", Nickname := "Parent",
    Email := "", Avatar := "", Age := 0, Gender := "", Role := "parent", ParentID := none }

/-- The account row of the child of `demoFamily`. -/
def demoChildUser : User :=
  { ID := 2, Phone := none, Password := none, Nickname := "Kid", Email := "",
    Avatar := "", Age := 7, Gender := "", Role := "child", ParentID := some 1 }

/-! # Properties -/

theorem wrapInt_of_inInt {x : Int} (h : InInt x) : wrapInt x = x := by
  unfold InInt minInt maxInt at h
  unfold wrapInt
  omega

theorem wrapInt_inInt (x : Int) : InInt (wrapInt x) := by
  unfold InInt minInt maxInt wrapInt
  omega

theorem find?_map_replace {α : Type} (p q : α → Bool) (new : α) (hp : p new = true) :
    ∀ (l : List α) (a : α), l.find? p = some a → q a = true →
      (l.map (fun x => if q x then new else x)).find? p = some new := by
  intro l
  induction l with
  | nil => intro a h; simp at h
  | cons x xs ih =>
    intro a h hq
    by_cases hx : p x = true
    · have hax : x = a := by simpa [List.find?, hx] using h
      subst hax
      simp [List.find?, hq, hp]
    · have hx' : p x = false := by simpa using hx
      have h' : xs.find? p = some a := by simpa [List.find?, hx'] using h
      by_cases hqx : q x = true
      · simp [List.find?, hqx, hp]
      · rw [List.map_cons, if_neg hqx, List.find?_cons, hx']
        exact ih a h' hq

theorem saveUserPoints_first (s : Store) (uid : Nat) (p0 p : UserPoints)
    (h0 : s.firstUserPoints uid = some p0) (hid : p.ID = p0.ID) (hu : p.UserID = uid) :
    (s.saveUserPoints p).firstUserPoints uid = some p := by
  unfold Store.firstUserPoints at h0 ⊢
  have hmem : p0 ∈ s.userPoints := List.mem_of_find?_eq_some h0
  have hany : s.userPoints.any (fun q => q.ID == p.ID) = true := by
    rw [List.any_eq_true]
    exact ⟨p0, hmem, by simp [hid]⟩
  unfold Store.saveUserPoints
  rw [if_pos hany]
  simp only
  exact find?_map_replace (fun q => q.UserID == uid) (fun q => q.ID == p.ID) p (by simp [hu])
    s.userPoints p0 h0 (by simp [hid])
theorem createBehaviorRecord_userPoints (s : Store) (r : BehaviorRecord) :
    (s.createBehaviorRecord r).1.userPoints = s.userPoints := rfl

theorem createBehaviorRecord_firstUserPoints (s : Store) (r : BehaviorRecord) (uid : Nat) :
    (s.createBehaviorRecord r).1.firstUserPoints uid = s.firstUserPoints uid := rfl

/-- After the get-or-create step the user has a row, the one handed back. -/
theorem getOrCreateUserPoints_first (s : Store) (uid : Nat) :
    (s.getOrCreateUserPoints uid).1.firstUserPoints uid = some (s.getOrCreateUserPoints uid).2 := by
  unfold Store.getOrCreateUserPoints
  cases h : s.firstUserPoints uid with
  | some p => simpa using h
  | none =>
    have hall : ∀ q ∈ s.userPoints, (q.UserID == uid) = false := by
      intro q hq
      have := List.find?_eq_none.mp h q hq
      simpa using this
    have hany : s.userPoints.any (fun q => q.UserID == uid) = false := by
      rw [List.any_eq_false]
      intro q hq
      simpa using hall q hq
    simp only [Store.createUserPoints, hany]
    simp only [Store.firstUserPoints, Bool.false_eq_true, if_false]
    rw [List.find?_append]
    unfold Store.firstUserPoints at h
    simp [h]

theorem getOrCreateUserPoints_row (s : Store) (uid : Nat) :
    (s.getOrCreateUserPoints uid).2.UserID = uid ∧
    (s.getOrCreateUserPoints uid).2.TotalPoints = totalOf s uid ∧
    (s.getOrCreateUserPoints uid).2.AvailablePoints = availableOf s uid := by
  unfold Store.getOrCreateUserPoints totalOf availableOf
  cases h : s.firstUserPoints uid with
  | some p =>
    have := List.find?_some (by simpa [Store.firstUserPoints] using h)
    simpa using this
  | none =>
    simp only [Store.createUserPoints]
    split <;> simp
theorem applyScoreChange_keys (t : String) (d : Int) (p : UserPoints) :
    (applyScoreChange t d p).ID = p.ID ∧ (applyScoreChange t d p).UserID = p.UserID := by
  unfold applyScoreChange
  split <;> simp

/-- The counters written by lines 95-106 when neither addition overflows and
the spendable balance was not negative. -/
theorem applyScoreChange_exact (d : Int) (p : UserPoints) (ha : 0 ≤ p.AvailablePoints)
    (ht : InInt (p.TotalPoints + d)) (hd : InInt (p.AvailablePoints + d)) :
    (applyScoreChange (behaviorTypeOf d) d p).TotalPoints = p.TotalPoints + d ∧
    (applyScoreChange (behaviorTypeOf d) d p).AvailablePoints = max 0 (p.AvailablePoints + d) := by
  unfold applyScoreChange behaviorTypeOf addInt
  rw [wrapInt_of_inInt ht, wrapInt_of_inInt hd]
  by_cases hpos : d > 0
  · simp only [hpos, if_true]
    constructor
    · trivial
    · rw [max_eq_right (by omega)]
  · have hbad : ¬ ("bad" = "good") := by decide
    simp only [hpos, if_false, hbad]
    constructor
    · trivial
    · by_cases hneg : p.AvailablePoints + d < 0
      · rw [if_pos hneg, max_eq_left (by omega)]
      · rw [if_neg hneg, max_eq_right (by omega)]

/-- A 200 answer of `RecordBehavior` means: parent role, bound request, own child. -/
theorem RecordBehavior_success_inv (s : Store) (now : Nat) (a : Actor)
    (req : RecordBehaviorRequest) (h : (RecordBehavior s now a req).2.isSuccess = true) :
    a.userRole = "parent" ∧ req.bind = true ∧
      ∃ u, s.firstChildOfParent req.ChildID a.userID = some u := by
  unfold RecordBehavior at h
  by_cases hr : a.userRole = "parent"
  · by_cases hb : req.bind = true
    · refine ⟨hr, hb, ?_⟩
      cases hc : s.firstChildOfParent req.ChildID a.userID with
      | some u => exact ⟨u, rfl⟩
      | none => simp [hr, hb, hc, Response.isSuccess] at h
    · simp [hr, hb, Response.isSuccess] at h
  · simp [hr, Response.isSuccess] at h

/-- The store written by a `RecordBehavior` call that passes its three checks. -/
theorem RecordBehavior_store (s : Store) (now : Nat) (a : Actor) (req : RecordBehaviorRequest)
    (u : User) (hr : a.userRole = "parent") (hb : req.bind = true)
    (hc : s.firstChildOfParent req.ChildID a.userID = some u) :
    (RecordBehavior s now a req).1 =
      ((s.createBehaviorRecord
          { ID := 0, ChildID := req.ChildID, RecorderID := a.userID,
            BehaviorType := behaviorTypeOf req.ScoreChange, BehaviorDesc := req.BehaviorDesc,
            ScoreChange := req.ScoreChange, ImageURL := req.ImageURL,
            RecordedAt := now }).1.getOrCreateUserPoints req.ChildID).1.saveUserPoints
        (applyScoreChange (behaviorTypeOf req.ScoreChange) req.ScoreChange
          ((s.createBehaviorRecord
            { ID := 0, ChildID := req.ChildID, RecorderID := a.userID,
              BehaviorType := behaviorTypeOf req.ScoreChange, BehaviorDesc := req.BehaviorDesc,
              ScoreChange := req.ScoreChange, ImageURL := req.ImageURL,
              RecordedAt := now }).1.getOrCreateUserPoints req.ChildID).2) := by
  unfold RecordBehavior
  simp [hr, hb, hc]

/-- The points row of the child after a `RecordBehavior` call that passes its three checks. -/
theorem RecordBehavior_first (s : Store) (now : Nat) (a : Actor) (req : RecordBehaviorRequest)
    (u : User) (hr : a.userRole = "parent") (hb : req.bind = true)
    (hc : s.firstChildOfParent req.ChildID a.userID = some u) :
    ∃ p0 : UserPoints, p0.TotalPoints = totalOf s req.ChildID ∧
      p0.AvailablePoints = availableOf s req.ChildID ∧
      (RecordBehavior s now a req).1.firstUserPoints req.ChildID =
        some (applyScoreChange (behaviorTypeOf req.ScoreChange) req.ScoreChange p0) := by
  rw [RecordBehavior_store s now a req u hr hb hc]
  generalize hs1 : (s.createBehaviorRecord _).1 = s1
  have hup : s1.userPoints = s.userPoints := by rw [← hs1]; rfl
  have hrow := getOrCreateUserPoints_row s1 req.ChildID
  have hfirst := getOrCreateUserPoints_first s1 req.ChildID
  have ht : totalOf s1 req.ChildID = totalOf s req.ChildID := by
    unfold totalOf Store.firstUserPoints; rw [hup]
  have hav : availableOf s1 req.ChildID = availableOf s req.ChildID := by
    unfold availableOf Store.firstUserPoints; rw [hup]
  refine ⟨(s1.getOrCreateUserPoints req.ChildID).2, ?_, ?_, ?_⟩
  · rw [hrow.2.1, ht]
  · rw [hrow.2.2, hav]
  · have hk := applyScoreChange_keys (behaviorTypeOf req.ScoreChange) req.ScoreChange
      (s1.getOrCreateUserPoints req.ChildID).2
    exact saveUserPoints_first _ _ _ _ hfirst hk.1 (by rw [hk.2, hrow.1])
/-- One successful call: both counters of the child, when no addition overflows. -/
theorem RecordBehavior_counters (s : Store) (now : Nat) (a : Actor)
    (req : RecordBehaviorRequest)
    (hok : (RecordBehavior s now a req).2.isSuccess = true)
    (ha : 0 ≤ availableOf s req.ChildID)
    (ht : InInt (totalOf s req.ChildID + req.ScoreChange))
    (hd : InInt (availableOf s req.ChildID + req.ScoreChange)) :
    ∃ p, (RecordBehavior s now a req).1.firstUserPoints req.ChildID = some p ∧
      p.TotalPoints = totalOf s req.ChildID + req.ScoreChange ∧
      p.AvailablePoints = max 0 (availableOf s req.ChildID + req.ScoreChange) := by
  obtain ⟨hr, hb, u, hc⟩ := RecordBehavior_success_inv s now a req hok
  obtain ⟨p0, h0t, h0a, hfirst⟩ := RecordBehavior_first s now a req u hr hb hc
  have hex := applyScoreChange_exact req.ScoreChange p0 (by rw [h0a]; exact ha)
    (by rw [h0t]; exact ht) (by rw [h0a]; exact hd)
  exact ⟨_, hfirst, by rw [hex.1, h0t], by rw [hex.2, h0a]⟩

theorem noOverflow_cons (t a d : Int) (ds : List Int) (h : noOverflow t a (d :: ds) = true) :
    InInt (t + d) ∧ InInt (a + d) ∧ noOverflow (t + d) (max 0 (a + d)) ds = true := by
  simp only [noOverflow, Bool.and_eq_true, decide_eq_true_eq] at h
  exact ⟨h.1.1, h.1.2, h.2⟩

theorem noOverflow_append (d : Int) : ∀ (ds : List Int) (t a : Int),
    noOverflow t a (ds ++ [d]) = true →
      noOverflow t a ds = true ∧ InInt (t + ds.sum + d) ∧ InInt (clampedSum a ds + d) := by
  intro ds
  induction ds with
  | nil =>
    intro t a h
    have := noOverflow_cons t a d [] h
    simpa [noOverflow, clampedSum] using ⟨this.1, this.2.1⟩
  | cons x xs ih =>
    intro t a h
    have hc := noOverflow_cons t a x (xs ++ [d]) h
    obtain ⟨h1, h2, h3⟩ := ih _ _ hc.2.2
    refine ⟨?_, ?_, ?_⟩
    · simp only [noOverflow, Bool.and_eq_true, decide_eq_true_eq]
      exact ⟨⟨hc.1, hc.2.1⟩, h1⟩
    · have : t + (x :: xs).sum + d = t + x + xs.sum + d := by
        simp only [List.sum_cons]; ring
      rw [this]; exact h2
    · simpa [clampedSum] using h3

/-- Both counters of the child after a run of successful calls on that child, when
no addition overflows. -/
theorem recordBehaviors_counters (a : Actor) (c : Nat) :
    ∀ (calls : List (Nat × RecordBehaviorRequest)) (s : Store),
      recordBehaviorsSucceed s a calls = true → (∀ x ∈ calls, x.2.ChildID = c) →
      0 ≤ availableOf s c →
      noOverflow (totalOf s c) (availableOf s c) (calls.map (fun x => x.2.ScoreChange)) = true →
      totalOf (recordBehaviors s a calls) c =
          totalOf s c + (calls.map (fun x => x.2.ScoreChange)).sum ∧
        availableOf (recordBehaviors s a calls) c =
          clampedSum (availableOf s c) (calls.map (fun x => x.2.ScoreChange)) ∧
        0 ≤ availableOf (recordBehaviors s a calls) c := by
  intro calls
  induction calls with
  | nil => intro s _ _ ha _; simp [recordBehaviors, clampedSum, ha]
  | cons x xs ih =>
    intro s hok hch ha hno
    simp only [recordBehaviorsSucceed, Bool.and_eq_true] at hok
    have hx : x.2.ChildID = c := hch x (List.mem_cons_self _ _)
    have hno' := noOverflow_cons _ _ _ _ (by simpa using hno)
    obtain ⟨p, hp, hpt, hpa⟩ := RecordBehavior_counters s x.1 a x.2 hok.1
      (by rw [hx]; exact ha) (by rw [hx]; exact hno'.1) (by rw [hx]; exact hno'.2.1)
    rw [hx] at hp hpt hpa
    have ht1 : totalOf (RecordBehavior s x.1 a x.2).1 c = totalOf s c + x.2.ScoreChange := by
      unfold totalOf; rw [hp]; exact hpt
    have ha1 : availableOf (RecordBehavior s x.1 a x.2).1 c =
        max 0 (availableOf s c + x.2.ScoreChange) := by
      unfold availableOf; rw [hp]; exact hpa
    have := ih (RecordBehavior s x.1 a x.2).1 hok.2
      (fun y hy => hch y (List.mem_cons_of_mem _ hy))
      (by rw [ha1]; exact le_max_left _ _) (by rw [ht1, ha1]; exact hno'.2.2)
    rw [ht1, ha1] at this
    simp only [recordBehaviors, List.map_cons, List.sum_cons, clampedSum]
    refine ⟨?_, this.2.1, this.2.2⟩
    rw [this.1]; ring
theorem recordBehaviors_append (a : Actor) (now : Nat) (req : RecordBehaviorRequest) :
    ∀ (calls : List (Nat × RecordBehaviorRequest)) (s : Store),
      recordBehaviors s a (calls ++ [(now, req)]) =
        (RecordBehavior (recordBehaviors s a calls) now a req).1 := by
  intro calls
  induction calls with
  | nil => intro s; rfl
  | cons x xs ih => intro s; simp only [List.cons_append, recordBehaviors]; exact ih _

theorem recordBehaviorsSucceed_append (a : Actor) (now : Nat) (req : RecordBehaviorRequest) :
    ∀ (calls : List (Nat × RecordBehaviorRequest)) (s : Store),
      recordBehaviorsSucceed s a (calls ++ [(now, req)]) = true →
        recordBehaviorsSucceed s a calls = true ∧
        (RecordBehavior (recordBehaviors s a calls) now a req).2.isSuccess = true := by
  intro calls
  induction calls with
  | nil =>
    intro s h
    simpa [recordBehaviorsSucceed, recordBehaviors] using h
  | cons x xs ih =>
    intro s h
    simp only [List.cons_append, recordBehaviorsSucceed, Bool.and_eq_true] at h
    have := ih _ h.2
    simp only [recordBehaviorsSucceed, Bool.and_eq_true, recordBehaviors]
    exact ⟨⟨h.1, this.1⟩, this.2⟩

theorem counters_of_start (s : Store) (c : Nat)
    (hstart : ∀ p, s.firstUserPoints c = some p → p.TotalPoints = 0 ∧ p.AvailablePoints = 0) :
    totalOf s c = 0 ∧ availableOf s c = 0 := by
  unfold totalOf availableOf
  cases h : s.firstUserPoints c with
  | none => simp
  | some p => simpa using hstart p h

/-- C1 (amended): for every sequence of successful RecordBehavior calls on one child
that starts from a zeroed or absent balance and in which no addition leaves the range
of the 64-bit `int`, after each call availablePoints equals
max(0, availablePoints_before + scoreDelta) and totalPoints equals the unclamped sum
of all deltas recorded so far; in particular, after a clamp to 0, recording +k
leaves availablePoints = k. -/
theorem recordBehavior_running_balance (s : Store) (a : Actor) (c : Nat)
    (calls : List (Nat × RecordBehaviorRequest)) (now : Nat) (req : RecordBehaviorRequest)
    (hstart : ∀ p, s.firstUserPoints c = some p → p.TotalPoints = 0 ∧ p.AvailablePoints = 0)
    (hcalls : ∀ x ∈ calls, x.2.ChildID = c) (hreq : req.ChildID = c)
    (hok : recordBehaviorsSucceed s a (calls ++ [(now, req)]) = true)
    (hno : noOverflow 0 0 (scoreChanges (calls ++ [(now, req)])) = true) :
    ∃ p, (recordBehaviors s a (calls ++ [(now, req)])).firstUserPoints c = some p ∧
      p.AvailablePoints =
        max 0 (availableOf (recordBehaviors s a calls) c + req.ScoreChange) ∧
      p.TotalPoints = (scoreChanges (calls ++ [(now, req)])).sum ∧
      (availableOf (recordBehaviors s a calls) c = 0 → 0 < req.ScoreChange →
        p.AvailablePoints = req.ScoreChange) := by
  obtain ⟨ht0, ha0⟩ := counters_of_start s c hstart
  obtain ⟨hok1, hok2⟩ := recordBehaviorsSucceed_append a now req calls s hok
  simp only [scoreChanges] at hno ⊢
  rw [List.map_append] at hno
  obtain ⟨hno1, hnt, hna⟩ := noOverflow_append req.ScoreChange _ 0 0 (by simpa using hno)
  obtain ⟨hT, hA, hA0⟩ := recordBehaviors_counters a c calls s hok1 hcalls (by rw [ha0])
    (by rw [ht0, ha0]; exact hno1)
  rw [ht0] at hT
  rw [ha0] at hA
  obtain ⟨p, hp, hpt, hpa⟩ := RecordBehavior_counters (recordBehaviors s a calls) now a req hok2
    (by rw [hreq]; exact hA0) (by rw [hreq, hT]; exact hnt) (by rw [hreq, hA]; exact hna)
  rw [hreq] at hp hpt hpa
  refine ⟨p, ?_, hpa, ?_, ?_⟩
  · rw [recordBehaviors_append]; exact hp
  · rw [hpt, hT]; simp [List.sum_append]
  · intro hz hk
    rw [hpa, hz, zero_add]
    exact max_eq_right (le_of_lt hk)

/-- Witness for C1: +10 then -15 on the child of `demoFamily`. -/
theorem recordBehavior_running_balance_witness :
    (∀ p, demoFamily.firstUserPoints 2 = some p → p.TotalPoints = 0 ∧ p.AvailablePoints = 0) ∧
    (∀ x ∈ [((1 : Nat), demoBehavior 10)], x.2.ChildID = 2) ∧
    (demoBehavior (-15)).ChildID = 2 ∧
    recordBehaviorsSucceed demoFamily demoParent
      ([(1, demoBehavior 10)] ++ [(2, demoBehavior (-15))]) = true ∧
    noOverflow 0 0 (scoreChanges ([(1, demoBehavior 10)] ++ [(2, demoBehavior (-15))])) = true ∧
    ∃ p, (recordBehaviors demoFamily demoParent
        ([(1, demoBehavior 10)] ++ [(2, demoBehavior (-15))])).firstUserPoints 2 = some p ∧
      p.AvailablePoints =
        max 0 (availableOf (recordBehaviors demoFamily demoParent [(1, demoBehavior 10)]) 2 +
          (demoBehavior (-15)).ScoreChange) ∧
      p.TotalPoints = (scoreChanges ([(1, demoBehavior 10)] ++ [(2, demoBehavior (-15))])).sum ∧
      (availableOf (recordBehaviors demoFamily demoParent [(1, demoBehavior 10)]) 2 = 0 →
        0 < (demoBehavior (-15)).ScoreChange →
        p.AvailablePoints = (demoBehavior (-15)).ScoreChange) :=
  ⟨by decide, by decide, by decide, by decide, by decide,
    recordBehavior_running_balance demoFamily demoParent 2 [(1, demoBehavior 10)] 2
      (demoBehavior (-15)) (by decide) (by decide) (by decide) (by decide) (by decide)⟩

/-- C1 as stated fails: two successful calls of +2^62 each on the zeroed balance of the
child of `demoFamily` leave availablePoints and totalPoints at -2^63, which is neither
max(0, 2^62 + 2^62) nor the sum of the two deltas. -/
theorem recordBehavior_running_balance_counterexample :
    totalOf demoFamily 2 = 0 ∧ availableOf demoFamily 2 = 0 ∧
    recordBehaviorsSucceed demoFamily demoParent
      [(1, demoBehavior 4611686018427387904), (2, demoBehavior 4611686018427387904)] = true ∧
    availableOf (recordBehaviors demoFamily demoParent
      [(1, demoBehavior 4611686018427387904), (2, demoBehavior 4611686018427387904)]) 2 ≠
      max 0 (availableOf (recordBehaviors demoFamily demoParent
        [(1, demoBehavior 4611686018427387904)]) 2 + 4611686018427387904) ∧
    totalOf (recordBehaviors demoFamily demoParent
      [(1, demoBehavior 4611686018427387904), (2, demoBehavior 4611686018427387904)]) 2 ≠
      4611686018427387904 + 4611686018427387904 ∧
    availableOf (recordBehaviors demoFamily demoParent
      [(1, demoBehavior 4611686018427387904), (2, demoBehavior 4611686018427387904)]) 2 =
      -9223372036854775808 := by
  decide

theorem saveUserPoints_forall (P : UserPoints → Prop) (s : Store) (p : UserPoints)
    (hs : ∀ q ∈ s.userPoints, P q) (hp : P p) :
    ∀ q ∈ (s.saveUserPoints p).userPoints, P q := by
  unfold Store.saveUserPoints
  split
  · intro q hq
    simp only [List.mem_map] at hq
    obtain ⟨x, hx, rfl⟩ := hq
    split
    · exact hp
    · exact hs x hx
  · split
    · exact hs
    · intro q hq
      simp only [List.mem_append, List.mem_singleton] at hq
      rcases hq with hq | rfl
      · exact hs q hq
      · exact hp

theorem saveUserPoints_rewards (s : Store) (p : UserPoints) :
    (s.saveUserPoints p).rewards = s.rewards := by
  unfold Store.saveUserPoints
  split
  · rfl
  · split <;> rfl

theorem createUserPoints_forall (P : UserPoints → Prop) (s : Store) (p : UserPoints)
    (hs : ∀ q ∈ s.userPoints, P q) (hp : ∀ i, P { p with ID := i }) :
    ∀ q ∈ (s.createUserPoints p).1.userPoints, P q := by
  unfold Store.createUserPoints
  split
  · exact hs
  · intro q hq
    simp only [List.mem_append, List.mem_singleton] at hq
    rcases hq with hq | rfl
    · exact hs q hq
    · exact hp _

theorem createUserPoints_rewards (s : Store) (p : UserPoints) :
    (s.createUserPoints p).1.rewards = s.rewards := by
  unfold Store.createUserPoints
  split <;> rfl

theorem saveReward_forall (P : Reward → Prop) (s : Store) (r : Reward)
    (hs : ∀ q ∈ s.rewards, P q) (hr : P r) :
    ∀ q ∈ (s.saveReward r).rewards, P q := by
  unfold Store.saveReward
  split
  · intro q hq
    simp only [List.mem_map] at hq
    obtain ⟨x, hx, rfl⟩ := hq
    split
    · exact hr
    · exact hs x hx
  · intro q hq
    simp only [List.mem_append, List.mem_singleton] at hq
    rcases hq with hq | rfl
    · exact hs q hq
    · exact hr

theorem saveReward_userPoints (s : Store) (r : Reward) :
    (s.saveReward r).userPoints = s.userPoints := by
  unfold Store.saveReward
  split <;> rfl

theorem Register_invariant (s : Store) (hashed : Option String) (token : Nat → Option String)
    (req : RegisterRequest) (h : PointsInvariant s) :
    PointsInvariant (Register s hashed token req).1 := by
  have hz : ∀ (s1 : Store) (u : Nat), s1.userPoints = s.userPoints → s1.rewards = s.rewards →
      PointsInvariant (s1.createUserPoints
        { ID := 0, UserID := u, TotalPoints := 0, AvailablePoints := 0 }).1 := by
    intro s1 u h1 h2
    constructor
    · apply createUserPoints_forall
      · rw [h1]; exact h.1
      · intro i; simp [maxInt]
    · rw [createUserPoints_rewards, h2]; exact h.2
  unfold Register
  split
  · exact h
  · split
    · exact h
    · split
      · exact h
      · dsimp only
        split <;> exact hz _ _ rfl rfl

theorem CreateChild_invariant (s : Store) (a : Actor) (req : CreateChildRequest)
    (h : PointsInvariant s) : PointsInvariant (CreateChild s a req).1 := by
  unfold CreateChild
  split
  · exact h
  · split
    · exact h
    · constructor
      · apply createUserPoints_forall
        · exact h.1
        · intro i; simp [maxInt]
      · rw [createUserPoints_rewards]; exact h.2

theorem CreateReward_invariant (s : Store) (a : Actor) (req : CreateRewardRequest)
    (h : PointsInvariant s) : PointsInvariant (CreateReward s a req).1 := by
  unfold CreateReward
  split
  · exact h
  · split
    · exact h
    · rename_i hb
      have hb' : req.bind = true := by simpa using hb
      simp only [CreateRewardRequest.bind, Bool.and_eq_true, decide_eq_true_eq] at hb'
      constructor
      · exact h.1
      · intro r hr
        simp only [Store.createReward, List.mem_append, List.mem_singleton] at hr
        rcases hr with hr | rfl
        · exact h.2 r hr
        · simp only; omega

theorem applyScoreChange_available_bounds (d : Int) (p : UserPoints)
    (ha : 0 ≤ p.AvailablePoints) (hd : p.AvailablePoints + d ≤ maxInt) :
    0 ≤ (applyScoreChange (behaviorTypeOf d) d p).AvailablePoints ∧
      (applyScoreChange (behaviorTypeOf d) d p).AvailablePoints ≤ maxInt := by
  have hw := wrapInt_inInt (p.AvailablePoints + d)
  unfold InInt minInt maxInt at hw
  unfold maxInt at hd ⊢
  unfold applyScoreChange behaviorTypeOf addInt
  by_cases hpos : d > 0
  · simp only [hpos, if_true]
    have hin : InInt (p.AvailablePoints + d) := by
      unfold InInt minInt maxInt
      constructor <;> omega
    rw [wrapInt_of_inInt hin]
    constructor
    · omega
    · exact hd
  · have hbad : ¬ ("bad" = "good") := by decide
    simp only [hpos, if_false, hbad]
    split
    · omega
    · constructor
      · omega
      · exact hw.2

theorem availableOf_nonneg (s : Store) (c : Nat) (h : PointsInvariant s) :
    0 ≤ availableOf s c := by
  unfold availableOf
  cases hf : s.firstUserPoints c with
  | none => simp
  | some p => exact (h.1 p (List.mem_of_find?_eq_some hf)).1

theorem getOrCreateUserPoints_forall (P : UserPoints → Prop) (s : Store) (c : Nat)
    (hs : ∀ q ∈ s.userPoints, P q)
    (hp : ∀ i, P { ID := i, UserID := c, TotalPoints := 0, AvailablePoints := 0 }) :
    ∀ q ∈ (s.getOrCreateUserPoints c).1.userPoints, P q := by
  unfold Store.getOrCreateUserPoints
  split
  · exact hs
  · exact createUserPoints_forall P s _ hs hp

theorem getOrCreateUserPoints_rewards (s : Store) (c : Nat) :
    (s.getOrCreateUserPoints c).1.rewards = s.rewards := by
  unfold Store.getOrCreateUserPoints
  split
  · rfl
  · exact createUserPoints_rewards _ _

theorem RecordBehavior_fail_store (s : Store) (now : Nat) (a : Actor)
    (req : RecordBehaviorRequest) (h : (RecordBehavior s now a req).2.isSuccess = false) :
    (RecordBehavior s now a req).1 = s := by
  by_cases hr : a.userRole = "parent"
  · by_cases hb : req.bind = true
    · cases hc : s.firstChildOfParent req.ChildID a.userID with
      | none => simp [RecordBehavior, hr, hb, hc]
      | some u => simp [RecordBehavior, hr, hb, hc, Response.isSuccess] at h
    · simp [RecordBehavior, hr, hb]
  · simp [RecordBehavior, hr]

theorem RecordBehavior_invariant (s : Store) (now : Nat) (a : Actor)
    (req : RecordBehaviorRequest) (h : PointsInvariant s)
    (hr : availableOf s req.ChildID + req.ScoreChange ≤ maxInt) :
    PointsInvariant (RecordBehavior s now a req).1 := by
  cases hok : (RecordBehavior s now a req).2.isSuccess with
  | false => rw [RecordBehavior_fail_store s now a req hok]; exact h
  | true =>
    obtain ⟨hrole, hb, u, hc⟩ := RecordBehavior_success_inv s now a req hok
    rw [RecordBehavior_store s now a req u hrole hb hc]
    generalize hs1 : (s.createBehaviorRecord _).1 = s1
    have hup : s1.userPoints = s.userPoints := by rw [← hs1]; rfl
    have hrw : s1.rewards = s.rewards := by rw [← hs1]; rfl
    have hrow := getOrCreateUserPoints_row s1 req.ChildID
    have hav : availableOf s1 req.ChildID = availableOf s req.ChildID := by
      unfold availableOf Store.firstUserPoints; rw [hup]
    constructor
    · apply saveUserPoints_forall
      · apply getOrCreateUserPoints_forall
        · rw [hup]; exact h.1
        · intro i; simp [maxInt]
      · apply applyScoreChange_available_bounds
        · rw [hrow.2.2, hav]; exact availableOf_nonneg s _ h
        · rw [hrow.2.2, hav]; exact hr
    · rw [saveUserPoints_rewards, getOrCreateUserPoints_rewards, hrw]; exact h.2

theorem commitExchange_isSuccess (s : Store) (now t : Nat) (req : ExchangeRewardRequest)
    (r : Reward) (up : UserPoints) : (commitExchange s now t req r up).2.isSuccess = true := rfl

/-- Either `exchangeFor` stops at one of its five checks and hands back the store
it was given, or all five hold and it runs the transaction. -/
theorem exchangeFor_cases (s : Store) (now t : Nat) (req : ExchangeRewardRequest) :
    ((exchangeFor s now t req).1 = s ∧ (exchangeFor s now t req).2.isSuccess = false) ∨
    ∃ r up, s.firstReward req.RewardID = some r ∧ r.IsActive = true ∧ 0 < r.Stock ∧
      s.firstUserPoints t = some up ∧ r.Points ≤ up.AvailablePoints ∧
      exchangeFor s now t req = commitExchange s now t req r up := by
  unfold exchangeFor
  cases hr : s.firstReward req.RewardID with
  | none => left; simp [Response.isSuccess]
  | some r =>
    by_cases hact : r.IsActive = false
    · left; simp [hact, Response.isSuccess]
    · by_cases hst : r.Stock ≤ 0
      · left; simp [hact, hst, Response.isSuccess]
      · cases hp : s.firstUserPoints t with
        | none => left; simp [hact, hst, Response.isSuccess]
        | some up =>
          by_cases hlt : up.AvailablePoints < r.Points
          · left; simp [hact, hst, hlt, Response.isSuccess]
          · right
            refine ⟨r, up, rfl, by simpa using hact, by omega, rfl, by omega, ?_⟩
            simp [hact, hst, hlt]

/-- Either `ExchangeReward` answers an error and hands back the store it was given,
or the body binds, the beneficiary resolves, all five checks hold and it runs the
transaction for that beneficiary. -/
theorem ExchangeReward_cases (s : Store) (now : Nat) (a : Actor) (req : ExchangeRewardRequest) :
    ((ExchangeReward s now a req).1 = s ∧ (ExchangeReward s now a req).2.isSuccess = false) ∨
    ∃ t r up, req.bind = true ∧ resolveTargetUser s a req = .ok t ∧
      s.firstReward req.RewardID = some r ∧ r.IsActive = true ∧ 0 < r.Stock ∧
      s.firstUserPoints t = some up ∧ r.Points ≤ up.AvailablePoints ∧
      ExchangeReward s now a req = commitExchange s now t req r up := by
  unfold ExchangeReward
  by_cases hb : req.bind = false
  · left; simp [hb, Response.isSuccess]
  · cases ht : resolveTargetUser s a req with
    | error e =>
      left
      have he : e.isSuccess = false := by
        unfold resolveTargetUser at ht
        split at ht
        · split at ht
          · cases ht; rfl
          · split at ht
            · cases ht; rfl
            · cases ht
        · cases ht
      simp [hb, he]
    | ok t =>
      rcases exchangeFor_cases s now t req with h | ⟨r, up, h1, h2, h3, h4, h5, h6⟩
      · left; simpa [hb] using h
      · right
        exact ⟨t, r, up, by simpa using hb, rfl, h1, h2, h3, h4, h5, by simpa [hb] using h6⟩

theorem commitExchange_userPoints (s : Store) (now t : Nat) (req : ExchangeRewardRequest)
    (r : Reward) (up : UserPoints) :
    (commitExchange s now t req r up).1.userPoints =
      (s.saveUserPoints
        { up with AvailablePoints := subInt up.AvailablePoints r.Points }).userPoints := by
  unfold commitExchange Store.createExchangeRecord
  simp only
  exact saveReward_userPoints _ _

theorem commitExchange_rewards (s : Store) (now t : Nat) (req : ExchangeRewardRequest)
    (r : Reward) (up : UserPoints) :
    (commitExchange s now t req r up).1.rewards =
      (s.saveReward { r with Stock := subInt r.Stock 1 }).rewards := by
  unfold commitExchange Store.createExchangeRecord
  simp only
  unfold Store.saveReward
  simp only [saveUserPoints_rewards]
  split <;> rfl

theorem subInt_exact_of_le {x y : Int} (hx0 : 0 ≤ y) (hxy : y ≤ x) (hx : x ≤ maxInt) :
    subInt x y = x - y := by
  unfold maxInt at hx
  unfold subInt wrapInt
  omega

theorem ExchangeReward_invariant (s : Store) (now : Nat) (a : Actor)
    (req : ExchangeRewardRequest) (h : PointsInvariant s) :
    PointsInvariant (ExchangeReward s now a req).1 := by
  rcases ExchangeReward_cases s now a req with hfail | ⟨t, r, up, _, _, hr, _, _, hup, hle, heq⟩
  · rw [hfail.1]; exact h
  · rw [heq]
    have hrm : r ∈ s.rewards := List.mem_of_find?_eq_some hr
    have hum : up ∈ s.userPoints := List.mem_of_find?_eq_some hup
    have hp := h.1 up hum
    have hr0 := h.2 r hrm
    constructor
    · rw [commitExchange_userPoints]
      apply saveUserPoints_forall _ _ _ h.1
      simp only
      rw [subInt_exact_of_le hr0 hle hp.2]
      constructor <;> omega
    · rw [commitExchange_rewards]
      exact saveReward_forall _ _ _ h.2 hr0

theorem Call.run_invariant (s : Store) (c : Call) (h : PointsInvariant s)
    (hr : c.inRange s = true) : PointsInvariant (c.run s) := by
  cases c with
  | register hashed token req => exact Register_invariant s hashed token req h
  | createChild a req => exact CreateChild_invariant s a req h
  | createReward a req => exact CreateReward_invariant s a req h
  | recordBehavior now a req =>
    exact RecordBehavior_invariant s now a req h (by simpa [Call.inRange] using hr)
  | exchangeReward now a req => exact ExchangeReward_invariant s now a req h

theorem runCalls_invariant : ∀ (calls : List Call) (s : Store), PointsInvariant s →
    callsInRange s calls = true → PointsInvariant (runCalls s calls) := by
  intro calls
  induction calls with
  | nil => intro s h _; exact h
  | cons c rest ih =>
    intro s h hr
    simp only [callsInRange, Bool.and_eq_true] at hr
    exact ih _ (Call.run_invariant s c h hr.1) hr.2

theorem emptyStore_invariant : PointsInvariant emptyStore := by
  constructor <;> intro x hx <;> simp [emptyStore] at hx

/-- C2 (amended): in every state reachable from the empty store by any sequence of
Register, CreateChild, CreateReward, RecordBehavior and ExchangeReward calls
(successful or failing) in which no RecordBehavior call takes
availablePoints_before + scoreDelta beyond the largest 64-bit `int`, every
PointsBalance has availablePoints >= 0. -/
theorem availablePoints_nonneg_reachable (calls : List Call)
    (h : callsInRange emptyStore calls = true) :
    ∀ p ∈ (runCalls emptyStore calls).userPoints, 0 ≤ p.AvailablePoints :=
  fun p hp => ((runCalls_invariant calls emptyStore emptyStore_invariant h).1 p hp).1

/-- Witness for C2: the run `demoCalls`, which contains a successful exchange and a
clamped penalty. -/
theorem availablePoints_nonneg_reachable_witness :
    callsInRange emptyStore demoCalls = true ∧
      ∀ p ∈ (runCalls emptyStore demoCalls).userPoints, 0 ≤ p.AvailablePoints :=
  ⟨by decide, availablePoints_nonneg_reachable demoCalls (by decide)⟩

/-- C2 as stated fails: after Register, CreateChild and two RecordBehavior calls of
+2^62 each, the child's PointsBalance has availablePoints = -2^63 < 0. -/
theorem availablePoints_nonneg_counterexample :
    ∃ p ∈ (runCalls emptyStore overflowCalls).userPoints,
      p.UserID = 2 ∧ p.AvailablePoints = -9223372036854775808 ∧ p.AvailablePoints < 0 :=
  ⟨{ ID := 2, UserID := 2, TotalPoints := -9223372036854775808,
     AvailablePoints := -9223372036854775808 }, by decide, by decide, by decide, by decide⟩

theorem saveReward_first (s : Store) (rid : Nat) (r0 r : Reward)
    (h0 : s.firstReward rid = some r0) (hid : r.ID = r0.ID) :
    (s.saveReward r).firstReward rid = some r := by
  unfold Store.firstReward at h0 ⊢
  have hmem : r0 ∈ s.rewards := List.mem_of_find?_eq_some h0
  have hrid : r0.ID = rid := by simpa using List.find?_some h0
  have hany : s.rewards.any (fun q => q.ID == r.ID) = true := by
    rw [List.any_eq_true]
    exact ⟨r0, hmem, by simp [hid]⟩
  unfold Store.saveReward
  rw [if_pos hany]
  simp only
  exact find?_map_replace (fun q => q.ID == rid) (fun q => q.ID == r.ID) r
    (by simp [hid, hrid]) s.rewards r0 h0 (by simp [hid])

theorem commitExchange_exchangeRecords (s : Store) (now t : Nat) (req : ExchangeRewardRequest)
    (r : Reward) (up : UserPoints) :
    (commitExchange s now t req r up).1.exchangeRecords =
      s.exchangeRecords ++
        [{ ID := s.lastExchangeRecordID + 1, UserID := t, RewardID := req.RewardID,
           PointsUsed := r.Points, ExchangedAt := now, Status := "completed" }] := by
  unfold commitExchange Store.createExchangeRecord Store.saveReward Store.saveUserPoints
  simp only
  split <;> split <;> (try split) <;> rfl

theorem ExchangeRewardRequest.bind_pointsUsed (req : ExchangeRewardRequest) (pu : Int)
    (hb : req.bind = true) (hpu : pu ≠ 0) : ({ req with PointsUsed := pu }).bind = true := by
  simp only [ExchangeRewardRequest.bind, Bool.and_eq_true, bne_iff_ne, ne_eq] at hb ⊢
  exact ⟨hb.1, hpu⟩

/-- C3: every successful ExchangeReward call appends exactly one ExchangeRecord, for
the beneficiary and the requested reward, lowers that reward's stock by exactly 1
and lowers the beneficiary's availablePoints by exactly the reward's price at call
time; the record and the debit carry the price, not the request's points_used, and
any other non-zero points_used gives the same store and answer.  Stored integers are
Go ints and no stored price is negative. -/
theorem exchange_success_effects (s : Store) (now : Nat) (a : Actor)
    (req : ExchangeRewardRequest) (hints : StoredInts s) (hprice : ∀ r ∈ s.rewards, 0 ≤ r.Points)
    (hok : (ExchangeReward s now a req).2.isSuccess = true) :
    ∃ t r up, resolveTargetUser s a req = .ok t ∧
      s.firstReward req.RewardID = some r ∧ s.firstUserPoints t = some up ∧
      (ExchangeReward s now a req).1.exchangeRecords =
        s.exchangeRecords ++
          [{ ID := s.lastExchangeRecordID + 1, UserID := t, RewardID := req.RewardID,
             PointsUsed := r.Points, ExchangedAt := now, Status := "completed" }] ∧
      (ExchangeReward s now a req).1.firstReward req.RewardID =
        some { r with Stock := r.Stock - 1 } ∧
      (ExchangeReward s now a req).1.firstUserPoints t =
        some { up with AvailablePoints := up.AvailablePoints - r.Points } ∧
      ∀ pu : Int, pu ≠ 0 →
        ExchangeReward s now a { req with PointsUsed := pu } = ExchangeReward s now a req := by
  rcases ExchangeReward_cases s now a req with hfail | ⟨t, r, up, hb, ht, hr, hact, hst, hup, hle, heq⟩
  · rw [hfail.2] at hok; cases hok
  · have hrm : r ∈ s.rewards := List.mem_of_find?_eq_some hr
    have hum : up ∈ s.userPoints := List.mem_of_find?_eq_some hup
    have hr0 := hprice r hrm
    have hrs := (hints.2 r hrm).2
    have hua := (hints.1 up hum).2
    have hsub : subInt up.AvailablePoints r.Points = up.AvailablePoints - r.Points :=
      subInt_exact_of_le hr0 hle hua.2
    have hstock : subInt r.Stock 1 = r.Stock - 1 :=
      subInt_exact_of_le (by omega) (by omega) hrs.2
    refine ⟨t, r, up, ht, hr, hup, ?_, ?_, ?_, ?_⟩
    · rw [heq]; exact commitExchange_exchangeRecords s now t req r up
    · rw [heq]
      have hrw := commitExchange_rewards s now t req r up
      unfold Store.firstReward
      rw [hrw, hstock]
      exact saveReward_first s req.RewardID r { r with Stock := r.Stock - 1 } hr rfl
    · rw [heq]
      have hrw := commitExchange_userPoints s now t req r up
      unfold Store.firstUserPoints
      rw [hrw, hsub]
      have hut : up.UserID = t := by
        have := List.find?_some hup
        simpa using this
      exact saveUserPoints_first s t up { up with AvailablePoints := up.AvailablePoints - r.Points }
        hup rfl hut
    · intro pu hpu
      have hb' := ExchangeRewardRequest.bind_pointsUsed req pu hb hpu
      unfold ExchangeReward
      rw [hb, hb']
      rfl

/-- Witness for C3: the child of `demoShop` redeems the 5-point toy while the body
claims 999 points. -/
theorem exchange_success_effects_witness :
    StoredInts demoShop ∧ (∀ r ∈ demoShop.rewards, 0 ≤ r.Points) ∧
    (ExchangeReward demoShop 2 demoChild (demoExchange 999 0)).2.isSuccess = true ∧
    ∃ t r up, resolveTargetUser demoShop demoChild (demoExchange 999 0) = .ok t ∧
      demoShop.firstReward (demoExchange 999 0).RewardID = some r ∧
      demoShop.firstUserPoints t = some up ∧
      (ExchangeReward demoShop 2 demoChild (demoExchange 999 0)).1.exchangeRecords =
        demoShop.exchangeRecords ++
          [{ ID := demoShop.lastExchangeRecordID + 1, UserID := t,
             RewardID := (demoExchange 999 0).RewardID,
             PointsUsed := r.Points, ExchangedAt := 2, Status := "completed" }] ∧
      (ExchangeReward demoShop 2 demoChild (demoExchange 999 0)).1.firstReward
          (demoExchange 999 0).RewardID = some { r with Stock := r.Stock - 1 } ∧
      (ExchangeReward demoShop 2 demoChild (demoExchange 999 0)).1.firstUserPoints t =
        some { up with AvailablePoints := up.AvailablePoints - r.Points } ∧
      ∀ pu : Int, pu ≠ 0 →
        ExchangeReward demoShop 2 demoChild { demoExchange 999 0 with PointsUsed := pu } =
          ExchangeReward demoShop 2 demoChild (demoExchange 999 0) :=
  ⟨by unfold StoredInts; decide, by decide, by decide,
    exchange_success_effects demoShop 2 demoChild (demoExchange 999 0)
      (by unfold StoredInts; decide) (by decide) (by decide)⟩

/-- C4: every ExchangeReward call that does not answer 200 (body rejected, child
missing or foreign, reward not found, inactive, out of stock, no points record,
insufficient points) leaves the store exactly as it was: no ExchangeRecord is added,
no stock changes and no balance changes. -/
theorem exchange_failure_store_unchanged (s : Store) (now : Nat) (a : Actor)
    (req : ExchangeRewardRequest) (hfail : (ExchangeReward s now a req).2.isSuccess = false) :
    (ExchangeReward s now a req).1 = s ∧
      (ExchangeReward s now a req).1.exchangeRecords = s.exchangeRecords ∧
      (ExchangeReward s now a req).1.rewards = s.rewards ∧
      (ExchangeReward s now a req).1.userPoints = s.userPoints := by
  rcases ExchangeReward_cases s now a req with h | ⟨t, r, up, _, _, _, _, _, _, _, heq⟩
  · rw [h.1]; exact ⟨rfl, rfl, rfl, rfl⟩
  · rw [heq, commitExchange_isSuccess] at hfail
    cases hfail

/-- Witness for C4: the parent of `demoShop` tries to redeem for a child that is not
theirs. -/
theorem exchange_failure_store_unchanged_witness :
    (ExchangeReward demoShop 2 demoParent (demoExchange 5 7)).2.isSuccess = false ∧
    ((ExchangeReward demoShop 2 demoParent (demoExchange 5 7)).1 = demoShop ∧
      (ExchangeReward demoShop 2 demoParent (demoExchange 5 7)).1.exchangeRecords =
        demoShop.exchangeRecords ∧
      (ExchangeReward demoShop 2 demoParent (demoExchange 5 7)).1.rewards = demoShop.rewards ∧
      (ExchangeReward demoShop 2 demoParent (demoExchange 5 7)).1.userPoints =
        demoShop.userPoints) :=
  ⟨by decide,
    exchange_failure_store_unchanged demoShop 2 demoParent (demoExchange 5 7) (by decide)⟩

/-- C5 as stated fails: in `demoSoldOut` the child has 0 available points, the toy
costs 5, and the call is answered "Reward is out of stock", not "Insufficient
points". -/
theorem exchange_insufficient_counterexample :
    ∃ r up, demoSoldOut.firstReward 1 = some r ∧ demoSoldOut.firstUserPoints 2 = some up ∧
      up.AvailablePoints < r.Points ∧
      (ExchangeReward demoSoldOut 3 demoChild (demoExchange 5 0)).2 =
        .failure 400 "Reward is out of stock" ∧
      (ExchangeReward demoSoldOut 3 demoChild (demoExchange 5 0)).2 ≠
        .failure 400 "Insufficient points" :=
  ⟨{ ID := 1, Name := "toy", Description := "", Points := 5, Image := "", Stock := 0,
     IsActive := true, CreatedBy := 1 },
   { ID := 2, UserID := 2, TotalPoints := 5, AvailablePoints := 0 },
   by decide, by decide, by decide, by decide, by decide⟩

/-- C5 (amended): for every ExchangeReward call with a bound body and a resolved
beneficiary whose availablePoints is less than the reward's price, the call fails
and leaves the store (hence the reward's stock and the beneficiary's balance)
unchanged; the answer is "Insufficient points" when the reward is active and in
stock, "Reward is not active" when it is inactive, and "Reward is out of stock" when
it is active with no stock. -/
theorem exchange_insufficient_points (s : Store) (now : Nat) (a : Actor)
    (req : ExchangeRewardRequest) (t : Nat) (r : Reward) (up : UserPoints)
    (hb : req.bind = true) (ht : resolveTargetUser s a req = .ok t)
    (hr : s.firstReward req.RewardID = some r) (hup : s.firstUserPoints t = some up)
    (hlt : up.AvailablePoints < r.Points) :
    (ExchangeReward s now a req).1 = s ∧
      (ExchangeReward s now a req).2.isSuccess = false ∧
      (ExchangeReward s now a req).2 =
        if r.IsActive = false then .failure 400 "Reward is not active"
        else if r.Stock ≤ 0 then .failure 400 "Reward is out of stock"
        else .failure 400 "Insufficient points" := by
  unfold ExchangeReward exchangeFor
  simp only [hb, ht, hr, hup, hlt]
  by_cases hact : r.IsActive = false
  · simp [hact, Response.isSuccess]
  · by_cases hst : r.Stock ≤ 0
    · simp [hact, hst, Response.isSuccess]
    · simp [hact, hst, Response.isSuccess]

/-- Witness for C5: the child of `demoShop` (5 points) asks for reward 2, a bicycle
for 50 points, after the parent listed it. -/
theorem exchange_insufficient_points_witness :
    ({ RewardID := 2, PointsUsed := 50, ChildID := 0 } : ExchangeRewardRequest).bind = true ∧
    resolveTargetUser (CreateReward demoShop demoParent (demoReward 50 3)).1 demoChild
      { RewardID := 2, PointsUsed := 50, ChildID := 0 } = .ok 2 ∧
    (CreateReward demoShop demoParent (demoReward 50 3)).1.firstReward 2 =
      some { ID := 2, Name := "toy", Description := "", Points := 50, Image := "", Stock := 3,
             IsActive := true, CreatedBy := 1 } ∧
    (CreateReward demoShop demoParent (demoReward 50 3)).1.firstUserPoints 2 =
      some { ID := 2, UserID := 2, TotalPoints := 5, AvailablePoints := 5 } ∧
    (5 : Int) < 50 ∧
    ((ExchangeReward (CreateReward demoShop demoParent (demoReward 50 3)).1 3 demoChild
        { RewardID := 2, PointsUsed := 50, ChildID := 0 }).1 =
        (CreateReward demoShop demoParent (demoReward 50 3)).1 ∧
      (ExchangeReward (CreateReward demoShop demoParent (demoReward 50 3)).1 3 demoChild
        { RewardID := 2, PointsUsed := 50, ChildID := 0 }).2.isSuccess = false ∧
      (ExchangeReward (CreateReward demoShop demoParent (demoReward 50 3)).1 3 demoChild
        { RewardID := 2, PointsUsed := 50, ChildID := 0 }).2 =
        if (true = false) then .failure 400 "Reward is not active"
        else if ((3 : Int) ≤ 0) then .failure 400 "Reward is out of stock"
        else .failure 400 "Insufficient points") :=
  ⟨by decide, by rfl, by decide, by decide, by decide,
    exchange_insufficient_points (CreateReward demoShop demoParent (demoReward 50 3)).1 3
      demoChild { RewardID := 2, PointsUsed := 50, ChildID := 0 } 2
      { ID := 2, Name := "toy", Description := "", Points := 50, Image := "", Stock := 3,
        IsActive := true, CreatedBy := 1 }
      { ID := 2, UserID := 2, TotalPoints := 5, AvailablePoints := 5 }
      (by decide) (by rfl) (by decide) (by decide) (by decide)⟩

/-- Lines 189-218 against the specification's sequence: for every store,
beneficiary and request `exchangeFor` answers with the failure of the first check
that does not hold (and the store untouched), and with a 200 when all five hold. -/
theorem exchangeFor_validation_order (s : Store) (now t : Nat) (req : ExchangeRewardRequest) :
    match firstFailedCheck s t req.RewardID with
    | some c => exchangeFor s now t req = (s, c.failure)
    | none => (exchangeFor s now t req).2.isSuccess = true := by
  unfold firstFailedCheck exchangeChecks exchangeFor
  cases hr : s.firstReward req.RewardID with
  | none => simp [List.find?, ExchangeCheck.holds, hr, ExchangeCheck.failure]
  | some r =>
    by_cases hact : r.IsActive = false
    · simp [List.find?, ExchangeCheck.holds, hr, hact, ExchangeCheck.failure]
    · have hact' : r.IsActive = true := by simpa using hact
      by_cases hst : r.Stock ≤ 0
      · have : ¬ (0 < r.Stock) := by omega
        simp [List.find?, ExchangeCheck.holds, hr, hact', hst, this, ExchangeCheck.failure]
      · have hpos : 0 < r.Stock := by omega
        cases hp : s.firstUserPoints t with
        | none =>
          simp [List.find?, ExchangeCheck.holds, hr, hact', hst, hpos, hp,
            ExchangeCheck.failure]
        | some up =>
          by_cases hlt : up.AvailablePoints < r.Points
          · have : ¬ (r.Points ≤ up.AvailablePoints) := by omega
            simp [List.find?, ExchangeCheck.holds, hr, hact', hst, hpos, hp, hlt, this,
              ExchangeCheck.failure]
          · have : r.Points ≤ up.AvailablePoints := by omega
            simp [List.find?, ExchangeCheck.holds, hr, hact', hst, hpos, hp, hlt, this,
              commitExchange_isSuccess]

/-- The two answers `resolveTargetUser` can give instead of a beneficiary. -/
theorem resolveTargetUser_error (s : Store) (a : Actor) (req : ExchangeRewardRequest)
    (e : Response ExchangeData) (h : resolveTargetUser s a req = .error e) :
    e = .failure 400 "Child ID is required for parent" ∨
      e = .failure 403 "Child not found or permission denied" := by
  unfold resolveTargetUser at h
  split at h
  · split at h
    · cases h; exact Or.inl rfl
    · split at h
      · cases h; exact Or.inr rfl
      · cases h
  · cases h

/-- C6 as stated fails: in `demoShop` there is no reward 9, so the first check that
does not hold is "reward exists" whoever the beneficiary is; yet the parent who
sends no `child_id` is answered 400 "Child ID is required for parent", the parent
who names a child that is not theirs 403, and a body without `points_used` the
binder's 400, none of which is the failure of a check. -/
theorem exchange_validation_order_counterexample :
    (∀ t, firstFailedCheck demoShop t 9 = some .rewardExists) ∧
    ExchangeCheck.failure .rewardExists = .failure 404 "Reward not found" ∧
    ExchangeReward demoShop 2 demoParent { RewardID := 9, PointsUsed := 5, ChildID := 0 } =
      (demoShop, .failure 400 "Child ID is required for parent") ∧
    ExchangeReward demoShop 2 demoParent { RewardID := 9, PointsUsed := 5, ChildID := 7 } =
      (demoShop, .failure 403 "Child not found or permission denied") ∧
    ExchangeReward demoShop 2 demoChild { RewardID := 9, PointsUsed := 0, ChildID := 0 } =
      (demoShop, .bindFailure) := by
  refine ⟨fun t => ?_, by decide, by decide, by decide, by decide⟩
  rfl

/-- C6 (amended): the five checks of ExchangeReward run fail-fast in the order
reward exists, reward is active, stock > 0, the beneficiary's PointsBalance exists,
availablePoints >= price, after the body has been bound and the beneficiary
resolved.  Every call falls in exactly one of three cases: the body does not bind
and the answer is the binder's 400; the body binds, the beneficiary does not
resolve and the answer is one of the two beneficiary errors, which is none of the
five failures; or the body binds, the beneficiary resolves to `t`, and the answer
is the failure of the first check in this order that does not hold for `t` (with
the store untouched), a 200 when all five hold.  The five failures are pairwise
distinct answers. -/
theorem exchange_validation_order (s : Store) (now : Nat) (a : Actor)
    (req : ExchangeRewardRequest) :
    ((req.bind = false ∧ ExchangeReward s now a req = (s, .bindFailure)) ∨
      (req.bind = true ∧ ∃ e, resolveTargetUser s a req = .error e ∧
        ExchangeReward s now a req = (s, e) ∧
        (e = .failure 400 "Child ID is required for parent" ∨
          e = .failure 403 "Child not found or permission denied") ∧
        e ∉ exchangeChecks.map ExchangeCheck.failure) ∨
      (req.bind = true ∧ ∃ t, resolveTargetUser s a req = .ok t ∧
        match firstFailedCheck s t req.RewardID with
        | some c => ExchangeReward s now a req = (s, c.failure)
        | none => (ExchangeReward s now a req).2.isSuccess = true)) ∧
    exchangeChecks =
      [.rewardExists, .rewardActive, .inStock, .balanceExists, .enoughPoints] ∧
    (exchangeChecks.map ExchangeCheck.failure).Nodup := by
  refine ⟨?_, rfl, by decide⟩
  by_cases hb : req.bind = false
  · left
    refine ⟨hb, ?_⟩
    unfold ExchangeReward
    rw [if_pos hb]
  · have hb' : req.bind = true := by simpa using hb
    right
    cases ht : resolveTargetUser s a req with
    | error e =>
      left
      refine ⟨hb', e, rfl, ?_, resolveTargetUser_error s a req e ht, ?_⟩
      · unfold ExchangeReward
        rw [if_neg hb, ht]
      · rcases resolveTargetUser_error s a req e ht with h | h <;> rw [h] <;> decide
    | ok t =>
      right
      refine ⟨hb', t, rfl, ?_⟩
      have heq : ExchangeReward s now a req = exchangeFor s now t req := by
        unfold ExchangeReward
        rw [if_neg hb, ht]
      rw [heq]
      exact exchangeFor_validation_order s now t req

theorem firstChildOfParent_eq_none_iff (s : Store) (id pid : Nat) :
    s.firstChildOfParent id pid = none ↔
      ∀ u ∈ s.users, ¬ (u.ID = id ∧ u.ParentID = some pid) := by
  unfold Store.firstChildOfParent
  rw [List.find?_eq_none]
  constructor
  · intro h u hu
    simpa using h u hu
  · intro h u hu
    simpa using h u hu

theorem firstChildOfParent_isSome_of_mem (s : Store) (id pid : Nat)
    (h : ∃ u ∈ s.users, u.ID = id ∧ u.ParentID = some pid) :
    ∃ u, s.firstChildOfParent id pid = some u := by
  cases hc : s.firstChildOfParent id pid with
  | some u => exact ⟨u, rfl⟩
  | none =>
    obtain ⟨u, hu, h1⟩ := h
    exact absurd h1 ((firstChildOfParent_eq_none_iff s id pid).mp hc u hu)

/-- C7 as stated fails: the parent of `demoShop` sends a bound body without
child_id and is answered 400 "Child ID is required for parent", which is not the
403 of a permission failure. -/
theorem exchange_parent_missing_child_counterexample :
    demoParent.userRole = "parent" ∧ (demoExchange 5 0).ChildID = 0 ∧
    (demoExchange 5 0).bind = true ∧
    ExchangeReward demoShop 2 demoParent (demoExchange 5 0) =
      (demoShop, .failure 400 "Child ID is required for parent") ∧
    ∀ message : String,
      (ExchangeReward demoShop 2 demoParent (demoExchange 5 0)).2 ≠ .failure 403 message := by
  refine ⟨by decide, by decide, by decide, by decide, ?_⟩
  intro message h
  have h400 : (ExchangeReward demoShop 2 demoParent (demoExchange 5 0)).2 =
      .failure 400 "Child ID is required for parent" := by decide
  rw [h400] at h
  cases h

/-- C7 (amended): for every ExchangeReward call with a bound body whose actor role is
parent: if child_id is not supplied the call fails with 400 "Child ID is required
for parent"; if it is supplied but names no account whose parent-reference equals
the actor the call fails with 403 (PermissionDenied); otherwise the beneficiary is
that child.  In both failures the store is unchanged. -/
theorem exchange_parent_beneficiary (s : Store) (now : Nat) (a : Actor)
    (req : ExchangeRewardRequest) (hrole : a.userRole = "parent") (hb : req.bind = true) :
    (req.ChildID = 0 →
      ExchangeReward s now a req = (s, .failure 400 "Child ID is required for parent")) ∧
    (req.ChildID ≠ 0 →
      (∀ u ∈ s.users, ¬ (u.ID = req.ChildID ∧ u.ParentID = some a.userID)) →
      ExchangeReward s now a req =
        (s, .failure 403 "Child not found or permission denied")) ∧
    (req.ChildID ≠ 0 →
      (∃ u ∈ s.users, u.ID = req.ChildID ∧ u.ParentID = some a.userID) →
      resolveTargetUser s a req = .ok req.ChildID ∧
        ExchangeReward s now a req = exchangeFor s now req.ChildID req) := by
  refine ⟨?_, ?_, ?_⟩
  · intro h0
    simp [ExchangeReward, resolveTargetUser, hb, hrole, h0]
  · intro h0 hnone
    have hc := (firstChildOfParent_eq_none_iff s req.ChildID a.userID).mpr hnone
    simp [ExchangeReward, resolveTargetUser, hb, hrole, h0, hc]
  · intro h0 hsome
    obtain ⟨u, hc⟩ := firstChildOfParent_isSome_of_mem s req.ChildID a.userID hsome
    simp [ExchangeReward, resolveTargetUser, hb, hrole, h0, hc]

/-- Witness for C7: the parent of `demoShop` redeems the toy for their child. -/
theorem exchange_parent_beneficiary_witness :
    demoParent.userRole = "parent" ∧ (demoExchange 5 2).bind = true ∧
    (((demoExchange 5 2).ChildID = 0 →
      ExchangeReward demoShop 2 demoParent (demoExchange 5 2) =
        (demoShop, .failure 400 "Child ID is required for parent")) ∧
    ((demoExchange 5 2).ChildID ≠ 0 →
      (∀ u ∈ demoShop.users,
        ¬ (u.ID = (demoExchange 5 2).ChildID ∧ u.ParentID = some demoParent.userID)) →
      ExchangeReward demoShop 2 demoParent (demoExchange 5 2) =
        (demoShop, .failure 403 "Child not found or permission denied")) ∧
    ((demoExchange 5 2).ChildID ≠ 0 →
      (∃ u ∈ demoShop.users,
        u.ID = (demoExchange 5 2).ChildID ∧ u.ParentID = some demoParent.userID) →
      resolveTargetUser demoShop demoParent (demoExchange 5 2) =
          .ok (demoExchange 5 2).ChildID ∧
        ExchangeReward demoShop 2 demoParent (demoExchange 5 2) =
          exchangeFor demoShop 2 (demoExchange 5 2).ChildID (demoExchange 5 2))) :=
  ⟨by decide, by decide,
    exchange_parent_beneficiary demoShop 2 demoParent (demoExchange 5 2) (by decide)
      (by decide)⟩

theorem find?_map_of_agree {α : Type} (p : α → Bool) (f : α → α) :
    ∀ (l : List α), (∀ x ∈ l, f x = x ∨ (p x = false ∧ p (f x) = false)) →
      (l.map f).find? p = l.find? p := by
  intro l
  induction l with
  | nil => intro _; rfl
  | cons x xs ih =>
    intro h
    have hx := h x (List.mem_cons_self _ _)
    have hxs := ih (fun y hy => h y (List.mem_cons_of_mem _ hy))
    rw [List.map_cons, List.find?_cons, List.find?_cons]
    rcases hx with hx | ⟨h1, h2⟩
    · rw [hx, hxs]
    · rw [h1, h2]; exact hxs

theorem saveUserPoints_first_other (s : Store) (up p : UserPoints) (u : Nat)
    (hkey : (s.userPoints.map UserPoints.ID).Nodup) (hmem : up ∈ s.userPoints)
    (hid : p.ID = up.ID) (hu1 : up.UserID ≠ u) (hu2 : p.UserID ≠ u) :
    (s.saveUserPoints p).firstUserPoints u = s.firstUserPoints u := by
  have hany : s.userPoints.any (fun q => q.ID == p.ID) = true := by
    rw [List.any_eq_true]
    exact ⟨up, hmem, by simp [hid]⟩
  unfold Store.saveUserPoints Store.firstUserPoints
  rw [if_pos hany]
  simp only
  apply find?_map_of_agree
  intro x hx
  by_cases hxid : x.ID = p.ID
  · right
    have hxu : x = up := List.inj_on_of_nodup_map hkey hx hmem (by rw [hxid, hid])
    subst hxu
    simp [hxid, hu1, hu2]
  · left
    simp [hxid]

/-- C8: for every ExchangeReward call whose actor role is child the beneficiary is
the actor itself and any supplied child_id is ignored: calls that differ only in
child_id give the same answer and the same final store, the points row of every
other user is the same before and after the call, and every exchange record that
the call adds belongs to the actor.  Primary keys of the points table are unique. -/
theorem exchange_child_beneficiary (s : Store) (now : Nat) (a : Actor)
    (req : ExchangeRewardRequest) (hrole : a.userRole = "child")
    (hkey : (s.userPoints.map UserPoints.ID).Nodup) :
    resolveTargetUser s a req = .ok a.userID ∧
    (∀ childID : Nat,
      ExchangeReward s now a { req with ChildID := childID } = ExchangeReward s now a req) ∧
    (∀ u : Nat, u ≠ a.userID →
      (ExchangeReward s now a req).1.firstUserPoints u = s.firstUserPoints u) ∧
    (∀ x ∈ (ExchangeReward s now a req).1.exchangeRecords,
      x ∈ s.exchangeRecords ∨ x.UserID = a.userID) := by
  have hnp : ¬ (a.userRole = "parent") := by rw [hrole]; decide
  have hres : ∀ r : ExchangeRewardRequest, resolveTargetUser s a r = .ok a.userID := by
    intro r; simp [resolveTargetUser, hnp]
  refine ⟨hres req, ?_, ?_, ?_⟩
  · intro childID
    unfold ExchangeReward
    rw [hres, hres]
    rfl
  · intro u hu
    rcases ExchangeReward_cases s now a req with h | ⟨t, r, up, _, ht, _, _, _, hup, _, heq⟩
    · rw [h.1]
    · rw [hres] at ht
      have hta : a.userID = t := by injection ht
      subst hta
      have hum : up ∈ s.userPoints := List.mem_of_find?_eq_some hup
      have hut : up.UserID = a.userID := by
        have := List.find?_some hup
        simpa using this
      rw [heq]
      have hrw := commitExchange_userPoints s now a.userID req r up
      have := saveUserPoints_first_other s up
        { up with AvailablePoints := subInt up.AvailablePoints r.Points } u hkey hum rfl
        (by rw [hut]; exact fun h => hu h.symm) (by simp only; rw [hut]; exact fun h => hu h.symm)
      unfold Store.firstUserPoints at this ⊢
      rw [hrw]; exact this
  · intro x hx
    rcases ExchangeReward_cases s now a req with h | ⟨t, r, up, _, ht, _, _, _, _, _, heq⟩
    · rw [h.1] at hx; exact Or.inl hx
    · rw [hres] at ht
      have hta : a.userID = t := by injection ht
      subst hta
      rw [heq, commitExchange_exchangeRecords] at hx
      simp only [List.mem_append, List.mem_singleton] at hx
      rcases hx with hx | rfl
      · exact Or.inl hx
      · exact Or.inr rfl

/-- Witness for C8: the child of `demoShop` redeems the toy. -/
theorem exchange_child_beneficiary_witness :
    demoChild.userRole = "child" ∧ (demoShop.userPoints.map UserPoints.ID).Nodup ∧
    (resolveTargetUser demoShop demoChild (demoExchange 5 1) = .ok demoChild.userID ∧
    (∀ childID : Nat,
      ExchangeReward demoShop 2 demoChild { demoExchange 5 1 with ChildID := childID } =
        ExchangeReward demoShop 2 demoChild (demoExchange 5 1)) ∧
    (∀ u : Nat, u ≠ demoChild.userID →
      (ExchangeReward demoShop 2 demoChild (demoExchange 5 1)).1.firstUserPoints u =
        demoShop.firstUserPoints u) ∧
    (∀ x ∈ (ExchangeReward demoShop 2 demoChild (demoExchange 5 1)).1.exchangeRecords,
      x ∈ demoShop.exchangeRecords ∨ x.UserID = demoChild.userID)) :=
  ⟨by decide, by decide,
    exchange_child_beneficiary demoShop 2 demoChild (demoExchange 5 1) (by decide)
      (by decide)⟩

theorem saveUserPoints_behaviorRecords (s : Store) (p : UserPoints) :
    (s.saveUserPoints p).behaviorRecords = s.behaviorRecords := by
  unfold Store.saveUserPoints
  split
  · rfl
  · split <;> rfl

theorem getOrCreateUserPoints_behaviorRecords (s : Store) (c : Nat) :
    (s.getOrCreateUserPoints c).1.behaviorRecords = s.behaviorRecords := by
  unfold Store.getOrCreateUserPoints Store.createUserPoints
  split
  · rfl
  · split <;> rfl

/-- The answer of a `RecordBehavior` call that passes its three checks: the ledger row
just created. -/
theorem RecordBehavior_response (s : Store) (now : Nat) (a : Actor)
    (req : RecordBehaviorRequest) (u : User) (hr : a.userRole = "parent")
    (hb : req.bind = true) (hc : s.firstChildOfParent req.ChildID a.userID = some u) :
    (RecordBehavior s now a req).2 =
      .success
        { ID := s.lastBehaviorRecordID + 1, ChildID := req.ChildID, RecorderID := a.userID,
          BehaviorType := behaviorTypeOf req.ScoreChange, BehaviorDesc := req.BehaviorDesc,
          ScoreChange := req.ScoreChange, ImageURL := req.ImageURL, RecordedAt := now } := by
  unfold RecordBehavior
  simp [hr, hb, hc, Store.createBehaviorRecord]

theorem RecordBehaviorRequest.bind_behaviorType (req : RecordBehaviorRequest) (bt : String)
    (hb : req.bind = true) (hbt : bt ≠ "") : ({ req with BehaviorType := bt }).bind = true := by
  simp only [RecordBehaviorRequest.bind, Bool.and_eq_true, bne_iff_ne, ne_eq] at hb ⊢
  exact ⟨⟨⟨hb.1.1.1, hbt⟩, hb.1.2⟩, hb.2⟩

/-- C9: the classification stored on the BehaviorEvent of every successful
RecordBehavior call is computed from the sign of the score delta only, good if
scoreDelta > 0 and bad otherwise, and never from the client-supplied behavior_type
(any other non-empty behavior_type gives the same store and answer); the event is
the one row appended to the ledger.  On a zero delta the classification of lines
59-65 is bad and the update of lines 95-106 leaves both counters of a balance
unchanged; the handler itself never stores a zero-delta event, because the binder
rejects a zero score_change and the store stays as it was. -/
theorem behavior_classification (s : Store) (now : Nat) (a : Actor)
    (req : RecordBehaviorRequest) (s' : Store) (event : BehaviorRecord)
    (hok : RecordBehavior s now a req = (s', .success event)) :
    event.BehaviorType = (if req.ScoreChange > 0 then "good" else "bad") ∧
    event.ScoreChange = req.ScoreChange ∧
    s'.behaviorRecords = s.behaviorRecords ++ [event] ∧
    (∀ bt : String, bt ≠ "" →
      RecordBehavior s now a { req with BehaviorType := bt } = RecordBehavior s now a req) ∧
    behaviorTypeOf 0 = "bad" ∧
    (∀ p : UserPoints, InInt p.TotalPoints → 0 ≤ p.AvailablePoints →
      p.AvailablePoints ≤ maxInt → applyScoreChange (behaviorTypeOf 0) 0 p = p) ∧
    (∀ zero : RecordBehaviorRequest, zero.ScoreChange = 0 →
      (RecordBehavior s now a zero).2.isSuccess = false ∧
        (RecordBehavior s now a zero).1 = s) := by
  have hsucc : (RecordBehavior s now a req).2.isSuccess = true := by rw [hok]; rfl
  obtain ⟨hr, hb, u, hc⟩ := RecordBehavior_success_inv s now a req hsucc
  have hresp := RecordBehavior_response s now a req u hr hb hc
  have hstore := RecordBehavior_store s now a req u hr hb hc
  rw [hok] at hresp hstore
  simp only at hresp hstore
  have hev := Response.success.inj hresp
  refine ⟨?_, ?_, ?_, ?_, by decide, ?_, ?_⟩
  · rw [hev]; rfl
  · rw [hev]
  · rw [hstore, saveUserPoints_behaviorRecords, getOrCreateUserPoints_behaviorRecords, hev]
    rfl
  · intro bt hbt
    have hb' := RecordBehaviorRequest.bind_behaviorType req bt hb hbt
    unfold RecordBehavior
    rw [hb, hb']
  · intro p ht ha0 ha1
    have hbad : behaviorTypeOf 0 = "bad" := by decide
    have hne : ¬ ("bad" = "good") := by decide
    rw [hbad]
    unfold applyScoreChange addInt
    simp only [hne, if_false, add_zero]
    rw [wrapInt_of_inInt ht, wrapInt_of_inInt (by unfold InInt minInt; constructor <;> omega)]
    have : ¬ (p.AvailablePoints < 0) := by omega
    simp [this]
  · intro zero hz
    have hzb : zero.bind = false := by
      simp [RecordBehaviorRequest.bind, hz]
    have hfail : (RecordBehavior s now a zero).2.isSuccess = false := by
      unfold RecordBehavior
      simp only [hr, hzb]
      rfl
    exact ⟨hfail, RecordBehavior_fail_store s now a zero hfail⟩

/-- Witness for C9: the parent of `demoFamily` records -15 under the category
"learning"; the stored event is classified bad. -/
theorem behavior_classification_witness :
    RecordBehavior demoFamily 1 demoParent (demoBehavior (-15)) =
      ((RecordBehavior demoFamily 1 demoParent (demoBehavior (-15))).1,
        .success { ID := 1, ChildID := 2, RecorderID := 1, BehaviorType := "bad",
                   BehaviorDesc := "homework", ScoreChange := -15, ImageURL := "",
                   RecordedAt := 1 }) ∧
    (({ ID := 1, ChildID := 2, RecorderID := 1, BehaviorType := "bad",
        BehaviorDesc := "homework", ScoreChange := -15, ImageURL := "",
        RecordedAt := 1 } : BehaviorRecord).BehaviorType =
      (if (demoBehavior (-15)).ScoreChange > 0 then "good" else "bad") ∧
    ({ ID := 1, ChildID := 2, RecorderID := 1, BehaviorType := "bad",
        BehaviorDesc := "homework", ScoreChange := -15, ImageURL := "",
        RecordedAt := 1 } : BehaviorRecord).ScoreChange = (demoBehavior (-15)).ScoreChange ∧
    (RecordBehavior demoFamily 1 demoParent (demoBehavior (-15))).1.behaviorRecords =
      demoFamily.behaviorRecords ++
        [{ ID := 1, ChildID := 2, RecorderID := 1, BehaviorType := "bad",
           BehaviorDesc := "homework", ScoreChange := -15, ImageURL := "",
           RecordedAt := 1 }] ∧
    (∀ bt : String, bt ≠ "" →
      RecordBehavior demoFamily 1 demoParent { demoBehavior (-15) with BehaviorType := bt } =
        RecordBehavior demoFamily 1 demoParent (demoBehavior (-15))) ∧
    behaviorTypeOf 0 = "bad" ∧
    (∀ p : UserPoints, InInt p.TotalPoints → 0 ≤ p.AvailablePoints →
      p.AvailablePoints ≤ maxInt → applyScoreChange (behaviorTypeOf 0) 0 p = p) ∧
    (∀ zero : RecordBehaviorRequest, zero.ScoreChange = 0 →
      (RecordBehavior demoFamily 1 demoParent zero).2.isSuccess = false ∧
        (RecordBehavior demoFamily 1 demoParent zero).1 = demoFamily)) :=
  ⟨by decide,
    behavior_classification demoFamily 1 demoParent (demoBehavior (-15)) _ _ (by decide)⟩

/-- C10 as stated fails: the parent of `demoFamily` posts a body without a
description for child 7, who is not an account of theirs; the binder rejects the
body with its own 400 before ownership is looked at, so the answer is not a 403. -/
theorem recordBehavior_permission_denied_counterexample :
    demoParent.userRole = "parent" ∧
    (∀ u ∈ demoFamily.users, ¬ (u.ID = 7 ∧ u.ParentID = some demoParent.userID)) ∧
    RecordBehavior demoFamily 1 demoParent
      { ChildID := 7, BehaviorType := "learning", BehaviorDesc := "", ScoreChange := 10,
        ImageURL := "" } = (demoFamily, .bindFailure) ∧
    ∀ message : String,
      (RecordBehavior demoFamily 1 demoParent
        { ChildID := 7, BehaviorType := "learning", BehaviorDesc := "", ScoreChange := 10,
          ImageURL := "" }).2 ≠ .failure 403 message := by
  refine ⟨by decide, by decide, by decide, ?_⟩
  intro message h
  have hbind : (RecordBehavior demoFamily 1 demoParent
      { ChildID := 7, BehaviorType := "learning", BehaviorDesc := "", ScoreChange := 10,
        ImageURL := "" }).2 = .bindFailure := by decide
  rw [hbind] at h
  cases h

/-- C10 (amended): RecordBehavior answers 403 (PermissionDenied) whenever the
recorder's role is not parent, and whenever the body passes binding and childId does
not name an account whose parent-reference equals the recorder; on that failure the
store is unchanged: no BehaviorEvent is appended and no balance changes. -/
theorem recordBehavior_permission_denied (s : Store) (now : Nat) (a : Actor)
    (req : RecordBehaviorRequest)
    (h : a.userRole ≠ "parent" ∨
      (req.bind = true ∧
        ∀ u ∈ s.users, ¬ (u.ID = req.ChildID ∧ u.ParentID = some a.userID))) :
    (∃ message, (RecordBehavior s now a req).2 = .failure 403 message) ∧
      (RecordBehavior s now a req).1 = s ∧
      (RecordBehavior s now a req).1.behaviorRecords = s.behaviorRecords ∧
      (RecordBehavior s now a req).1.userPoints = s.userPoints := by
  by_cases hr : a.userRole = "parent"
  · rcases h with h | ⟨hb, hnone⟩
    · exact absurd hr h
    · have hc := (firstChildOfParent_eq_none_iff s req.ChildID a.userID).mpr hnone
      have : RecordBehavior s now a req =
          (s, .failure 403 "Child not found or permission denied") := by
        simp [RecordBehavior, hr, hb, hc]
      rw [this]
      exact ⟨⟨_, rfl⟩, rfl, rfl, rfl⟩
  · have : RecordBehavior s now a req =
        (s, .failure 403 "Only parents can record behaviors") := by
      simp [RecordBehavior, hr]
    rw [this]
    exact ⟨⟨_, rfl⟩, rfl, rfl, rfl⟩

/-- Witness for C10: the parent of `demoFamily` records a behavior for child 7,
who is not theirs. -/
theorem recordBehavior_permission_denied_witness :
    (demoParent.userRole ≠ "parent" ∨
      (({ demoBehavior 10 with ChildID := 7 } : RecordBehaviorRequest).bind = true ∧
        ∀ u ∈ demoFamily.users,
          ¬ (u.ID = ({ demoBehavior 10 with ChildID := 7 } : RecordBehaviorRequest).ChildID ∧
            u.ParentID = some demoParent.userID))) ∧
    ((∃ message, (RecordBehavior demoFamily 1 demoParent
        { demoBehavior 10 with ChildID := 7 }).2 = .failure 403 message) ∧
      (RecordBehavior demoFamily 1 demoParent { demoBehavior 10 with ChildID := 7 }).1 =
        demoFamily ∧
      (RecordBehavior demoFamily 1 demoParent
        { demoBehavior 10 with ChildID := 7 }).1.behaviorRecords = demoFamily.behaviorRecords ∧
      (RecordBehavior demoFamily 1 demoParent
        { demoBehavior 10 with ChildID := 7 }).1.userPoints = demoFamily.userPoints) :=
  ⟨Or.inr ⟨by decide, by decide⟩,
    recordBehavior_permission_denied demoFamily 1 demoParent
      { demoBehavior 10 with ChildID := 7 } (Or.inr ⟨by decide, by decide⟩)⟩

theorem wrapInt_add_wrapInt (x d : Int) : wrapInt (wrapInt x + d) = wrapInt (x + d) := by
  unfold wrapInt
  omega

theorem firstUserPoints_append_other (l : List UserPoints) (row : UserPoints) (c : Nat)
    (h : row.UserID ≠ c) :
    (l ++ [row]).find? (fun p => p.UserID == c) = l.find? (fun p => p.UserID == c) := by
  rw [List.find?_append]
  have hb : (row.UserID == c) = false := by simpa using h
  have : [row].find? (fun p => p.UserID == c) = none := by
    simp only [List.find?, hb]
  rw [this]
  cases l.find? (fun p => p.UserID == c) <;> rfl

/-- Creating a zeroed points row changes nobody's `total_points`. -/
theorem totalOf_createUserPoints_zero (s : Store) (u c : Nat) :
    totalOf (s.createUserPoints
      { ID := 0, UserID := u, TotalPoints := 0, AvailablePoints := 0 }).1 c = totalOf s c := by
  unfold Store.createUserPoints
  split
  · rfl
  · rename_i hany
    by_cases hc : u = c
    · subst hc
      have hnone : s.userPoints.find? (fun p => p.UserID == u) = none := by
        rw [List.find?_eq_none]
        intro x hx hxu
        apply hany
        rw [List.any_eq_true]
        exact ⟨x, hx, hxu⟩
      unfold totalOf Store.firstUserPoints
      simp only
      rw [List.find?_append, hnone]
      simp [List.find?]
    · unfold totalOf Store.firstUserPoints
      simp only
      rw [firstUserPoints_append_other _ _ _ hc]

theorem createUserPoints_wf (s : Store) (p : UserPoints) (h : PointsTableWF s) :
    PointsTableWF (s.createUserPoints p).1 := by
  unfold Store.createUserPoints
  split
  · exact h
  · rename_i hany
    obtain ⟨h1, h2, h3⟩ := h
    refine ⟨?_, ?_, ?_⟩
    · simp only [List.map_append, List.map_cons, List.map_nil]
      rw [List.nodup_append]
      refine ⟨h1, List.nodup_singleton _, ?_⟩
      intro x hx hx'
      simp only [List.mem_singleton] at hx'
      rw [List.mem_map] at hx
      obtain ⟨q, hq, rfl⟩ := hx
      have := h3 q hq
      omega
    · simp only [List.map_append, List.map_cons, List.map_nil]
      rw [List.nodup_append]
      refine ⟨h2, List.nodup_singleton _, ?_⟩
      intro x hx hx'
      simp only [List.mem_singleton] at hx'
      rw [List.mem_map] at hx
      obtain ⟨q, hq, rfl⟩ := hx
      apply hany
      rw [List.any_eq_true]
      exact ⟨q, hq, by simp [hx']⟩
    · intro q hq
      simp only [List.mem_append, List.mem_singleton] at hq
      rcases hq with hq | rfl
      · have := h3 q hq
        simp only
        omega
      · simp

theorem getOrCreateUserPoints_wf (s : Store) (c : Nat) (h : PointsTableWF s) :
    PointsTableWF (s.getOrCreateUserPoints c).1 := by
  unfold Store.getOrCreateUserPoints
  split
  · exact h
  · exact createUserPoints_wf s _ h

theorem totalOf_getOrCreateUserPoints (s : Store) (u c : Nat) :
    totalOf (s.getOrCreateUserPoints u).1 c = totalOf s c := by
  unfold Store.getOrCreateUserPoints
  split
  · rfl
  · exact totalOf_createUserPoints_zero s u c

theorem getOrCreateUserPoints_mem (s : Store) (c : Nat) :
    (s.getOrCreateUserPoints c).2 ∈ (s.getOrCreateUserPoints c).1.userPoints :=
  List.mem_of_find?_eq_some (getOrCreateUserPoints_first s c)

/-- Saving a row over itself (same primary key, same user) keeps both key columns of
the table as they were. -/
theorem saveUserPoints_keys (s : Store) (up p : UserPoints)
    (hkey : (s.userPoints.map UserPoints.ID).Nodup) (hmem : up ∈ s.userPoints)
    (hid : p.ID = up.ID) (hu : p.UserID = up.UserID) :
    (s.saveUserPoints p).userPoints.map UserPoints.ID = s.userPoints.map UserPoints.ID ∧
    (s.saveUserPoints p).userPoints.map UserPoints.UserID =
      s.userPoints.map UserPoints.UserID ∧
    (s.saveUserPoints p).lastUserPointsID = s.lastUserPointsID := by
  have hany : s.userPoints.any (fun q => q.ID == p.ID) = true := by
    rw [List.any_eq_true]
    exact ⟨up, hmem, by simp [hid]⟩
  unfold Store.saveUserPoints
  rw [if_pos hany]
  simp only [List.map_map]
  refine ⟨?_, ?_, trivial⟩
  · apply List.map_congr_left
    intro x _
    simp only [Function.comp]
    split
    · rename_i hx; simp at hx; exact hx.symm
    · rfl
  · apply List.map_congr_left
    intro x hx
    simp only [Function.comp]
    split
    · rename_i hxid
      simp at hxid
      have : x = up := List.inj_on_of_nodup_map hkey hx hmem (by rw [hxid, hid])
      rw [this, hu]
    · rfl

theorem saveUserPoints_wf (s : Store) (up p : UserPoints) (h : PointsTableWF s)
    (hmem : up ∈ s.userPoints) (hid : p.ID = up.ID) (hu : p.UserID = up.UserID) :
    PointsTableWF (s.saveUserPoints p) := by
  obtain ⟨hk1, hk2, hk3⟩ := saveUserPoints_keys s up p h.1 hmem hid hu
  refine ⟨by rw [hk1]; exact h.1, by rw [hk2]; exact h.2.1, ?_⟩
  rw [hk3]
  apply saveUserPoints_forall (fun q => q.ID ≤ s.lastUserPointsID) s p h.2.2
  show p.ID ≤ s.lastUserPointsID
  rw [hid]; exact h.2.2 up hmem

theorem PointsTableWF_of_eq (s s' : Store) (h1 : s'.userPoints = s.userPoints)
    (h2 : s'.lastUserPointsID = s.lastUserPointsID) (h : PointsTableWF s) :
    PointsTableWF s' := by
  unfold PointsTableWF at h ⊢
  rw [h1, h2]; exact h

theorem totalOf_of_eq (s s' : Store) (h1 : s'.userPoints = s.userPoints) (c : Nat) :
    totalOf s' c = totalOf s c := by
  unfold totalOf Store.firstUserPoints
  rw [h1]

theorem ledgerSum_of_eq (s s' : Store) (h1 : s'.behaviorRecords = s.behaviorRecords) (c : Nat) :
    ledgerSum s' c = ledgerSum s c := by
  unfold ledgerSum
  rw [h1]

theorem applyScoreChange_total (t : String) (d : Int) (p : UserPoints) :
    (applyScoreChange t d p).TotalPoints = addInt p.TotalPoints d := by
  unfold applyScoreChange
  split <;> rfl

theorem ledgerSum_append (s s' : Store) (e : BehaviorRecord) (c : Nat)
    (h : s'.behaviorRecords = s.behaviorRecords ++ [e]) :
    ledgerSum s' c = ledgerSum s c + (if c = e.ChildID then e.ScoreChange else 0) := by
  unfold ledgerSum
  rw [h, List.filter_append, List.map_append, List.sum_append]
  by_cases hc : c = e.ChildID
  · subst hc; simp [List.filter]
  · have hb : (e.ChildID == c) = false := by
      simpa using fun h' => hc h'.symm
    simp [List.filter, hb, hc]

/-- One successful `RecordBehavior` call on a well-formed points table: the table
stays well-formed, the child's total moves by the score (as a Go `int`), nobody
else's total moves, and the ledger grows by exactly that score for that child. -/
theorem RecordBehavior_ledger_step (s : Store) (now : Nat) (a : Actor)
    (req : RecordBehaviorRequest) (hwf : PointsTableWF s)
    (hok : (RecordBehavior s now a req).2.isSuccess = true) :
    PointsTableWF (RecordBehavior s now a req).1 ∧
    ∀ c, totalOf (RecordBehavior s now a req).1 c =
        (if c = req.ChildID then wrapInt (totalOf s c + req.ScoreChange) else totalOf s c) ∧
      ledgerSum (RecordBehavior s now a req).1 c =
        ledgerSum s c + (if c = req.ChildID then req.ScoreChange else 0) := by
  obtain ⟨hr, hb, u, hc⟩ := RecordBehavior_success_inv s now a req hok
  obtain ⟨p0, h0t, _, hfirst⟩ := RecordBehavior_first s now a req u hr hb hc
  have hstore := RecordBehavior_store s now a req u hr hb hc
  generalize hs1 : (s.createBehaviorRecord
      { ID := 0, ChildID := req.ChildID, RecorderID := a.userID,
        BehaviorType := behaviorTypeOf req.ScoreChange, BehaviorDesc := req.BehaviorDesc,
        ScoreChange := req.ScoreChange, ImageURL := req.ImageURL,
        RecordedAt := now }).1 = s1 at hstore
  have hup1 : s1.userPoints = s.userPoints := by rw [← hs1]; rfl
  have hlast1 : s1.lastUserPointsID = s.lastUserPointsID := by rw [← hs1]; rfl
  have hbr1 : s1.behaviorRecords = s.behaviorRecords ++
      [{ ID := s.lastBehaviorRecordID + 1, ChildID := req.ChildID, RecorderID := a.userID,
         BehaviorType := behaviorTypeOf req.ScoreChange, BehaviorDesc := req.BehaviorDesc,
         ScoreChange := req.ScoreChange, ImageURL := req.ImageURL, RecordedAt := now }] := by
    rw [← hs1]; rfl
  have hwf1 : PointsTableWF s1 := PointsTableWF_of_eq s s1 hup1 hlast1 hwf
  have hwf2 := getOrCreateUserPoints_wf s1 req.ChildID hwf1
  have hmem := getOrCreateUserPoints_mem s1 req.ChildID
  have hrow := getOrCreateUserPoints_row s1 req.ChildID
  have hk := applyScoreChange_keys (behaviorTypeOf req.ScoreChange) req.ScoreChange
    (s1.getOrCreateUserPoints req.ChildID).2
  have hwf3 := saveUserPoints_wf _ _ _ hwf2 hmem hk.1 hk.2
  rw [hstore]
  refine ⟨hwf3, ?_⟩
  intro c
  constructor
  · by_cases hcc : c = req.ChildID
    · subst hcc
      rw [if_pos rfl]
      have := hfirst
      rw [hstore] at this
      have ht : totalOf ((s1.getOrCreateUserPoints req.ChildID).1.saveUserPoints
          (applyScoreChange (behaviorTypeOf req.ScoreChange) req.ScoreChange
            (s1.getOrCreateUserPoints req.ChildID).2)) req.ChildID =
          (applyScoreChange (behaviorTypeOf req.ScoreChange) req.ScoreChange p0).TotalPoints := by
        unfold totalOf
        rw [this]
      rw [ht, applyScoreChange_total, h0t]
      rfl
    · rw [if_neg hcc]
      have hother := saveUserPoints_first_other (s1.getOrCreateUserPoints req.ChildID).1
        (s1.getOrCreateUserPoints req.ChildID).2
        (applyScoreChange (behaviorTypeOf req.ScoreChange) req.ScoreChange
          (s1.getOrCreateUserPoints req.ChildID).2) c hwf2.1 hmem hk.1
        (by rw [hrow.1]; exact fun h => hcc h.symm)
        (by rw [hk.2, hrow.1]; exact fun h => hcc h.symm)
      have h2 : totalOf (s1.getOrCreateUserPoints req.ChildID).1 c = totalOf s c := by
        rw [totalOf_getOrCreateUserPoints, totalOf_of_eq s s1 hup1]
      rw [← h2]
      unfold totalOf
      rw [hother]
  · have hbr : ((s1.getOrCreateUserPoints req.ChildID).1.saveUserPoints
        (applyScoreChange (behaviorTypeOf req.ScoreChange) req.ScoreChange
          (s1.getOrCreateUserPoints req.ChildID).2)).behaviorRecords =
        s.behaviorRecords ++
          [{ ID := s.lastBehaviorRecordID + 1, ChildID := req.ChildID,
             RecorderID := a.userID, BehaviorType := behaviorTypeOf req.ScoreChange,
             BehaviorDesc := req.BehaviorDesc, ScoreChange := req.ScoreChange,
             ImageURL := req.ImageURL, RecordedAt := now }] := by
      rw [saveUserPoints_behaviorRecords, getOrCreateUserPoints_behaviorRecords, hbr1]
    exact ledgerSum_append s _ _ c hbr

theorem commitExchange_behaviorRecords (s : Store) (now t : Nat) (req : ExchangeRewardRequest)
    (r : Reward) (up : UserPoints) :
    (commitExchange s now t req r up).1.behaviorRecords = s.behaviorRecords := by
  unfold commitExchange Store.createExchangeRecord Store.saveReward Store.saveUserPoints
  simp only
  split <;> split <;> (try split) <;> rfl

theorem commitExchange_lastUserPointsID (s : Store) (now t : Nat)
    (req : ExchangeRewardRequest) (r : Reward) (up : UserPoints) :
    (commitExchange s now t req r up).1.lastUserPointsID = s.lastUserPointsID := by
  unfold commitExchange Store.createExchangeRecord Store.saveReward Store.saveUserPoints
  simp only
  split <;> split <;> (try split) <;> rfl

theorem commitExchange_users (s : Store) (now t : Nat) (req : ExchangeRewardRequest)
    (r : Reward) (up : UserPoints) :
    (commitExchange s now t req r up).1.users = s.users := by
  unfold commitExchange Store.createExchangeRecord Store.saveReward Store.saveUserPoints
  simp only
  split <;> split <;> (try split) <;> rfl

theorem firstUserPoints_userID (s : Store) (t : Nat) (up : UserPoints)
    (h : s.firstUserPoints t = some up) : up.UserID = t := by
  have := List.find?_some h
  simpa using this

/-- On a well-formed points table `ExchangeReward` keeps the table well-formed and
leaves every `total_points` and the whole ledger as they were. -/
theorem ExchangeReward_ledger_step (s : Store) (now : Nat) (a : Actor)
    (req : ExchangeRewardRequest) (hwf : PointsTableWF s) :
    PointsTableWF (ExchangeReward s now a req).1 ∧
    (∀ c, totalOf (ExchangeReward s now a req).1 c = totalOf s c) ∧
    (ExchangeReward s now a req).1.behaviorRecords = s.behaviorRecords := by
  rcases ExchangeReward_cases s now a req with h | ⟨t, r, up, _, _, _, _, _, hup, _, heq⟩
  · rw [h.1]; exact ⟨hwf, fun _ => rfl, rfl⟩
  · rw [heq]
    have hum : up ∈ s.userPoints := List.mem_of_find?_eq_some hup
    have hut := firstUserPoints_userID s t up hup
    have hrw := commitExchange_userPoints s now t req r up
    have hkeys := saveUserPoints_keys s up
      { up with AvailablePoints := subInt up.AvailablePoints r.Points } hwf.1 hum rfl rfl
    refine ⟨?_, ?_, commitExchange_behaviorRecords s now t req r up⟩
    · have hwf' := saveUserPoints_wf s up
        { up with AvailablePoints := subInt up.AvailablePoints r.Points } hwf hum rfl rfl
      exact PointsTableWF_of_eq _ _ hrw
        (by rw [commitExchange_lastUserPointsID, hkeys.2.2]) hwf'
    · intro c
      rw [totalOf_of_eq _ _ hrw]
      by_cases hc : c = t
      · subst hc
        have h1 := saveUserPoints_first s c up
          { up with AvailablePoints := subInt up.AvailablePoints r.Points } hup rfl hut
        unfold totalOf
        rw [h1, hup]
      · have h1 := saveUserPoints_first_other s up
          { up with AvailablePoints := subInt up.AvailablePoints r.Points } c hwf.1 hum rfl
          (by rw [hut]; exact fun h => hc h.symm) (by simp only; rw [hut]; exact fun h => hc h.symm)
        unfold totalOf
        rw [h1]

theorem Register_ledger_step (s : Store) (hashed : Option String) (token : Nat → Option String)
    (req : RegisterRequest) (hwf : PointsTableWF s) :
    PointsTableWF (Register s hashed token req).1 ∧
    (∀ c, totalOf (Register s hashed token req).1 c = totalOf s c) ∧
    (Register s hashed token req).1.behaviorRecords = s.behaviorRecords := by
  have hz : ∀ (s1 : Store) (u : Nat), s1.userPoints = s.userPoints →
      s1.lastUserPointsID = s.lastUserPointsID → s1.behaviorRecords = s.behaviorRecords →
      PointsTableWF (s1.createUserPoints
        { ID := 0, UserID := u, TotalPoints := 0, AvailablePoints := 0 }).1 ∧
      (∀ c, totalOf (s1.createUserPoints
        { ID := 0, UserID := u, TotalPoints := 0, AvailablePoints := 0 }).1 c = totalOf s c) ∧
      (s1.createUserPoints
        { ID := 0, UserID := u, TotalPoints := 0, AvailablePoints := 0 }).1.behaviorRecords =
        s.behaviorRecords := by
    intro s1 u h1 h2 h3
    refine ⟨createUserPoints_wf s1 _ (PointsTableWF_of_eq s s1 h1 h2 hwf), ?_, ?_⟩
    · intro c
      rw [totalOf_createUserPoints_zero, totalOf_of_eq s s1 h1]
    · unfold Store.createUserPoints
      split <;> exact h3
  unfold Register
  split
  · exact ⟨hwf, fun _ => rfl, rfl⟩
  · split
    · exact ⟨hwf, fun _ => rfl, rfl⟩
    · split
      · exact ⟨hwf, fun _ => rfl, rfl⟩
      · dsimp only
        split <;> exact hz _ _ rfl rfl rfl

theorem CreateChild_ledger_step (s : Store) (a : Actor) (req : CreateChildRequest)
    (hwf : PointsTableWF s) :
    PointsTableWF (CreateChild s a req).1 ∧
    (∀ c, totalOf (CreateChild s a req).1 c = totalOf s c) ∧
    (CreateChild s a req).1.behaviorRecords = s.behaviorRecords := by
  unfold CreateChild
  split
  · exact ⟨hwf, fun _ => rfl, rfl⟩
  · split
    · exact ⟨hwf, fun _ => rfl, rfl⟩
    · dsimp only
      refine ⟨createUserPoints_wf _ _ (PointsTableWF_of_eq s _ rfl rfl hwf), ?_, ?_⟩
      · intro c
        rw [totalOf_createUserPoints_zero]
        exact totalOf_of_eq s _ rfl c
      · unfold Store.createUserPoints
        split <;> rfl

theorem CreateReward_ledger_step (s : Store) (a : Actor) (req : CreateRewardRequest)
    (hwf : PointsTableWF s) :
    PointsTableWF (CreateReward s a req).1 ∧
    (∀ c, totalOf (CreateReward s a req).1 c = totalOf s c) ∧
    (CreateReward s a req).1.behaviorRecords = s.behaviorRecords := by
  unfold CreateReward
  split
  · exact ⟨hwf, fun _ => rfl, rfl⟩
  · split
    · exact ⟨hwf, fun _ => rfl, rfl⟩
    · exact ⟨PointsTableWF_of_eq s _ rfl rfl hwf, fun c => totalOf_of_eq s _ rfl c, rfl⟩

theorem LedgerInvariant_of_unchanged (s s' : Store) (h : LedgerInvariant s)
    (hwf : PointsTableWF s') (ht : ∀ c, totalOf s' c = totalOf s c)
    (hb : s'.behaviorRecords = s.behaviorRecords) : LedgerInvariant s' :=
  ⟨hwf, fun c => by rw [ht c, ledgerSum_of_eq s s' hb c]; exact h.2 c⟩

theorem Call.run_ledger (s : Store) (c : Call) (h : LedgerInvariant s) :
    LedgerInvariant (c.run s) := by
  cases c with
  | register hashed token req =>
    obtain ⟨h1, h2, h3⟩ := Register_ledger_step s hashed token req h.1
    exact LedgerInvariant_of_unchanged s _ h h1 h2 h3
  | createChild a req =>
    obtain ⟨h1, h2, h3⟩ := CreateChild_ledger_step s a req h.1
    exact LedgerInvariant_of_unchanged s _ h h1 h2 h3
  | createReward a req =>
    obtain ⟨h1, h2, h3⟩ := CreateReward_ledger_step s a req h.1
    exact LedgerInvariant_of_unchanged s _ h h1 h2 h3
  | recordBehavior now a req =>
    show LedgerInvariant (RecordBehavior s now a req).1
    cases hok : (RecordBehavior s now a req).2.isSuccess with
    | false => rw [RecordBehavior_fail_store s now a req hok]; exact h
    | true =>
      obtain ⟨h1, h2⟩ := RecordBehavior_ledger_step s now a req h.1 hok
      refine ⟨h1, fun c => ?_⟩
      rw [(h2 c).1, (h2 c).2, h.2 c]
      by_cases hc : c = req.ChildID
      · rw [if_pos hc, if_pos hc, wrapInt_add_wrapInt]
      · rw [if_neg hc, if_neg hc, add_zero]
  | exchangeReward now a req =>
    obtain ⟨h1, h2, h3⟩ := ExchangeReward_ledger_step s now a req h.1
    exact LedgerInvariant_of_unchanged s _ h h1 h2 h3

theorem runCalls_ledger : ∀ (calls : List Call) (s : Store), LedgerInvariant s →
    LedgerInvariant (runCalls s calls) := by
  intro calls
  induction calls with
  | nil => intro s h; exact h
  | cons c rest ih => intro s h; exact ih _ (Call.run_ledger s c h)

theorem emptyStore_ledger : LedgerInvariant emptyStore := by
  refine ⟨⟨?_, ?_, ?_⟩, ?_⟩
  · simp [emptyStore]
  · simp [emptyStore]
  · intro p hp; simp [emptyStore] at hp
  · intro c
    show (0 : Int) = wrapInt 0
    decide

theorem firstUserPoints_of_mem (s : Store) (p : UserPoints)
    (hkey : (s.userPoints.map UserPoints.UserID).Nodup) (hp : p ∈ s.userPoints) :
    s.firstUserPoints p.UserID = some p := by
  unfold Store.firstUserPoints
  cases hf : s.userPoints.find? (fun q => q.UserID == p.UserID) with
  | none =>
    have := List.find?_eq_none.mp hf p hp
    simp at this
  | some q =>
    have hq : q ∈ s.userPoints := List.mem_of_find?_eq_some hf
    have hqu : q.UserID = p.UserID := by simpa using List.find?_some hf
    rw [List.inj_on_of_nodup_map hkey hq hp hqu]

/-- C11 (amended): in every state reachable from the empty store by Register,
CreateChild, CreateReward, RecordBehavior and ExchangeReward calls, each user's
totalPoints equals the sum of the score deltas of all BehaviorEvents whose subject
is that user, reduced to the 64-bit two's-complement range of Go's `int`; it is the
sum itself whenever the sum lies in that range.  This holds for the row found by
`user_id` and for every row of the points table, and an exchange never changes it. -/
theorem total_is_ledger_projection (calls : List Call) (c : Nat) :
    totalOf (runCalls emptyStore calls) c =
      wrapInt (ledgerSum (runCalls emptyStore calls) c) ∧
    (InInt (ledgerSum (runCalls emptyStore calls) c) →
      totalOf (runCalls emptyStore calls) c = ledgerSum (runCalls emptyStore calls) c) ∧
    (∀ p ∈ (runCalls emptyStore calls).userPoints,
      p.TotalPoints = wrapInt (ledgerSum (runCalls emptyStore calls) p.UserID)) ∧
    (∀ (now : Nat) (a : Actor) (req : ExchangeRewardRequest),
      totalOf (ExchangeReward (runCalls emptyStore calls) now a req).1 c =
        totalOf (runCalls emptyStore calls) c) := by
  have hinv := runCalls_ledger calls emptyStore emptyStore_ledger
  refine ⟨hinv.2 c, ?_, ?_, ?_⟩
  · intro hin
    rw [hinv.2 c, wrapInt_of_inInt hin]
  · intro p hp
    have hfirst := firstUserPoints_of_mem _ p hinv.1.2.1 hp
    have := hinv.2 p.UserID
    unfold totalOf at this
    rw [hfirst] at this
    exact this
  · intro now a req
    exact (ExchangeReward_ledger_step _ now a req hinv.1).2.1 c

/-- C11 as stated fails: after CreateChild and two RecordBehavior calls of +2^62 each
the child's totalPoints is -2^63 while its ledger rows sum to 2^63; the same happens
in the run that starts with a registration. -/
theorem total_is_ledger_projection_counterexample :
    (∃ p ∈ (runCalls emptyStore overflowLedgerCalls).userPoints, p.UserID = 1 ∧
      p.TotalPoints = -9223372036854775808 ∧
      ledgerSum (runCalls emptyStore overflowLedgerCalls) 1 = 9223372036854775808 ∧
      p.TotalPoints ≠ ledgerSum (runCalls emptyStore overflowLedgerCalls) 1) ∧
    (∃ p ∈ (runCalls emptyStore overflowCalls).userPoints, p.UserID = 2 ∧
      p.TotalPoints = -9223372036854775808 ∧
      ledgerSum (runCalls emptyStore overflowCalls) 2 = 9223372036854775808 ∧
      p.TotalPoints ≠ ledgerSum (runCalls emptyStore overflowCalls) 2) :=
  ⟨⟨{ ID := 1, UserID := 1, TotalPoints := -9223372036854775808,
      AvailablePoints := -9223372036854775808 },
     by decide, by decide, by decide, by decide, by decide⟩,
   ⟨{ ID := 2, UserID := 2, TotalPoints := -9223372036854775808,
      AvailablePoints := -9223372036854775808 },
     by decide, by decide, by decide, by decide, by decide⟩⟩

theorem filter_userID_length_one : ∀ (l : List UserPoints) (c : Nat) (p : UserPoints),
    (l.map UserPoints.UserID).Nodup → l.find? (fun q => q.UserID == c) = some p →
    (l.filter (fun q => q.UserID == c)).length = 1 := by
  intro l
  induction l with
  | nil => intro c p _ h; simp at h
  | cons x xs ih =>
    intro c p hnd h
    rw [List.map_cons, List.nodup_cons] at hnd
    by_cases hx : x.UserID = c
    · have hempty : xs.filter (fun q => q.UserID == c) = [] := by
        rw [List.filter_eq_nil_iff]
        intro q hq hqc
        apply hnd.1
        rw [List.mem_map]
        exact ⟨q, hq, by rw [hx]; simpa using hqc⟩
      have hb : (x.UserID == c) = true := by simpa using hx
      rw [List.filter_cons, if_pos hb, hempty]
      rfl
    · have hb : (x.UserID == c) = false := by simpa using hx
      rw [List.find?_cons, hb] at h
      rw [List.filter_cons, hb]
      exact ih c p hnd.2 h

theorem saveUserPoints_length (s : Store) (up p : UserPoints) (hmem : up ∈ s.userPoints)
    (hid : p.ID = up.ID) : (s.saveUserPoints p).userPoints.length = s.userPoints.length := by
  have hany : s.userPoints.any (fun q => q.ID == p.ID) = true := by
    rw [List.any_eq_true]
    exact ⟨up, hmem, by simp [hid]⟩
  unfold Store.saveUserPoints
  rw [if_pos hany]
  simp

/-- The get-or-create step of lines 83-93: an existing row is handed back as it is
and the table is left alone; without a row, one zeroed row is appended. -/
theorem getOrCreateUserPoints_cases (s : Store) (c : Nat) :
    (∀ p0, s.firstUserPoints c = some p0 →
      s.getOrCreateUserPoints c = (s, p0)) ∧
    (s.firstUserPoints c = none →
      (s.getOrCreateUserPoints c).2 =
        { ID := s.lastUserPointsID + 1, UserID := c, TotalPoints := 0, AvailablePoints := 0 } ∧
      (s.getOrCreateUserPoints c).1.userPoints =
        s.userPoints ++
          [{ ID := s.lastUserPointsID + 1, UserID := c, TotalPoints := 0,
             AvailablePoints := 0 }]) := by
  constructor
  · intro p0 h
    unfold Store.getOrCreateUserPoints
    rw [h]
  · intro h
    have hany : s.userPoints.any (fun q => q.UserID == c) = false := by
      rw [List.any_eq_false]
      intro q hq
      have := List.find?_eq_none.mp h q hq
      simpa using this
    unfold Store.getOrCreateUserPoints
    rw [h]
    simp [Store.createUserPoints, hany]

/-- The points table after a `RecordBehavior` call that passes its three checks:
with a row for the child, that row is updated in place; without one, a zeroed row is
appended first and then updated. -/
theorem RecordBehavior_row (s : Store) (now : Nat) (a : Actor)
    (req : RecordBehaviorRequest) (hok : (RecordBehavior s now a req).2.isSuccess = true) :
    (∀ p0, s.firstUserPoints req.ChildID = some p0 →
      (RecordBehavior s now a req).1.firstUserPoints req.ChildID =
        some (applyScoreChange (behaviorTypeOf req.ScoreChange) req.ScoreChange p0) ∧
      (RecordBehavior s now a req).1.userPoints.length = s.userPoints.length) ∧
    (s.firstUserPoints req.ChildID = none →
      (RecordBehavior s now a req).1.firstUserPoints req.ChildID =
        some (applyScoreChange (behaviorTypeOf req.ScoreChange) req.ScoreChange
          { ID := s.lastUserPointsID + 1, UserID := req.ChildID, TotalPoints := 0,
            AvailablePoints := 0 }) ∧
      (RecordBehavior s now a req).1.userPoints.length = s.userPoints.length + 1) := by
  obtain ⟨hr, hb, u, hc⟩ := RecordBehavior_success_inv s now a req hok
  have hstore := RecordBehavior_store s now a req u hr hb hc
  generalize hs1 : (s.createBehaviorRecord
      { ID := 0, ChildID := req.ChildID, RecorderID := a.userID,
        BehaviorType := behaviorTypeOf req.ScoreChange, BehaviorDesc := req.BehaviorDesc,
        ScoreChange := req.ScoreChange, ImageURL := req.ImageURL,
        RecordedAt := now }).1 = s1 at hstore
  have hup1 : s1.userPoints = s.userPoints := by rw [← hs1]; rfl
  have hlast1 : s1.lastUserPointsID = s.lastUserPointsID := by rw [← hs1]; rfl
  have hf1 : s1.firstUserPoints req.ChildID = s.firstUserPoints req.ChildID := by
    unfold Store.firstUserPoints; rw [hup1]
  have hmem := getOrCreateUserPoints_mem s1 req.ChildID
  have hfirst := getOrCreateUserPoints_first s1 req.ChildID
  have hrow := getOrCreateUserPoints_row s1 req.ChildID
  have hk := applyScoreChange_keys (behaviorTypeOf req.ScoreChange) req.ScoreChange
    (s1.getOrCreateUserPoints req.ChildID).2
  have hsave := saveUserPoints_first _ req.ChildID _
    (applyScoreChange (behaviorTypeOf req.ScoreChange) req.ScoreChange
      (s1.getOrCreateUserPoints req.ChildID).2) hfirst hk.1 (by rw [hk.2, hrow.1])
  have hlen := saveUserPoints_length (s1.getOrCreateUserPoints req.ChildID).1 _
    (applyScoreChange (behaviorTypeOf req.ScoreChange) req.ScoreChange
      (s1.getOrCreateUserPoints req.ChildID).2) hmem hk.1
  have hcases := getOrCreateUserPoints_cases s1 req.ChildID
  rw [hstore]
  constructor
  · intro p0 h0
    have hg := hcases.1 p0 (by rw [hf1]; exact h0)
    rw [hg] at hsave hlen ⊢
    exact ⟨hsave, hlen.trans (congrArg List.length hup1)⟩
  · intro h0
    obtain ⟨hg2, hg1⟩ := hcases.2 (by rw [hf1]; exact h0)
    rw [hg2, hlast1] at hsave hlen ⊢
    refine ⟨hsave, ?_⟩
    rw [hlen, hg1, hup1, hlast1]
    simp

theorem recordBehaviors_wf (a : Actor) : ∀ (calls : List (Nat × RecordBehaviorRequest))
    (s : Store), PointsTableWF s → PointsTableWF (recordBehaviors s a calls) := by
  intro calls
  induction calls with
  | nil => intro s h; exact h
  | cons x xs ih =>
    intro s h
    apply ih
    cases hok : (RecordBehavior s x.1 a x.2).2.isSuccess with
    | false => rw [RecordBehavior_fail_store s x.1 a x.2 hok]; exact h
    | true => exact (RecordBehavior_ledger_step s x.1 a x.2 h hok).1

/-- C12: the get-or-create of the balance inside RecordBehavior is lazy and
idempotent.  In a successful call for a child without a PointsBalance one zeroed row
is appended and the delta applied to it, giving {scoreDelta, max(0, scoreDelta)};
with a PointsBalance the same row (same primary key and user) is reused and no row
is added; and after any number of successful RecordBehavior calls, the last of them
for this child, the child has exactly one PointsBalance.  The points table starts
well-formed (unique keys handed out by the counter, unique user_id) and the score
is a Go int. -/
theorem getOrCreate_lazy_idempotent (s : Store) (a : Actor) (c : Nat)
    (calls : List (Nat × RecordBehaviorRequest)) (now : Nat) (req : RecordBehaviorRequest)
    (hwf : PointsTableWF s) (hreq : req.ChildID = c)
    (hok : recordBehaviorsSucceed s a (calls ++ [(now, req)]) = true)
    (hd : InInt req.ScoreChange) :
    ((recordBehaviors s a calls).firstUserPoints c = none →
      ∃ p, (recordBehaviors s a (calls ++ [(now, req)])).firstUserPoints c = some p ∧
        p.TotalPoints = req.ScoreChange ∧ p.AvailablePoints = max 0 req.ScoreChange ∧
        (recordBehaviors s a (calls ++ [(now, req)])).userPoints.length =
          (recordBehaviors s a calls).userPoints.length + 1) ∧
    (∀ p0, (recordBehaviors s a calls).firstUserPoints c = some p0 →
      ∃ p, (recordBehaviors s a (calls ++ [(now, req)])).firstUserPoints c = some p ∧
        p.ID = p0.ID ∧ p.UserID = p0.UserID ∧
        (recordBehaviors s a (calls ++ [(now, req)])).userPoints.length =
          (recordBehaviors s a calls).userPoints.length) ∧
    ((recordBehaviors s a (calls ++ [(now, req)])).userPoints.filter
      (fun p => p.UserID == c)).length = 1 := by
  obtain ⟨_, hok2⟩ := recordBehaviorsSucceed_append a now req calls s hok
  have hwf1 := recordBehaviors_wf a calls s hwf
  have hwf2 := (RecordBehavior_ledger_step _ now a req hwf1 hok2).1
  have hrow := RecordBehavior_row (recordBehaviors s a calls) now a req hok2
  rw [recordBehaviors_append]
  rw [hreq] at hrow
  refine ⟨?_, ?_, ?_⟩
  · intro hnone
    obtain ⟨hfirst, hlen⟩ := hrow.2 hnone
    have hex := applyScoreChange_exact req.ScoreChange
      { ID := (recordBehaviors s a calls).lastUserPointsID + 1, UserID := c, TotalPoints := 0,
        AvailablePoints := 0 } (le_refl _) (by simpa using hd) (by simpa using hd)
    refine ⟨_, hfirst, ?_, ?_, hlen⟩
    · rw [hex.1]; simp
    · rw [hex.2]; simp
  · intro p0 hsome
    obtain ⟨hfirst, hlen⟩ := hrow.1 p0 hsome
    have hk := applyScoreChange_keys (behaviorTypeOf req.ScoreChange) req.ScoreChange p0
    exact ⟨_, hfirst, hk.1, hk.2, hlen⟩
  · cases hcase : (recordBehaviors s a calls).firstUserPoints c with
    | none =>
      exact filter_userID_length_one _ c _ hwf2.2.1 (hrow.2 hcase).1
    | some p0 =>
      exact filter_userID_length_one _ c _ hwf2.2.1 (hrow.1 p0 hcase).1

/-- Witness for C12: in `demoShop` the child already has a row; the parent records
+10 and then -15 for the child. -/
theorem getOrCreate_lazy_idempotent_witness :
    PointsTableWF demoShop ∧ (demoBehavior (-15)).ChildID = 2 ∧
    recordBehaviorsSucceed demoShop demoParent
      ([(3, demoBehavior 10)] ++ [(4, demoBehavior (-15))]) = true ∧
    InInt (demoBehavior (-15)).ScoreChange ∧
    (((recordBehaviors demoShop demoParent [(3, demoBehavior 10)]).firstUserPoints 2 = none →
      ∃ p, (recordBehaviors demoShop demoParent
          ([(3, demoBehavior 10)] ++ [(4, demoBehavior (-15))])).firstUserPoints 2 = some p ∧
        p.TotalPoints = (demoBehavior (-15)).ScoreChange ∧
        p.AvailablePoints = max 0 (demoBehavior (-15)).ScoreChange ∧
        (recordBehaviors demoShop demoParent
          ([(3, demoBehavior 10)] ++ [(4, demoBehavior (-15))])).userPoints.length =
          (recordBehaviors demoShop demoParent [(3, demoBehavior 10)]).userPoints.length + 1) ∧
    (∀ p0, (recordBehaviors demoShop demoParent [(3, demoBehavior 10)]).firstUserPoints 2 =
        some p0 →
      ∃ p, (recordBehaviors demoShop demoParent
          ([(3, demoBehavior 10)] ++ [(4, demoBehavior (-15))])).firstUserPoints 2 = some p ∧
        p.ID = p0.ID ∧ p.UserID = p0.UserID ∧
        (recordBehaviors demoShop demoParent
          ([(3, demoBehavior 10)] ++ [(4, demoBehavior (-15))])).userPoints.length =
          (recordBehaviors demoShop demoParent [(3, demoBehavior 10)]).userPoints.length) ∧
    ((recordBehaviors demoShop demoParent
        ([(3, demoBehavior 10)] ++ [(4, demoBehavior (-15))])).userPoints.filter
      (fun p => p.UserID == 2)).length = 1) :=
  ⟨by unfold PointsTableWF; decide, by decide, by decide, by decide,
    getOrCreate_lazy_idempotent demoShop demoParent 2 [(3, demoBehavior 10)] 4
      (demoBehavior (-15)) (by unfold PointsTableWF; decide) (by decide) (by decide)
      (by decide)⟩

theorem RecordBehavior_rewards (s : Store) (now : Nat) (a : Actor)
    (req : RecordBehaviorRequest) : (RecordBehavior s now a req).1.rewards = s.rewards := by
  cases hok : (RecordBehavior s now a req).2.isSuccess with
  | false => rw [RecordBehavior_fail_store s now a req hok]
  | true =>
    obtain ⟨hr, hb, u, hc⟩ := RecordBehavior_success_inv s now a req hok
    rw [RecordBehavior_store s now a req u hr hb hc, saveUserPoints_rewards,
      getOrCreateUserPoints_rewards]
    rfl

theorem saveUserPoints_users (s : Store) (p : UserPoints) :
    (s.saveUserPoints p).users = s.users := by
  unfold Store.saveUserPoints
  split
  · rfl
  · split <;> rfl

theorem getOrCreateUserPoints_users (s : Store) (c : Nat) :
    (s.getOrCreateUserPoints c).1.users = s.users := by
  unfold Store.getOrCreateUserPoints Store.createUserPoints
  split
  · rfl
  · split <;> rfl

theorem RecordBehavior_users (s : Store) (now : Nat) (a : Actor)
    (req : RecordBehaviorRequest) : (RecordBehavior s now a req).1.users = s.users := by
  cases hok : (RecordBehavior s now a req).2.isSuccess with
  | false => rw [RecordBehavior_fail_store s now a req hok]
  | true =>
    obtain ⟨hr, hb, u, hc⟩ := RecordBehavior_success_inv s now a req hok
    rw [RecordBehavior_store s now a req u hr hb hc, saveUserPoints_users,
      getOrCreateUserPoints_users]
    rfl

theorem resolveTargetUser_of_users_eq (s s' : Store) (a : Actor) (req : ExchangeRewardRequest)
    (h : s'.users = s.users) : resolveTargetUser s' a req = resolveTargetUser s a req := by
  unfold resolveTargetUser Store.firstChildOfParent
  rw [h]

theorem firstReward_of_rewards_eq (s s' : Store) (rid : Nat) (h : s'.rewards = s.rewards) :
    s'.firstReward rid = s.firstReward rid := by
  unfold Store.firstReward
  rw [h]

/-- The handler runs the transaction exactly when the body binds, the beneficiary
resolves and the five checks hold. -/
theorem ExchangeReward_commit (s : Store) (now : Nat) (a : Actor) (req : ExchangeRewardRequest)
    (t : Nat) (r : Reward) (up : UserPoints) (hb : req.bind = true)
    (ht : resolveTargetUser s a req = .ok t) (hr : s.firstReward req.RewardID = some r)
    (hact : r.IsActive = true) (hst : 0 < r.Stock) (hup : s.firstUserPoints t = some up)
    (hle : r.Points ≤ up.AvailablePoints) :
    ExchangeReward s now a req = commitExchange s now t req r up := by
  have h1 : ¬ (r.Stock ≤ 0) := by omega
  have h2 : ¬ (up.AvailablePoints < r.Points) := by omega
  unfold ExchangeReward exchangeFor
  simp [hb, ht, hr, hact, h1, hup, h2]

/-- The reward row and the beneficiary's points row after the transaction. -/
theorem commitExchange_rows (s : Store) (now t : Nat) (req : ExchangeRewardRequest)
    (r : Reward) (up : UserPoints) (hr : s.firstReward req.RewardID = some r)
    (hup : s.firstUserPoints t = some up) :
    (commitExchange s now t req r up).1.firstReward req.RewardID =
      some { r with Stock := subInt r.Stock 1 } ∧
    (commitExchange s now t req r up).1.firstUserPoints t =
      some { up with AvailablePoints := subInt up.AvailablePoints r.Points } := by
  constructor
  · unfold Store.firstReward
    rw [commitExchange_rewards]
    exact saveReward_first s req.RewardID r { r with Stock := subInt r.Stock 1 } hr rfl
  · unfold Store.firstUserPoints
    rw [commitExchange_userPoints]
    exact saveUserPoints_first s t up
      { up with AvailablePoints := subInt up.AvailablePoints r.Points } hup rfl
      (firstUserPoints_userID s t up hup)

/-- C13: a child balance starts at {total 0, available 0}; the parent records +10,
giving {10, 10}; the parent records -15, giving {-5, 0}; an ExchangeReward of an
active in-stock reward priced 5 for that child then fails with "Insufficient
points" and changes nothing. -/
theorem scenario_clamped_penalty (s : Store) (a b : Actor) (c now1 now2 now3 : Nat)
    (req1 req2 : RecordBehaviorRequest) (ereq : ExchangeRewardRequest) (r : Reward)
    (p0 : UserPoints)
    (hstart : s.firstUserPoints c = some p0) (h0t : p0.TotalPoints = 0)
    (h0a : p0.AvailablePoints = 0)
    (h1c : req1.ChildID = c) (h1d : req1.ScoreChange = 10)
    (h2c : req2.ChildID = c) (h2d : req2.ScoreChange = -15)
    (hok : recordBehaviorsSucceed s a [(now1, req1), (now2, req2)] = true)
    (hb : ereq.bind = true) (ht : resolveTargetUser s b ereq = .ok c)
    (hr : s.firstReward ereq.RewardID = some r) (hact : r.IsActive = true)
    (hst : 0 < r.Stock) (hprice : r.Points = 5) :
    (∃ p1, (recordBehaviors s a [(now1, req1)]).firstUserPoints c = some p1 ∧
      p1.TotalPoints = 10 ∧ p1.AvailablePoints = 10) ∧
    (∃ p2, (recordBehaviors s a [(now1, req1), (now2, req2)]).firstUserPoints c = some p2 ∧
      p2.TotalPoints = -5 ∧ p2.AvailablePoints = 0) ∧
    ExchangeReward (recordBehaviors s a [(now1, req1), (now2, req2)]) now3 b ereq =
      (recordBehaviors s a [(now1, req1), (now2, req2)], .failure 400 "Insufficient points") := by
  simp only [recordBehaviorsSucceed, Bool.and_eq_true, Bool.true_and, and_true] at hok
  simp only [recordBehaviors]
  have ht0 : totalOf s c = 0 := by unfold totalOf; rw [hstart]; exact h0t
  have ha0 : availableOf s c = 0 := by unfold availableOf; rw [hstart]; exact h0a
  obtain ⟨p1, hp1, hp1t, hp1a⟩ := RecordBehavior_counters s now1 a req1 hok.1
    (by rw [h1c, ha0]) (by rw [h1c, ht0, h1d]; decide) (by rw [h1c, ha0, h1d]; decide)
  rw [h1c, ht0, h1d] at hp1t
  rw [h1c, ha0, h1d] at hp1a
  rw [h1c] at hp1
  have hp1t' : p1.TotalPoints = 10 := by rw [hp1t]; norm_num
  have hp1a' : p1.AvailablePoints = 10 := by rw [hp1a]; norm_num
  have ht1 : totalOf (RecordBehavior s now1 a req1).1 c = 10 := by
    unfold totalOf; rw [hp1]; exact hp1t'
  have ha1 : availableOf (RecordBehavior s now1 a req1).1 c = 10 := by
    unfold availableOf; rw [hp1]; exact hp1a'
  obtain ⟨p2, hp2, hp2t, hp2a⟩ := RecordBehavior_counters _ now2 a req2 hok.2
    (by rw [h2c, ha1]; decide) (by rw [h2c, ht1, h2d]; decide)
    (by rw [h2c, ha1, h2d]; decide)
  rw [h2c, ht1, h2d] at hp2t
  rw [h2c, ha1, h2d] at hp2a
  rw [h2c] at hp2
  have hp2t' : p2.TotalPoints = -5 := by rw [hp2t]; norm_num
  have hp2a' : p2.AvailablePoints = 0 := by rw [hp2a]; norm_num
  refine ⟨⟨p1, hp1, hp1t', hp1a'⟩, ⟨p2, hp2, hp2t', hp2a'⟩, ?_⟩
  generalize hs2 : (RecordBehavior (RecordBehavior s now1 a req1).1 now2 a req2).1 = s2 at hp2
  have husers : s2.users = s.users := by
    rw [← hs2, RecordBehavior_users, RecordBehavior_users]
  have hrewards : s2.rewards = s.rewards := by
    rw [← hs2, RecordBehavior_rewards, RecordBehavior_rewards]
  have ht' : resolveTargetUser s2 b ereq = .ok c := by
    rw [resolveTargetUser_of_users_eq s s2 b ereq husers]; exact ht
  have hr' : s2.firstReward ereq.RewardID = some r := by
    rw [firstReward_of_rewards_eq s s2 _ hrewards]; exact hr
  have hst' : ¬ (r.Stock ≤ 0) := by omega
  have hlt : p2.AvailablePoints < r.Points := by
    rw [hp2a', hprice]; decide
  unfold ExchangeReward exchangeFor
  simp [hb, ht', hr', hact, hst', hp2, hlt]

/-- Witness for C13: the scenario itself, run on `demoToyShop`. -/
theorem scenario_clamped_penalty_witness :
    demoToyShop.firstUserPoints 2 =
      some { ID := 2, UserID := 2, TotalPoints := 0, AvailablePoints := 0 } ∧
    recordBehaviorsSucceed demoToyShop demoParent
      [(1, demoBehavior 10), (2, demoBehavior (-15))] = true ∧
    (demoExchange 5 0).bind = true ∧
    resolveTargetUser demoToyShop demoChild (demoExchange 5 0) = .ok 2 ∧
    demoToyShop.firstReward (demoExchange 5 0).RewardID = some demoToy ∧
    ((∃ p1, (recordBehaviors demoToyShop demoParent [(1, demoBehavior 10)]).firstUserPoints 2 =
        some p1 ∧ p1.TotalPoints = 10 ∧ p1.AvailablePoints = 10) ∧
    (∃ p2, (recordBehaviors demoToyShop demoParent
        [(1, demoBehavior 10), (2, demoBehavior (-15))]).firstUserPoints 2 = some p2 ∧
      p2.TotalPoints = -5 ∧ p2.AvailablePoints = 0) ∧
    ExchangeReward (recordBehaviors demoToyShop demoParent
        [(1, demoBehavior 10), (2, demoBehavior (-15))]) 3 demoChild (demoExchange 5 0) =
      (recordBehaviors demoToyShop demoParent [(1, demoBehavior 10), (2, demoBehavior (-15))],
        .failure 400 "Insufficient points")) :=
  ⟨by decide, by decide, by decide, by rfl, by decide,
    scenario_clamped_penalty demoToyShop demoParent demoChild 2 1 2 3 (demoBehavior 10)
      (demoBehavior (-15)) (demoExchange 5 0) demoToy
      { ID := 2, UserID := 2, TotalPoints := 0, AvailablePoints := 0 }
      (by decide) rfl rfl rfl rfl rfl rfl (by decide) (by decide) (by rfl) (by decide) rfl
      (by decide) rfl⟩

/-- C14: with an active reward of stock 1 and price 20 and a beneficiary with
availablePoints 20, ExchangeReward succeeds and leaves stock 0, availablePoints 0
and one new ExchangeRecord with pointsUsed 20 and status completed; a second
ExchangeReward of the same reward then fails with "Reward is out of stock" and
changes nothing. -/
theorem scenario_last_unit (s : Store) (b : Actor) (now1 now2 t : Nat)
    (ereq : ExchangeRewardRequest) (r : Reward) (up : UserPoints)
    (hb : ereq.bind = true) (ht : resolveTargetUser s b ereq = .ok t)
    (hr : s.firstReward ereq.RewardID = some r) (hact : r.IsActive = true)
    (hstock : r.Stock = 1) (hprice : r.Points = 20)
    (hup : s.firstUserPoints t = some up) (hav : up.AvailablePoints = 20) :
    (ExchangeReward s now1 b ereq).2.isSuccess = true ∧
    (ExchangeReward s now1 b ereq).1.firstReward ereq.RewardID = some { r with Stock := 0 } ∧
    (ExchangeReward s now1 b ereq).1.firstUserPoints t =
      some { up with AvailablePoints := 0 } ∧
    (ExchangeReward s now1 b ereq).1.exchangeRecords =
      s.exchangeRecords ++
        [{ ID := s.lastExchangeRecordID + 1, UserID := t, RewardID := ereq.RewardID,
           PointsUsed := 20, ExchangedAt := now1, Status := "completed" }] ∧
    ExchangeReward (ExchangeReward s now1 b ereq).1 now2 b ereq =
      ((ExchangeReward s now1 b ereq).1, .failure 400 "Reward is out of stock") := by
  have heq := ExchangeReward_commit s now1 b ereq t r up hb ht hr hact (by rw [hstock]; decide)
    hup (by rw [hprice, hav])
  have hrows := commitExchange_rows s now1 t ereq r up hr hup
  have hs1 : subInt r.Stock 1 = 0 := by rw [hstock]; decide
  have hs2 : subInt up.AvailablePoints r.Points = 0 := by rw [hav, hprice]; decide
  rw [hs1, hs2] at hrows
  rw [heq]
  refine ⟨commitExchange_isSuccess _ _ _ _ _ _, hrows.1, hrows.2, ?_, ?_⟩
  · rw [commitExchange_exchangeRecords, hprice]
  · have ht' : resolveTargetUser (commitExchange s now1 t ereq r up).1 b ereq = .ok t := by
      rw [resolveTargetUser_of_users_eq s _ b ereq (commitExchange_users s now1 t ereq r up)]
      exact ht
    unfold ExchangeReward exchangeFor
    simp [hb, ht', hrows.1, hact]

/-- Witness for C14: the child of `demoBikeShop` redeems the only bicycle, then asks
again. -/
theorem scenario_last_unit_witness :
    (demoExchange 20 0).bind = true ∧
    resolveTargetUser demoBikeShop demoChild (demoExchange 20 0) = .ok 2 ∧
    demoBikeShop.firstReward (demoExchange 20 0).RewardID =
      some { ID := 1, Name := "bicycle", Description := "", Points := 20, Image := "",
             Stock := 1, IsActive := true, CreatedBy := 1 } ∧
    demoBikeShop.firstUserPoints 2 =
      some { ID := 2, UserID := 2, TotalPoints := 20, AvailablePoints := 20 } ∧
    ((ExchangeReward demoBikeShop 2 demoChild (demoExchange 20 0)).2.isSuccess = true ∧
    (ExchangeReward demoBikeShop 2 demoChild (demoExchange 20 0)).1.firstReward
        (demoExchange 20 0).RewardID =
      some { ID := 1, Name := "bicycle", Description := "", Points := 20, Image := "",
             Stock := 0, IsActive := true, CreatedBy := 1 } ∧
    (ExchangeReward demoBikeShop 2 demoChild (demoExchange 20 0)).1.firstUserPoints 2 =
      some { ID := 2, UserID := 2, TotalPoints := 20, AvailablePoints := 0 } ∧
    (ExchangeReward demoBikeShop 2 demoChild (demoExchange 20 0)).1.exchangeRecords =
      demoBikeShop.exchangeRecords ++
        [{ ID := demoBikeShop.lastExchangeRecordID + 1, UserID := 2,
           RewardID := (demoExchange 20 0).RewardID, PointsUsed := 20, ExchangedAt := 2,
           Status := "completed" }] ∧
    ExchangeReward (ExchangeReward demoBikeShop 2 demoChild (demoExchange 20 0)).1 3 demoChild
        (demoExchange 20 0) =
      ((ExchangeReward demoBikeShop 2 demoChild (demoExchange 20 0)).1,
        .failure 400 "Reward is out of stock")) :=
  ⟨by decide, by rfl, by decide, by decide,
    scenario_last_unit demoBikeShop demoChild 2 3 2 (demoExchange 20 0)
      { ID := 1, Name := "bicycle", Description := "", Points := 20, Image := "",
        Stock := 1, IsActive := true, CreatedBy := 1 }
      { ID := 2, UserID := 2, TotalPoints := 20, AvailablePoints := 20 }
      (by decide) (by rfl) (by decide) rfl rfl rfl (by decide) rfl⟩

theorem find?_map_key {α : Type} (p : α → Bool) (f : α → α) (hf : ∀ x, p (f x) = p x) :
    ∀ (l : List α), (l.map f).find? p = (l.find? p).map f := by
  intro l
  induction l with
  | nil => rfl
  | cons x xs ih =>
    rw [List.map_cons, List.find?_cons, List.find?_cons, hf x]
    cases p x
    · exact ih
    · rfl

theorem firstReward_id (s : Store) (rid : Nat) (r : Reward)
    (h : s.firstReward rid = some r) : r.ID = rid := by
  have := List.find?_some h
  simpa using this

theorem deactivateReward_first (s : Store) (rid : Nat) (r : Reward)
    (h : s.firstReward rid = some r) :
    (s.deactivateReward r).firstReward rid = some { r with IsActive := false } := by
  have hid := firstReward_id s rid r h
  unfold Store.firstReward at h ⊢
  unfold Store.deactivateReward
  simp only
  have hmap := find?_map_key (fun q : Reward => q.ID == rid)
    (fun q : Reward => if q.ID == r.ID then { q with IsActive := false } else q)
    (by intro x; simp only; split <;> rfl) s.rewards
  rw [hmap, h]
  simp

theorem deleteReward_first (s : Store) (rid : Nat) (r : Reward)
    (h : s.firstReward rid = some r) : (s.deleteReward r).firstReward rid = none := by
  have hid := firstReward_id s rid r h
  unfold Store.firstReward Store.deleteReward
  simp only
  rw [List.find?_eq_none]
  intro x hx
  rw [List.mem_filter] at hx
  simpa [hid] using hx.2

/-- What `DeleteReward` does for the owning parent: the row is removed when no
exchange record references it, and only deactivated otherwise. -/
theorem DeleteReward_owner (s : Store) (a : Actor) (param : String) (rid : Nat) (r : Reward)
    (hrole : a.userRole = "parent") (hparse : parseUint32 param = some rid)
    (hr : s.firstReward rid = some r) (hown : r.CreatedBy = a.userID) :
    DeleteReward s a param =
      if s.countExchangesOfReward rid > 0 then
        (s.deactivateReward r, .success "Reward deactivated successfully")
      else (s.deleteReward r, .success "Reward deleted successfully") := by
  unfold DeleteReward
  simp [hrole, hparse, hr, hown]

/-- An exchange of a reward that is stored inactive stops at the second check. -/
theorem exchangeFor_inactive (s : Store) (now t : Nat) (req : ExchangeRewardRequest)
    (r : Reward) (hr : s.firstReward req.RewardID = some r) (hact : r.IsActive = false) :
    exchangeFor s now t req = (s, .failure 400 "Reward is not active") := by
  unfold exchangeFor
  simp [hr, hact]

/-- Through the handler, an exchange of an inactive reward never answers 200 and
never changes the store; once the body is bound and the beneficiary resolved the
answer is "Reward is not active". -/
theorem ExchangeReward_inactive (s : Store) (now : Nat) (b : Actor)
    (req : ExchangeRewardRequest) (r : Reward)
    (hr : s.firstReward req.RewardID = some r) (hact : r.IsActive = false) :
    (ExchangeReward s now b req).2.isSuccess = false ∧ (ExchangeReward s now b req).1 = s ∧
    (req.bind = true → ∀ t, resolveTargetUser s b req = .ok t →
      ExchangeReward s now b req = (s, .failure 400 "Reward is not active")) := by
  have hcases := ExchangeReward_cases s now b req
  rcases hcases with h | ⟨t, r', up, _, _, hr', hact', _⟩
  · refine ⟨h.2, h.1, ?_⟩
    intro hb t ht
    unfold ExchangeReward
    simp only [hb, ht]
    exact exchangeFor_inactive s now t req r hr hact
  · rw [hr] at hr'
    cases hr'
    rw [hact] at hact'
    cases hact'

theorem saveReward_first_other (s : Store) (p : Reward) (rid : Nat) (h : p.ID ≠ rid) :
    (s.saveReward p).firstReward rid = s.firstReward rid := by
  unfold Store.saveReward Store.firstReward
  split
  · simp only
    apply find?_map_of_agree
    intro x _
    by_cases hx : x.ID = p.ID
    · right
      have h1 : (x.ID == rid) = false := by rw [hx]; simpa using h
      have h2 : (p.ID == rid) = false := by simpa using h
      simp [hx, h1, h2]
    · left
      simp [hx]
  · simp only
    rw [List.find?_append]
    have hb : (p.ID == rid) = false := by simpa using h
    have : [p].find? (fun r => r.ID == rid) = none := by
      simp only [List.find?, hb]
    rw [this]
    cases s.rewards.find? (fun r => r.ID == rid) <;> rfl

/-- A reward that is stored inactive stays so through Register, CreateChild,
CreateReward, RecordBehavior and ExchangeReward calls. -/
theorem Call.run_inactive (s : Store) (c : Call) (rid : Nat)
    (h : ∃ r, s.firstReward rid = some r ∧ r.IsActive = false) :
    ∃ r, (c.run s).firstReward rid = some r ∧ r.IsActive = false := by
  obtain ⟨r, hr, hact⟩ := h
  cases c with
  | register hashed token req =>
    have hrw : (Register s hashed token req).1.rewards = s.rewards := by
      unfold Register
      split
      · rfl
      · split
        · rfl
        · split
          · rfl
          · dsimp only
            split <;> exact createUserPoints_rewards _ _
    refine ⟨r, ?_, hact⟩
    show (Register s hashed token req).1.firstReward rid = some r
    rw [firstReward_of_rewards_eq s _ rid hrw]; exact hr
  | createChild a req =>
    have hrw : (CreateChild s a req).1.rewards = s.rewards := by
      unfold CreateChild
      split
      · rfl
      · split
        · rfl
        · exact createUserPoints_rewards _ _
    refine ⟨r, ?_, hact⟩
    show (CreateChild s a req).1.firstReward rid = some r
    rw [firstReward_of_rewards_eq s _ rid hrw]; exact hr
  | createReward a req =>
    refine ⟨r, ?_, hact⟩
    show (CreateReward s a req).1.firstReward rid = some r
    unfold CreateReward
    split
    · exact hr
    · split
      · exact hr
      · unfold Store.firstReward at hr ⊢
        simp only [Store.createReward]
        rw [List.find?_append, hr]
        rfl
  | recordBehavior now a req =>
    refine ⟨r, ?_, hact⟩
    show (RecordBehavior s now a req).1.firstReward rid = some r
    rw [firstReward_of_rewards_eq s _ rid (RecordBehavior_rewards s now a req)]; exact hr
  | exchangeReward now a req =>
    refine ⟨r, ?_, hact⟩
    show (ExchangeReward s now a req).1.firstReward rid = some r
    rcases ExchangeReward_cases s now a req with hf | ⟨t, r', up, _, _, hr', hact', _, _, _, heq⟩
    · rw [hf.1]; exact hr
    · have hne : r'.ID ≠ rid := by
        intro hid
        have h1 := firstReward_id s _ r' hr'
        rw [hid] at h1
        rw [← h1, hr] at hr'
        cases hr'
        rw [hact] at hact'
        cases hact'
      rw [heq]
      unfold Store.firstReward
      rw [commitExchange_rewards]
      have := saveReward_first_other s { r' with Stock := subInt r'.Stock 1 } rid hne
      unfold Store.firstReward at this hr
      rw [this, hr]

theorem runCalls_inactive : ∀ (calls : List Call) (s : Store) (rid : Nat),
    (∃ r, s.firstReward rid = some r ∧ r.IsActive = false) →
    ∃ r, (runCalls s calls).firstReward rid = some r ∧ r.IsActive = false := by
  intro calls
  induction calls with
  | nil => intro s rid h; exact h
  | cons c rest ih => intro s rid h; exact ih _ rid (Call.run_inactive s c rid h)

/-- C16: DeleteReward verifies ownership.  A caller whose role is not parent is
answered 403, and so is a parent who names (by a parsable id) a stored reward that
another account created; in both cases the store is unchanged, so the reward is
neither removed nor deactivated. -/
theorem deleteReward_permission_denied (s : Store) (a : Actor) (param : String)
    (h : a.userRole ≠ "parent" ∨
      ∃ rid r, parseUint32 param = some rid ∧ s.firstReward rid = some r ∧
        r.CreatedBy ≠ a.userID) :
    (∃ message, (DeleteReward s a param).2 = .failure 403 message) ∧
      (DeleteReward s a param).1 = s ∧ (DeleteReward s a param).1.rewards = s.rewards := by
  by_cases hrole : a.userRole = "parent"
  · rcases h with h | ⟨rid, r, hparse, hr, hown⟩
    · exact absurd hrole h
    · have : DeleteReward s a param = (s, .failure 403 "Permission denied") := by
        unfold DeleteReward
        simp [hrole, hparse, hr, hown]
      rw [this]
      exact ⟨⟨_, rfl⟩, rfl, rfl⟩
  · have : DeleteReward s a param = (s, .failure 403 "Only parents can delete rewards") := by
      unfold DeleteReward
      simp [hrole]
    rw [this]
    exact ⟨⟨_, rfl⟩, rfl, rfl⟩

/-- Witness for C16: a parent with id 3 tries to delete the toy that parent 1
created. -/
theorem deleteReward_permission_denied_witness :
    (({ userID := 3, userRole := "parent" } : Actor).userRole ≠ "parent" ∨
      ∃ rid r, parseUint32 "1" = some rid ∧ demoShop.firstReward rid = some r ∧
        r.CreatedBy ≠ ({ userID := 3, userRole := "parent" } : Actor).userID) ∧
    ((∃ message, (DeleteReward demoShop { userID := 3, userRole := "parent" } "1").2 =
        .failure 403 message) ∧
      (DeleteReward demoShop { userID := 3, userRole := "parent" } "1").1 = demoShop ∧
      (DeleteReward demoShop { userID := 3, userRole := "parent" } "1").1.rewards =
        demoShop.rewards) :=
  ⟨Or.inr ⟨1, demoToy, by decide, by decide, by decide⟩,
    deleteReward_permission_denied demoShop { userID := 3, userRole := "parent" } "1"
      (Or.inr ⟨1, demoToy, by decide, by decide, by decide⟩)⟩

/-- Column by column, what lines 380-399 write over a stored reward. -/
theorem applyRewardUpdates_eq (req : UpdateRewardRequest) (r : Reward) :
    applyRewardUpdates req r =
      { ID := r.ID,
        Name := if req.Name ≠ "" then req.Name else r.Name,
        Description := if req.Description ≠ "" then req.Description else r.Description,
        Points := if req.Points > 0 then req.Points else r.Points,
        Image := if req.Image ≠ "" then req.Image else r.Image,
        Stock := if req.Stock ≥ 0 then req.Stock else r.Stock,
        IsActive := match req.IsActive with
          | some active => active
          | none => r.IsActive,
        CreatedBy := r.CreatedBy } := by
  unfold applyRewardUpdates
  by_cases h1 : req.Name = "" <;> by_cases h2 : req.Description = "" <;>
    by_cases h3 : req.Points > 0 <;> by_cases h4 : req.Image = "" <;>
    by_cases h5 : req.Stock ≥ 0 <;> cases h6 : req.IsActive <;>
    simp [h1, h2, h3, h4, h5]

theorem updatesReward_first (s : Store) (rid : Nat) (req : UpdateRewardRequest) (r : Reward)
    (h : s.firstReward rid = some r) :
    (s.updatesReward rid req).firstReward rid = some (applyRewardUpdates req r) := by
  have hid := firstReward_id s rid r h
  have hkeep : ∀ x : Reward, (applyRewardUpdates req x).ID = x.ID := by
    intro x
    rw [applyRewardUpdates_eq]
  unfold Store.firstReward at h ⊢
  unfold Store.updatesReward
  simp only
  have hmap := find?_map_key (fun q : Reward => q.ID == rid)
    (fun q : Reward => if q.ID == rid then applyRewardUpdates req q else q)
    (by
      intro x
      simp only
      split
      · rw [hkeep x]
      · rfl) s.rewards
  rw [hmap, h]
  simp [hid]

/-- The fields of a patch that follow the partial-update rule: an empty name,
description or image, a price that is not positive and an absent is_active leave the
stored column as it is. -/
theorem applyRewardUpdates_kept (req : UpdateRewardRequest) (r : Reward) :
    (req.Name = "" → (applyRewardUpdates req r).Name = r.Name) ∧
    (req.Description = "" → (applyRewardUpdates req r).Description = r.Description) ∧
    (req.Points ≤ 0 → (applyRewardUpdates req r).Points = r.Points) ∧
    (req.Image = "" → (applyRewardUpdates req r).Image = r.Image) ∧
    (req.IsActive = none → (applyRewardUpdates req r).IsActive = r.IsActive) ∧
    (req.Stock < 0 → (applyRewardUpdates req r).Stock = r.Stock) ∧
    (applyRewardUpdates req r).ID = r.ID ∧ (applyRewardUpdates req r).CreatedBy = r.CreatedBy := by
  rw [applyRewardUpdates_eq]
  refine ⟨?_, ?_, ?_, ?_, ?_, ?_, rfl, rfl⟩
  · intro h; simp [h]
  · intro h; simp [h]
  · intro h
    have : ¬ (req.Points > 0) := by omega
    simp [this]
  · intro h; simp [h]
  · intro h; simp [h]
  · intro h
    have : ¬ (req.Stock ≥ 0) := by omega
    simp [this]

/-- The stock written by a patch whose `stock` is not negative, zero included. -/
theorem applyRewardUpdates_stock (req : UpdateRewardRequest) (r : Reward)
    (h : 0 ≤ req.Stock) : (applyRewardUpdates req r).Stock = req.Stock := by
  rw [applyRewardUpdates_eq]
  have : req.Stock ≥ 0 := h
  simp [this]

/-- C17 (the code departs from the claim): a patch that omits `stock`, so that the
bound field is 0, does not leave the stored stock unchanged.  `demoRename` carries
only a new name; applied by the owner to the toy of `demoUsedToy` (stock 1) it
renames the toy and sets its stock to 0.  In general every patch with stock 0
applied by a parent to a stored reward leaves that reward with stock 0. -/
theorem updateReward_omitted_stock_is_zeroed :
    demoUsedToy.firstReward 1 =
      some { ID := 1, Name := "toy", Description := "", Points := 5, Image := "", Stock := 1,
             IsActive := true, CreatedBy := 1 } ∧
    UpdateReward demoUsedToy demoParent "1" demoRename =
      ((UpdateReward demoUsedToy demoParent "1" demoRename).1,
        .success "Reward updated successfully") ∧
    (UpdateReward demoUsedToy demoParent "1" demoRename).1.firstReward 1 =
      some { ID := 1, Name := "ball", Description := "", Points := 5, Image := "", Stock := 0,
             IsActive := true, CreatedBy := 1 } ∧
    ∀ (s : Store) (a : Actor) (param : String) (rid : Nat) (req : UpdateRewardRequest)
      (r : Reward), a.userRole = "parent" → parseUint32 param = some rid →
      s.firstReward rid = some r → req.Stock = 0 →
      ∃ r', (UpdateReward s a param req).1.firstReward rid = some r' ∧ r'.Stock = 0 := by
  refine ⟨by decide, by decide, by decide, ?_⟩
  intro s a param rid req r hrole hparse hr hzero
  refine ⟨applyRewardUpdates req r, ?_, ?_⟩
  · unfold UpdateReward
    simp only [hrole, hparse]
    exact updatesReward_first s rid req r hr
  · rw [applyRewardUpdates_stock req r (by omega), hzero]

/-- C18 (the code departs from the claim): `UpdateReward` never reads who calls.  In
`demoTwoFamilies` the toy was created by parent 1; parent 3 sets its price to 1, its
stock to 99 and switches it off, and is answered 200.  In general the answer and
the store written do not depend on the caller's id. -/
theorem updateReward_by_other_parent_edits :
    demoTwoFamilies.firstReward 1 = some demoToy ∧ demoToy.CreatedBy ≠ otherParent.userID ∧
    otherParent.userRole = "parent" ∧
    UpdateReward demoTwoFamilies otherParent "1" demoHijack =
      ((UpdateReward demoTwoFamilies otherParent "1" demoHijack).1,
        .success "Reward updated successfully") ∧
    (UpdateReward demoTwoFamilies otherParent "1" demoHijack).1.firstReward 1 =
      some { ID := 1, Name := "toy", Description := "", Points := 1, Image := "", Stock := 99,
             IsActive := false, CreatedBy := 1 } ∧
    ∀ (s : Store) (a : Actor) (caller : Nat) (param : String) (req : UpdateRewardRequest),
      UpdateReward s { a with userID := caller } param req = UpdateReward s a param req := by
  refine ⟨by decide, by decide, by decide, by decide, by decide, ?_⟩
  intro s a caller param req
  rfl

theorem UpdateReward_exchangeRecords (s : Store) (a : Actor) (param : String)
    (req : UpdateRewardRequest) :
    (UpdateReward s a param req).1.exchangeRecords = s.exchangeRecords := by
  unfold UpdateReward
  split
  · rfl
  · split <;> rfl

theorem DeleteReward_exchangeRecords (s : Store) (a : Actor) (param : String) :
    (DeleteReward s a param).1.exchangeRecords = s.exchangeRecords := by
  unfold DeleteReward
  split
  · rfl
  · split
    · rfl
    · split
      · rfl
      · split
        · rfl
        · split <;> rfl

theorem CreateReward_exchangeRecords (s : Store) (a : Actor) (req : CreateRewardRequest) :
    (CreateReward s a req).1.exchangeRecords = s.exchangeRecords := by
  unfold CreateReward
  split
  · rfl
  · split <;> rfl

/-- The exchange ledger after an `ExchangeReward` call: as it was, or with one row
appended that carries the reward's stored price and the status "completed". -/
theorem ExchangeReward_exchangeRecords (s : Store) (now : Nat) (a : Actor)
    (req : ExchangeRewardRequest) :
    (ExchangeReward s now a req).1.exchangeRecords = s.exchangeRecords ∨
    ∃ t r, s.firstReward req.RewardID = some r ∧
      (ExchangeReward s now a req).1.exchangeRecords =
        s.exchangeRecords ++
          [{ ID := s.lastExchangeRecordID + 1, UserID := t, RewardID := req.RewardID,
             PointsUsed := r.Points, ExchangedAt := now, Status := "completed" }] := by
  rcases ExchangeReward_cases s now a req with h | ⟨t, r, up, _, _, hr, _, _, _, _, heq⟩
  · left; rw [h.1]
  · right
    exact ⟨t, r, hr, by rw [heq]; exact commitExchange_exchangeRecords s now t req r up⟩

theorem CatalogCall.run_exchangeRecords (s : Store) (c : CatalogCall) :
    ∃ extra, (c.run s).exchangeRecords = s.exchangeRecords ++ extra := by
  cases c with
  | createReward a req => exact ⟨[], by simp [CatalogCall.run, CreateReward_exchangeRecords]⟩
  | updateReward a param req =>
    exact ⟨[], by simp [CatalogCall.run, UpdateReward_exchangeRecords]⟩
  | deleteReward a param => exact ⟨[], by simp [CatalogCall.run, DeleteReward_exchangeRecords]⟩
  | exchangeReward now a req =>
    rcases ExchangeReward_exchangeRecords s now a req with h | ⟨t, r, _, h⟩
    · exact ⟨[], by simp [CatalogCall.run, h]⟩
    · exact ⟨_, h⟩

theorem runCatalogCalls_exchangeRecords : ∀ (calls : List CatalogCall) (s : Store),
    ∃ extra, (runCatalogCalls s calls).exchangeRecords = s.exchangeRecords ++ extra := by
  intro calls
  induction calls with
  | nil => intro s; exact ⟨[], by simp [runCatalogCalls]⟩
  | cons c rest ih =>
    intro s
    obtain ⟨e1, h1⟩ := CatalogCall.run_exchangeRecords s c
    obtain ⟨e2, h2⟩ := ih (c.run s)
    exact ⟨e1 ++ e2, by rw [runCatalogCalls, h2, h1, List.append_assoc]⟩

/-- An `ExchangeReward` call either answers an error and leaves the exchange
ledger as it is, or answers 200 and appends exactly one row, which carries the
beneficiary, the reward, the reward's stored price and the status "completed". -/
theorem ExchangeReward_creates_record (s : Store) (now : Nat) (a : Actor)
    (req : ExchangeRewardRequest) :
    ((ExchangeReward s now a req).2.isSuccess = false ∧
      (ExchangeReward s now a req).1.exchangeRecords = s.exchangeRecords) ∨
    ((ExchangeReward s now a req).2.isSuccess = true ∧
      ∃ t r, resolveTargetUser s a req = .ok t ∧ s.firstReward req.RewardID = some r ∧
        (ExchangeReward s now a req).1.exchangeRecords =
          s.exchangeRecords ++
            [{ ID := s.lastExchangeRecordID + 1, UserID := t, RewardID := req.RewardID,
               PointsUsed := r.Points, ExchangedAt := now, Status := "completed" }]) := by
  rcases ExchangeReward_cases s now a req with h | ⟨t, r, up, _, ht, hr, _, _, _, _, heq⟩
  · left
    exact ⟨h.2, by rw [h.1]⟩
  · right
    refine ⟨by rw [heq]; exact commitExchange_isSuccess s now t req r up, t, r, ht, hr, ?_⟩
    rw [heq]
    exact commitExchange_exchangeRecords s now t req r up

/-- C19: an ExchangeRecord's pointsUsed is a frozen copy of the reward's price at
exchange time.  Every ExchangeReward call that answers 200 appends exactly one
row, with pointsUsed = the price stored at that moment and status completed, and
a call that answers an error appends none; UpdateReward and DeleteReward leave
the exchange ledger as it is; and after any sequence of CreateReward,
UpdateReward, DeleteReward and ExchangeReward calls the rows that existed before
are still there, in place and unchanged, followed by the rows added since. -/
theorem exchangeRecord_frozen (s : Store) :
    (∀ (now : Nat) (a : Actor) (req : ExchangeRewardRequest),
      ((ExchangeReward s now a req).2.isSuccess = false ∧
        (ExchangeReward s now a req).1.exchangeRecords = s.exchangeRecords) ∨
      ((ExchangeReward s now a req).2.isSuccess = true ∧
        ∃ t r, resolveTargetUser s a req = .ok t ∧ s.firstReward req.RewardID = some r ∧
          (ExchangeReward s now a req).1.exchangeRecords =
            s.exchangeRecords ++
              [{ ID := s.lastExchangeRecordID + 1, UserID := t, RewardID := req.RewardID,
                 PointsUsed := r.Points, ExchangedAt := now, Status := "completed" }])) ∧
    (∀ (a : Actor) (param : String) (req : UpdateRewardRequest),
      (UpdateReward s a param req).1.exchangeRecords = s.exchangeRecords) ∧
    (∀ (a : Actor) (param : String),
      (DeleteReward s a param).1.exchangeRecords = s.exchangeRecords) ∧
    (∀ calls : List CatalogCall,
      ∃ extra, (runCatalogCalls s calls).exchangeRecords = s.exchangeRecords ++ extra) ∧
    (ExchangeReward demoShop 2 demoChild (demoExchange 999 0)).2.isSuccess = true ∧
    (ExchangeReward demoShop 2 demoChild (demoExchange 999 0)).1.exchangeRecords =
      [{ ID := 1, UserID := 2, RewardID := 1, PointsUsed := 5, ExchangedAt := 2,
         Status := "completed" }] ∧
    (runCatalogCalls (ExchangeReward demoShop 2 demoChild (demoExchange 999 0)).1
        [.updateReward demoParent "1" demoHijack, .deleteReward demoParent "1"]).exchangeRecords =
      [{ ID := 1, UserID := 2, RewardID := 1, PointsUsed := 5, ExchangedAt := 2,
         Status := "completed" }] :=
  ⟨ExchangeReward_creates_record s, UpdateReward_exchangeRecords s,
    DeleteReward_exchangeRecords s, fun calls => runCatalogCalls_exchangeRecords calls s,
    by decide, by decide, by decide⟩

theorem CreateReward_catalog (s : Store) (a : Actor) (req : CreateRewardRequest)
    (h : CatalogInvariant s) (hty : InInt req.Stock) :
    CatalogInvariant (CreateReward s a req).1 := by
  unfold CreateReward
  split
  · exact h
  · split
    · exact h
    · rename_i hb
      have hb' : req.bind = true := by simpa using hb
      simp only [CreateRewardRequest.bind, Bool.and_eq_true, decide_eq_true_eq, bne_iff_ne,
        ne_eq] at hb'
      unfold InInt minInt maxInt at hty
      intro r hr
      simp only [Store.createReward, List.mem_append, List.mem_singleton] at hr
      rcases hr with hr | rfl
      · exact h r hr
      · simp only
        unfold maxInt
        refine ⟨by omega, ?_, ?_⟩
        · split <;> omega
        · split <;> omega

theorem UpdateReward_catalog (s : Store) (a : Actor) (param : String)
    (req : UpdateRewardRequest) (h : CatalogInvariant s) (hty : InInt req.Stock) :
    CatalogInvariant (UpdateReward s a param req).1 := by
  unfold UpdateReward
  split
  · exact h
  · split
    · exact h
    · intro r hr
      simp only [Store.updatesReward, List.mem_map] at hr
      obtain ⟨q, hq, rfl⟩ := hr
      have hq' := h q hq
      split
      · rw [applyRewardUpdates_eq]
        simp only
        unfold InInt minInt maxInt at hty
        unfold maxInt at hq' ⊢
        refine ⟨?_, ?_, ?_⟩
        · split <;> omega
        · split <;> omega
        · split <;> omega
      · exact hq'

theorem DeleteReward_catalog (s : Store) (a : Actor) (param : String)
    (h : CatalogInvariant s) : CatalogInvariant (DeleteReward s a param).1 := by
  unfold DeleteReward
  split
  · exact h
  · split
    · exact h
    · split
      · exact h
      · split
        · exact h
        · split
          · intro r hr
            simp only [Store.deactivateReward, List.mem_map] at hr
            obtain ⟨q, hq, rfl⟩ := hr
            split
            · exact h q hq
            · exact h q hq
          · intro r hr
            simp only [Store.deleteReward, List.mem_filter] at hr
            exact h r hr.1

theorem ExchangeReward_catalog (s : Store) (now : Nat) (a : Actor)
    (req : ExchangeRewardRequest) (h : CatalogInvariant s) :
    CatalogInvariant (ExchangeReward s now a req).1 := by
  rcases ExchangeReward_cases s now a req with hf | ⟨t, r, up, _, _, hr, _, hst, _, _, heq⟩
  · rw [hf.1]; exact h
  · rw [heq]
    unfold CatalogInvariant
    rw [commitExchange_rewards]
    have hrm : r ∈ s.rewards := List.mem_of_find?_eq_some hr
    have hr' := h r hrm
    apply saveReward_forall (fun q => 0 < q.Points ∧ 0 ≤ q.Stock ∧ q.Stock ≤ maxInt) s _ h
    show 0 < r.Points ∧ 0 ≤ subInt r.Stock 1 ∧ subInt r.Stock 1 ≤ maxInt
    rw [subInt_exact_of_le (by omega) (by omega) hr'.2.2]
    refine ⟨hr'.1, by omega, by omega⟩

theorem CatalogCall.run_catalog (s : Store) (c : CatalogCall) (h : CatalogInvariant s)
    (hty : c.wellTyped = true) : CatalogInvariant (c.run s) := by
  cases c with
  | createReward a req =>
    exact CreateReward_catalog s a req h (by simpa [CatalogCall.wellTyped] using hty)
  | updateReward a param req =>
    exact UpdateReward_catalog s a param req h (by simpa [CatalogCall.wellTyped] using hty)
  | deleteReward a param => exact DeleteReward_catalog s a param h
  | exchangeReward now a req => exact ExchangeReward_catalog s now a req h

theorem runCatalogCalls_catalog : ∀ (calls : List CatalogCall) (s : Store),
    CatalogInvariant s → calls.all CatalogCall.wellTyped = true →
    CatalogInvariant (runCatalogCalls s calls) := by
  intro calls
  induction calls with
  | nil => intro s h _; exact h
  | cons c rest ih =>
    intro s h hty
    simp only [List.all_cons, Bool.and_eq_true] at hty
    exact ih _ (CatalogCall.run_catalog s c h hty.1) hty.2

theorem emptyStore_catalog : CatalogInvariant emptyStore := by
  intro r hr
  simp [emptyStore] at hr

/-- C20: every RewardItem has a positive price and a non-negative stock in every
state reachable by CreateReward, UpdateReward, DeleteReward and ExchangeReward calls
applied one after another, from the empty store and from any store in which it
already holds (so also when other handlers run in between, which never write the
catalog).  The stock in a request body is a Go int. -/
theorem reward_price_stock_invariant (s : Store) (calls : List CatalogCall)
    (h0 : s = emptyStore ∨ CatalogInvariant s)
    (hty : calls.all CatalogCall.wellTyped = true) :
    ∀ r ∈ (runCatalogCalls s calls).rewards, 0 < r.Points ∧ 0 ≤ r.Stock := by
  have hinv : CatalogInvariant s := by
    rcases h0 with rfl | h
    · exact emptyStore_catalog
    · exact h
  intro r hr
  have := runCatalogCalls_catalog calls s hinv hty r hr
  exact ⟨this.1, this.2.1⟩

/-- Witness for C20: the run `demoCatalogCalls` on `demoShop`. -/
theorem reward_price_stock_invariant_witness :
    (demoShop = emptyStore ∨ CatalogInvariant demoShop) ∧
    demoCatalogCalls.all CatalogCall.wellTyped = true ∧
    ∀ r ∈ (runCatalogCalls demoShop demoCatalogCalls).rewards, 0 < r.Points ∧ 0 ≤ r.Stock :=
  ⟨Or.inr (by unfold CatalogInvariant; decide), by decide,
    reward_price_stock_invariant demoShop demoCatalogCalls
      (Or.inr (by unfold CatalogInvariant; decide)) (by decide)⟩

/-! ## Frame of the catalog handlers and of a successful exchange -/

/-- C24: the handlers that write the reward catalog never write the points table.
Whatever the actor, the path parameter and the request body, `CreateReward`,
`UpdateReward` and `DeleteReward` hand back a store whose `user_points` rows are
the rows they were given: both counters of every balance are untouched. -/
theorem catalog_handlers_keep_balances (s : Store) (a : Actor) (param : String)
    (creq : CreateRewardRequest) (ureq : UpdateRewardRequest) :
    (CreateReward s a creq).1.userPoints = s.userPoints ∧
    (UpdateReward s a param ureq).1.userPoints = s.userPoints ∧
    (DeleteReward s a param).1.userPoints = s.userPoints := by
  refine ⟨?_, ?_, ?_⟩
  · unfold CreateReward Store.createReward
    dsimp only
    split
    · rfl
    · split <;> rfl
  · unfold UpdateReward Store.updatesReward
    split
    · rfl
    · split <;> rfl
  · unfold DeleteReward Store.deactivateReward Store.deleteReward
    split
    · rfl
    · split
      · rfl
      · split
        · rfl
        · split
          · rfl
          · split <;> rfl

/-- C27: frame of a successful exchange.  On a store whose points rows have
distinct primary keys, a call that answers 200 for beneficiary `t` and reward `r`
leaves the beneficiary's `total_points`, the balance of every other user, every
other reward, the price, active flag and owner of the redeemed reward, the whole
behavior ledger, the accounts and every earlier exchange record as they were; the
exchange ledger only gains one row at its end. -/
theorem exchange_success_frame (s : Store) (now : Nat) (a : Actor)
    (req : ExchangeRewardRequest) (hkey : (s.userPoints.map UserPoints.ID).Nodup)
    (hok : (ExchangeReward s now a req).2.isSuccess = true) :
    ∃ t r r', resolveTargetUser s a req = .ok t ∧ s.firstReward req.RewardID = some r ∧
      totalOf (ExchangeReward s now a req).1 t = totalOf s t ∧
      (∀ u, u ≠ t →
        (ExchangeReward s now a req).1.firstUserPoints u = s.firstUserPoints u) ∧
      (∀ rid, rid ≠ req.RewardID →
        (ExchangeReward s now a req).1.firstReward rid = s.firstReward rid) ∧
      (ExchangeReward s now a req).1.firstReward req.RewardID = some r' ∧
      r'.Points = r.Points ∧ r'.IsActive = r.IsActive ∧ r'.CreatedBy = r.CreatedBy ∧
      (ExchangeReward s now a req).1.behaviorRecords = s.behaviorRecords ∧
      (ExchangeReward s now a req).1.users = s.users ∧
      ∃ x, (ExchangeReward s now a req).1.exchangeRecords = s.exchangeRecords ++ [x] := by
  rcases ExchangeReward_cases s now a req with ⟨_, hfail⟩ | ⟨t, r, up, _, ht, hr, _, _, hup, _, heq⟩
  · rw [hfail] at hok
    exact absurd hok (by decide)
  · have hrows := commitExchange_rows s now t req r up hr hup
    have hut : up.UserID = t := firstUserPoints_userID s t up hup
    have hmem : up ∈ s.userPoints := List.mem_of_find?_eq_some hup
    have hrid : r.ID = req.RewardID := firstReward_id s req.RewardID r hr
    refine ⟨t, r, { r with Stock := subInt r.Stock 1 }, ht, hr, ?_, ?_, ?_, ?_, rfl, rfl, rfl,
      ?_, ?_, ?_⟩
    · rw [heq]
      unfold totalOf
      rw [hrows.2, hup]
    · intro u hu
      rw [heq]
      have h1 : (commitExchange s now t req r up).1.firstUserPoints u =
          (s.saveUserPoints
            { up with AvailablePoints := subInt up.AvailablePoints r.Points }).firstUserPoints u := by
        unfold Store.firstUserPoints
        rw [commitExchange_userPoints]
      rw [h1]
      exact saveUserPoints_first_other s up _ u hkey hmem rfl
        (by rw [hut]; exact fun h => hu h.symm) (by show up.UserID ≠ u; rw [hut]; exact fun h => hu h.symm)
    · intro rid hne
      rw [heq]
      have h1 : (commitExchange s now t req r up).1.firstReward rid =
          (s.saveReward { r with Stock := subInt r.Stock 1 }).firstReward rid := by
        unfold Store.firstReward
        rw [commitExchange_rewards]
      rw [h1]
      exact saveReward_first_other s _ rid (by show r.ID ≠ rid; rw [hrid]; exact fun h => hne h.symm)
    · rw [heq]
      exact hrows.1
    · rw [heq]
      exact commitExchange_behaviorRecords s now t req r up
    · rw [heq]
      exact commitExchange_users s now t req r up
    · rw [heq]
      exact ⟨_, commitExchange_exchangeRecords s now t req r up⟩

/-- C27 on a concrete call: in `demoShop` the child redeems the toy. -/
theorem exchange_success_frame_witness :
    (demoShop.userPoints.map UserPoints.ID).Nodup ∧
    (ExchangeReward demoShop 2 demoChild (demoExchange 5 0)).2.isSuccess = true ∧
    ∃ t r r', resolveTargetUser demoShop demoChild (demoExchange 5 0) = .ok t ∧
      demoShop.firstReward (demoExchange 5 0).RewardID = some r ∧
      totalOf (ExchangeReward demoShop 2 demoChild (demoExchange 5 0)).1 t = totalOf demoShop t ∧
      (∀ u, u ≠ t →
        (ExchangeReward demoShop 2 demoChild (demoExchange 5 0)).1.firstUserPoints u =
          demoShop.firstUserPoints u) ∧
      (∀ rid, rid ≠ (demoExchange 5 0).RewardID →
        (ExchangeReward demoShop 2 demoChild (demoExchange 5 0)).1.firstReward rid =
          demoShop.firstReward rid) ∧
      (ExchangeReward demoShop 2 demoChild (demoExchange 5 0)).1.firstReward
        (demoExchange 5 0).RewardID = some r' ∧
      r'.Points = r.Points ∧ r'.IsActive = r.IsActive ∧ r'.CreatedBy = r.CreatedBy ∧
      (ExchangeReward demoShop 2 demoChild (demoExchange 5 0)).1.behaviorRecords =
        demoShop.behaviorRecords ∧
      (ExchangeReward demoShop 2 demoChild (demoExchange 5 0)).1.users = demoShop.users ∧
      ∃ x, (ExchangeReward demoShop 2 demoChild (demoExchange 5 0)).1.exchangeRecords =
        demoShop.exchangeRecords ++ [x] :=
  ⟨by decide, by decide,
    exchange_success_frame demoShop 2 demoChild (demoExchange 5 0) (by decide) (by decide)⟩

/-! ## Stock conservation -/

theorem createUserPoints_exchangeRecords (s : Store) (p : UserPoints) :
    (s.createUserPoints p).1.exchangeRecords = s.exchangeRecords := by
  unfold Store.createUserPoints
  split <;> rfl

theorem saveUserPoints_exchangeRecords (s : Store) (p : UserPoints) :
    (s.saveUserPoints p).exchangeRecords = s.exchangeRecords := by
  unfold Store.saveUserPoints
  split
  · rfl
  · split <;> rfl

theorem getOrCreateUserPoints_exchangeRecords (s : Store) (c : Nat) :
    (s.getOrCreateUserPoints c).1.exchangeRecords = s.exchangeRecords := by
  unfold Store.getOrCreateUserPoints
  split
  · rfl
  · exact createUserPoints_exchangeRecords _ _

theorem RecordBehavior_exchangeRecords (s : Store) (now : Nat) (a : Actor)
    (req : RecordBehaviorRequest) :
    (RecordBehavior s now a req).1.exchangeRecords = s.exchangeRecords := by
  cases hok : (RecordBehavior s now a req).2.isSuccess with
  | false => rw [RecordBehavior_fail_store s now a req hok]
  | true =>
    obtain ⟨hr, hb, u, hc⟩ := RecordBehavior_success_inv s now a req hok
    rw [RecordBehavior_store s now a req u hr hb hc, saveUserPoints_exchangeRecords,
      getOrCreateUserPoints_exchangeRecords]
    rfl

theorem Register_rewards_exchangeRecords (s : Store) (hashed : Option String)
    (token : Nat → Option String) (req : RegisterRequest) :
    (Register s hashed token req).1.rewards = s.rewards ∧
    (Register s hashed token req).1.exchangeRecords = s.exchangeRecords := by
  unfold Register
  split
  · exact ⟨rfl, rfl⟩
  · split
    · exact ⟨rfl, rfl⟩
    · split
      · exact ⟨rfl, rfl⟩
      · dsimp only
        split <;>
          exact ⟨createUserPoints_rewards _ _, createUserPoints_exchangeRecords _ _⟩

theorem CreateChild_rewards_exchangeRecords (s : Store) (a : Actor)
    (req : CreateChildRequest) :
    (CreateChild s a req).1.rewards = s.rewards ∧
    (CreateChild s a req).1.exchangeRecords = s.exchangeRecords := by
  unfold CreateChild
  split
  · exact ⟨rfl, rfl⟩
  · split
    · exact ⟨rfl, rfl⟩
    · exact ⟨createUserPoints_rewards _ _, createUserPoints_exchangeRecords _ _⟩

/-- CreateReward appends at the end of the catalog, so a lookup that already
finds a row keeps finding that row. -/
theorem CreateReward_firstReward (s : Store) (a : Actor) (req : CreateRewardRequest)
    (rid : Nat) (r : Reward) (hr : s.firstReward rid = some r) :
    (CreateReward s a req).1.firstReward rid = some r := by
  unfold CreateReward
  split
  · exact hr
  · split
    · exact hr
    · unfold Store.firstReward at hr ⊢
      simp only [Store.createReward]
      rw [List.find?_append, hr]
      rfl

theorem countExchangesOfReward_of_eq (s s' : Store) (rid : Nat)
    (h : s'.exchangeRecords = s.exchangeRecords) :
    s'.countExchangesOfReward rid = s.countExchangesOfReward rid := by
  unfold Store.countExchangesOfReward
  rw [h]

theorem StockConserved_of_unchanged (s s' : Store) (rid : Nat) (s0 : Int)
    (h : StockConserved s rid s0)
    (hr : ∀ r, s.firstReward rid = some r → s'.firstReward rid = some r)
    (hx : s'.exchangeRecords = s.exchangeRecords) : StockConserved s' rid s0 := by
  obtain ⟨r, h1, h2, h3, h4⟩ := h
  exact ⟨r, hr r h1, h2, by rw [countExchangesOfReward_of_eq s s' rid hx]; exact h3, h4⟩

theorem ExchangeReward_stock (s : Store) (now : Nat) (a : Actor) (req : ExchangeRewardRequest)
    (rid : Nat) (s0 : Int) (h : StockConserved s rid s0) :
    StockConserved (ExchangeReward s now a req).1 rid s0 := by
  rcases ExchangeReward_cases s now a req with hf | ⟨t, r', up, _, _, hr', _, hst, hup, _, heq⟩
  · rw [hf.1]; exact h
  · obtain ⟨r, h1, h2, h3, h4⟩ := h
    have hx := commitExchange_exchangeRecords s now t req r' up
    have hid : r'.ID = req.RewardID := firstReward_id s _ r' hr'
    by_cases hrid : req.RewardID = rid
    · have hrr : r' = r := by
        rw [hrid, h1] at hr'
        exact (Option.some.inj hr').symm
      subst hrr
      have hsub : subInt r'.Stock 1 = r'.Stock - 1 :=
        subInt_exact_of_le (by decide) (by omega) h2
      refine ⟨{ r' with Stock := subInt r'.Stock 1 }, ?_, ?_, ?_, ?_⟩
      · rw [heq, ← hrid]
        exact (commitExchange_rows s now t req r' up hr' hup).1
      · show subInt r'.Stock 1 ≤ maxInt
        rw [hsub]; omega
      · show subInt r'.Stock 1 + _ = s0
        rw [hsub, heq]
        unfold Store.countExchangesOfReward at h3 ⊢
        rw [hx, List.filter_append, List.length_append]
        rw [List.filter_cons_of_pos (by simpa using hrid), List.filter_nil, List.length_singleton]
        push_cast
        omega
      · intro _
        show 0 ≤ subInt r'.Stock 1
        rw [hsub]; omega
    · refine ⟨r, ?_, h2, ?_, h4⟩
      · rw [heq]
        have h5 : (commitExchange s now t req r' up).1.firstReward rid =
            (s.saveReward { r' with Stock := subInt r'.Stock 1 }).firstReward rid := by
          unfold Store.firstReward
          rw [commitExchange_rewards]
        rw [h5, saveReward_first_other s _ rid (by show r'.ID ≠ rid; rw [hid]; exact hrid)]
        exact h1
      · rw [heq]
        unfold Store.countExchangesOfReward at h3 ⊢
        rw [hx, List.filter_append, List.length_append]
        rw [List.filter_cons_of_neg (by simpa using hrid), List.filter_nil, List.length_nil,
          Nat.add_zero]
        exact h3

theorem Call.run_stock (s : Store) (c : Call) (rid : Nat) (s0 : Int)
    (h : StockConserved s rid s0) : StockConserved (c.run s) rid s0 := by
  cases c with
  | register hashed token req =>
    have := Register_rewards_exchangeRecords s hashed token req
    show StockConserved (Register s hashed token req).1 rid s0
    exact StockConserved_of_unchanged s _ rid s0 h
      (fun r hr => by rw [firstReward_of_rewards_eq s _ rid this.1]; exact hr) this.2
  | createChild a req =>
    have := CreateChild_rewards_exchangeRecords s a req
    show StockConserved (CreateChild s a req).1 rid s0
    exact StockConserved_of_unchanged s _ rid s0 h
      (fun r hr => by rw [firstReward_of_rewards_eq s _ rid this.1]; exact hr) this.2
  | createReward a req =>
    show StockConserved (CreateReward s a req).1 rid s0
    exact StockConserved_of_unchanged s _ rid s0 h
      (fun r hr => CreateReward_firstReward s a req rid r hr)
      (CreateReward_exchangeRecords s a req)
  | recordBehavior now a req =>
    show StockConserved (RecordBehavior s now a req).1 rid s0
    exact StockConserved_of_unchanged s _ rid s0 h
      (fun r hr => by
        rw [firstReward_of_rewards_eq s _ rid (RecordBehavior_rewards s now a req)]; exact hr)
      (RecordBehavior_exchangeRecords s now a req)
  | exchangeReward now a req => exact ExchangeReward_stock s now a req rid s0 h

theorem runCalls_stock : ∀ (calls : List Call) (s : Store) (rid : Nat) (s0 : Int),
    StockConserved s rid s0 → StockConserved (runCalls s calls) rid s0 := by
  intro calls
  induction calls with
  | nil => intro s rid s0 h; exact h
  | cons c rest ih => intro s rid s0 h; exact ih _ rid s0 (Call.run_stock s c rid s0 h)

/-- One call changes the number of exchange records that name a reward by exactly
1 when it is an `ExchangeReward` of that reward that answers 200, and by 0
otherwise. -/
theorem Call.run_redeems (s : Store) (c : Call) (rid : Nat) :
    (c.run s).countExchangesOfReward rid = s.countExchangesOfReward rid + c.redeems s rid := by
  cases c with
  | register hashed token req =>
    exact countExchangesOfReward_of_eq s _ rid
      (Register_rewards_exchangeRecords s hashed token req).2
  | createChild a req =>
    exact countExchangesOfReward_of_eq s _ rid (CreateChild_rewards_exchangeRecords s a req).2
  | createReward a req =>
    exact countExchangesOfReward_of_eq s _ rid (CreateReward_exchangeRecords s a req)
  | recordBehavior now a req =>
    exact countExchangesOfReward_of_eq s _ rid (RecordBehavior_exchangeRecords s now a req)
  | exchangeReward now a req =>
    show (ExchangeReward s now a req).1.countExchangesOfReward rid =
      s.countExchangesOfReward rid +
        (if req.RewardID = rid ∧ (ExchangeReward s now a req).2.isSuccess = true then 1 else 0)
    rcases ExchangeReward_creates_record s now a req with ⟨hf, hx⟩ | ⟨hok, t, r, _, _, hx⟩
    · rw [if_neg (fun h => by rw [hf] at h; exact absurd h.2 (by decide))]
      exact countExchangesOfReward_of_eq s _ rid hx
    · unfold Store.countExchangesOfReward
      rw [hx, List.filter_append, List.length_append]
      by_cases hrid : req.RewardID = rid
      · rw [if_pos ⟨hrid, hok⟩, List.filter_cons_of_pos (by simpa using hrid), List.filter_nil,
          List.length_singleton]
      · rw [if_neg (fun h => hrid h.1), List.filter_cons_of_neg (by simpa using hrid),
          List.filter_nil, List.length_nil]

theorem runCalls_redeems : ∀ (calls : List Call) (s : Store) (rid : Nat),
    (runCalls s calls).countExchangesOfReward rid =
      s.countExchangesOfReward rid + successesOf s rid calls := by
  intro calls
  induction calls with
  | nil => intro s rid; rfl
  | cons c rest ih =>
    intro s rid
    show (runCalls (c.run s) rest).countExchangesOfReward rid =
      s.countExchangesOfReward rid + (c.redeems s rid + successesOf (c.run s) rid rest)
    rw [ih (c.run s) rid, Call.run_redeems s c rid]
    omega

/-- C29: stock conservation.  Start from a store in which reward `rid` has stock
`r0.Stock` (a Go `int`) and no exchange record names it.  After any sequence of
Register, CreateChild, CreateReward, RecordBehavior and ExchangeReward calls the
reward is still stored, its initial stock minus its current stock is the number
of exchange records that name it, that number is the number of ExchangeReward
calls of it in the run that answered 200, and when the initial stock is not
negative the number of exchanges of it that succeeded is at most the initial
stock. -/
theorem stock_conservation (s : Store) (rid : Nat) (r0 : Reward) (calls : List Call)
    (h0 : s.firstReward rid = some r0) (hs : InInt r0.Stock)
    (hnone : s.countExchangesOfReward rid = 0) :
    ∃ r, (runCalls s calls).firstReward rid = some r ∧
      r0.Stock - r.Stock = ((runCalls s calls).countExchangesOfReward rid : Int) ∧
      (runCalls s calls).countExchangesOfReward rid = successesOf s rid calls ∧
      (0 ≤ r0.Stock → ((runCalls s calls).countExchangesOfReward rid : Int) ≤ r0.Stock) ∧
      (0 ≤ r0.Stock → (successesOf s rid calls : Int) ≤ r0.Stock) := by
  have hstart : StockConserved s rid r0.Stock :=
    ⟨r0, h0, hs.2, by rw [hnone]; simp, fun h => h⟩
  obtain ⟨r, h1, _, h3, h4⟩ := runCalls_stock calls s rid r0.Stock hstart
  have hred := runCalls_redeems calls s rid
  rw [hnone, Nat.zero_add] at hred
  refine ⟨r, h1, by omega, hred, fun h => by have := h4 h; omega, fun h => ?_⟩
  have := h4 h
  rw [← hred]
  omega

/-- C29 on a concrete run: three units of the toy, two calls answered 200, the
third refused for lack of points; two records, one unit left. -/
theorem stock_conservation_witness :
    demoStockShop.firstReward 1 = some { demoToy with Stock := 3 } ∧
    InInt ({ demoToy with Stock := 3 } : Reward).Stock ∧
    demoStockShop.countExchangesOfReward 1 = 0 ∧
    (∃ r, (runCalls demoStockShop demoStockCalls).firstReward 1 = some r ∧
      ({ demoToy with Stock := 3 } : Reward).Stock - r.Stock =
        ((runCalls demoStockShop demoStockCalls).countExchangesOfReward 1 : Int) ∧
      (runCalls demoStockShop demoStockCalls).countExchangesOfReward 1 =
        successesOf demoStockShop 1 demoStockCalls ∧
      (0 ≤ ({ demoToy with Stock := 3 } : Reward).Stock →
        ((runCalls demoStockShop demoStockCalls).countExchangesOfReward 1 : Int) ≤
          ({ demoToy with Stock := 3 } : Reward).Stock) ∧
      (0 ≤ ({ demoToy with Stock := 3 } : Reward).Stock →
        (successesOf demoStockShop 1 demoStockCalls : Int) ≤
          ({ demoToy with Stock := 3 } : Reward).Stock)) ∧
    successesOf demoStockShop 1 demoStockCalls = 2 ∧
    (runCalls demoStockShop demoStockCalls).firstReward 1 = some { demoToy with Stock := 1 } :=
  ⟨by decide, by decide, by decide,
    stock_conservation demoStockShop 1 { demoToy with Stock := 3 } demoStockCalls
      (by decide) (by decide) (by decide),
    by decide, by decide⟩

/-! ## The exchange does not read the owner of the reward -/

theorem ite_createdBy_ID (q : Reward) (rid owner : Nat) :
    (if q.ID == rid then { q with CreatedBy := owner } else q).ID = q.ID := by
  split <;> rfl

theorem withCreatedBy_firstReward (s : Store) (rid owner k : Nat) :
    (s.withCreatedBy rid owner).firstReward k =
      (s.firstReward k).map
        (fun q => if q.ID == rid then { q with CreatedBy := owner } else q) := by
  unfold Store.firstReward Store.withCreatedBy
  exact find?_map_key (fun r : Reward => r.ID == k) _
    (fun x => by show (_ == k) = (x.ID == k); rw [ite_createdBy_ID]) s.rewards

theorem withCreatedBy_saveUserPoints (s : Store) (rid owner : Nat) (p : UserPoints) :
    (s.withCreatedBy rid owner).saveUserPoints p =
      (s.saveUserPoints p).withCreatedBy rid owner := by
  unfold Store.saveUserPoints Store.withCreatedBy
  dsimp only
  split
  · rfl
  · split <;> rfl

theorem withCreatedBy_saveReward (s : Store) (rid owner : Nat) (r : Reward)
    (hr : s.rewards.any (fun q => q.ID == r.ID) = true) :
    (s.withCreatedBy rid owner).saveReward
        (if r.ID == rid then { r with CreatedBy := owner } else r) =
      (s.saveReward r).withCreatedBy rid owner := by
  have hid := ite_createdBy_ID r rid owner
  have hany : (s.withCreatedBy rid owner).rewards.any
      (fun q => q.ID == (if r.ID == rid then { r with CreatedBy := owner } else r).ID) = true := by
    rw [hid]
    unfold Store.withCreatedBy
    rw [List.any_eq_true] at hr ⊢
    obtain ⟨q, hq, hq2⟩ := hr
    refine ⟨_, List.mem_map_of_mem _ hq, ?_⟩
    rw [ite_createdBy_ID]
    exact hq2
  unfold Store.saveReward
  rw [if_pos hany, if_pos hr, hid]
  unfold Store.withCreatedBy
  simp only [List.map_map, Store.mk.injEq, and_true, true_and]
  apply List.map_congr_left
  intro q _
  show (if (if q.ID == rid then { q with CreatedBy := owner } else q).ID == r.ID then _ else _) = _
  rw [ite_createdBy_ID]
  show _ = (if (if q.ID == r.ID then r else q).ID == rid then _ else _)
  by_cases h1 : (q.ID == r.ID) = true
  · rw [if_pos h1, if_pos h1]
    dsimp only
    rw [if_pos h1]
  · rw [if_neg h1, if_neg h1]
    dsimp only
    rw [if_neg h1]

theorem any_of_firstReward (s : Store) (rid : Nat) (r : Reward)
    (h : s.firstReward rid = some r) : s.rewards.any (fun q => q.ID == r.ID) = true := by
  rw [List.any_eq_true]
  exact ⟨r, List.mem_of_find?_eq_some h, by simp⟩

theorem withCreatedBy_createExchangeRecord (s : Store) (rid owner : Nat) (x : ExchangeRecord) :
    (s.withCreatedBy rid owner).createExchangeRecord x =
      (((s.createExchangeRecord x).1).withCreatedBy rid owner, (s.createExchangeRecord x).2) :=
  rfl

theorem withCreatedBy_commitExchange (s : Store) (now t : Nat) (req : ExchangeRewardRequest)
    (r : Reward) (up : UserPoints) (rid owner : Nat)
    (hr : s.rewards.any (fun q => q.ID == r.ID) = true) :
    commitExchange (s.withCreatedBy rid owner) now t req
        (if r.ID == rid then { r with CreatedBy := owner } else r) up =
      ((commitExchange s now t req r up).1.withCreatedBy rid owner,
        (commitExchange s now t req r up).2) := by
  have hr' : (s.saveUserPoints
      { up with AvailablePoints := subInt up.AvailablePoints r.Points }).rewards.any
      (fun q => q.ID == ({ r with Stock := subInt r.Stock 1 } : Reward).ID) = true := by
    rw [saveUserPoints_rewards]; exact hr
  have key := withCreatedBy_saveReward
    (s.saveUserPoints { up with AvailablePoints := subInt up.AvailablePoints r.Points })
    rid owner { r with Stock := subInt r.Stock 1 } hr'
  by_cases h : (r.ID == rid) = true
  · rw [if_pos h]
    have h' : (({ r with Stock := subInt r.Stock 1 } : Reward).ID == rid) = true := h
    rw [if_pos h'] at key
    unfold commitExchange
    dsimp only
    rw [withCreatedBy_saveUserPoints]
    rw [key]
    rfl
  · rw [if_neg h]
    have h' : ¬ (({ r with Stock := subInt r.Stock 1 } : Reward).ID == rid) = true := h
    rw [if_neg h'] at key
    unfold commitExchange
    dsimp only
    rw [withCreatedBy_saveUserPoints]
    rw [key]
    rfl

theorem withCreatedBy_exchangeFor (s : Store) (now t : Nat) (req : ExchangeRewardRequest)
    (rid owner : Nat) :
    exchangeFor (s.withCreatedBy rid owner) now t req =
      ((exchangeFor s now t req).1.withCreatedBy rid owner, (exchangeFor s now t req).2) := by
  have hfr := withCreatedBy_firstReward s rid owner req.RewardID
  have hup : (s.withCreatedBy rid owner).firstUserPoints t = s.firstUserPoints t := rfl
  unfold exchangeFor
  rw [hfr, hup]
  cases hr : s.firstReward req.RewardID with
  | none => rfl
  | some r =>
    have hany := any_of_firstReward s _ r hr
    have hact : (if r.ID == rid then { r with CreatedBy := owner } else r).IsActive = r.IsActive := by
      split <;> rfl
    have hst : (if r.ID == rid then { r with CreatedBy := owner } else r).Stock = r.Stock := by
      split <;> rfl
    have hpt : (if r.ID == rid then { r with CreatedBy := owner } else r).Points = r.Points := by
      split <;> rfl
    simp only [Option.map_some']
    rw [hact, hst, hpt]
    by_cases h1 : r.IsActive = false
    · rw [if_pos h1, if_pos h1]
    · rw [if_neg h1, if_neg h1]
      by_cases h2 : r.Stock ≤ 0
      · rw [if_pos h2, if_pos h2]
      · rw [if_neg h2, if_neg h2]
        cases hp : s.firstUserPoints t with
        | none => rfl
        | some up =>
          dsimp only
          by_cases h3 : up.AvailablePoints < r.Points
          · rw [if_pos h3, if_pos h3]
          · rw [if_neg h3, if_neg h3]
            exact withCreatedBy_commitExchange s now t req r up rid owner hany

/-- C30: the exchange does not read `created_by`.  For every store, actor and
body, and every reward id and owner: on the store that differs only in the
`created_by` of that reward the call gives the same answer, and the store it
leaves differs from the store the original call leaves in that `created_by`
only.  In particular the child of the first family (user 2) redeems reward 2 of
`demoForeignShop`, which was listed by the unrelated parent 3, and so does parent
1 acting for that child. -/
theorem exchange_ignores_owner (s : Store) (now : Nat) (a : Actor)
    (req : ExchangeRewardRequest) (rid owner : Nat) :
    ExchangeReward (s.withCreatedBy rid owner) now a req =
        ((ExchangeReward s now a req).1.withCreatedBy rid owner,
          (ExchangeReward s now a req).2) ∧
    (demoForeignShop.firstReward 2).map Reward.CreatedBy = some 3 ∧
    (ExchangeReward demoForeignShop 9 demoChild
        { RewardID := 2, PointsUsed := 5, ChildID := 0 }).2.isSuccess = true ∧
    (ExchangeReward demoForeignShop 9 demoParent
        { RewardID := 2, PointsUsed := 5, ChildID := 2 }).2.isSuccess = true := by
  refine ⟨?_, by decide, by decide, by decide⟩
  have hres : resolveTargetUser (s.withCreatedBy rid owner) a req = resolveTargetUser s a req :=
    resolveTargetUser_of_users_eq s _ a req rfl
  unfold ExchangeReward
  rw [hres]
  by_cases hb : req.bind = false
  · rw [if_pos hb, if_pos hb]
  · rw [if_neg hb, if_neg hb]
    cases ht : resolveTargetUser s a req with
    | error e => rfl
    | ok t => exact withCreatedBy_exchangeFor s now t req rid owner

/-! ## Points spent against points earned -/

theorem availableOf_of_eq (s s' : Store) (h1 : s'.userPoints = s.userPoints) (c : Nat) :
    availableOf s' c = availableOf s c := by
  unfold availableOf Store.firstUserPoints
  rw [h1]

theorem spentBy_of_eq (s s' : Store) (h1 : s'.exchangeRecords = s.exchangeRecords) (c : Nat) :
    spentBy s' c = spentBy s c := by
  unfold spentBy
  rw [h1]

theorem spentBy_append (s s' : Store) (e : ExchangeRecord) (c : Nat)
    (h : s'.exchangeRecords = s.exchangeRecords ++ [e]) :
    spentBy s' c = spentBy s c + (if c = e.UserID then e.PointsUsed else 0) := by
  unfold spentBy
  rw [h, List.filter_append, List.map_append, List.sum_append]
  by_cases hc : c = e.UserID
  · subst hc; simp [List.filter]
  · have hb : (e.UserID == c) = false := by
      simpa using fun h' => hc h'.symm
    simp [List.filter, hb, hc]

theorem availableOf_createUserPoints_zero (s : Store) (u c : Nat) :
    availableOf (s.createUserPoints
      { ID := 0, UserID := u, TotalPoints := 0, AvailablePoints := 0 }).1 c =
      availableOf s c := by
  unfold Store.createUserPoints
  split
  · rfl
  · rename_i hany
    by_cases hc : u = c
    · subst hc
      have hnone : s.userPoints.find? (fun p => p.UserID == u) = none := by
        rw [List.find?_eq_none]
        intro x hx hxu
        apply hany
        rw [List.any_eq_true]
        exact ⟨x, hx, hxu⟩
      unfold availableOf Store.firstUserPoints
      simp only
      rw [List.find?_append, hnone]
      simp [List.find?]
    · unfold availableOf Store.firstUserPoints
      simp only
      rw [firstUserPoints_append_other _ _ _ hc]

theorem Register_available (s : Store) (hashed : Option String) (token : Nat → Option String)
    (req : RegisterRequest) (c : Nat) :
    availableOf (Register s hashed token req).1 c = availableOf s c := by
  unfold Register
  split
  · rfl
  · split
    · rfl
    · split
      · rfl
      · dsimp only
        split <;>
          (rw [availableOf_createUserPoints_zero]; exact availableOf_of_eq s _ rfl c)

theorem CreateChild_available (s : Store) (a : Actor) (req : CreateChildRequest) (c : Nat) :
    availableOf (CreateChild s a req).1 c = availableOf s c := by
  unfold CreateChild
  split
  · rfl
  · split
    · rfl
    · dsimp only
      rw [availableOf_createUserPoints_zero]
      exact availableOf_of_eq s _ rfl c

theorem CreateReward_userPoints (s : Store) (a : Actor) (req : CreateRewardRequest) :
    (CreateReward s a req).1.userPoints = s.userPoints := by
  unfold CreateReward Store.createReward
  dsimp only
  split
  · rfl
  · split <;> rfl

/-- A successful `RecordBehavior` on a well-formed points table leaves the row that
every other user's lookup finds as it was. -/
theorem RecordBehavior_first_other (s : Store) (now : Nat) (a : Actor)
    (req : RecordBehaviorRequest) (hwf : PointsTableWF s)
    (hok : (RecordBehavior s now a req).2.isSuccess = true) (c : Nat)
    (hcc : c ≠ req.ChildID) :
    (RecordBehavior s now a req).1.firstUserPoints c = s.firstUserPoints c := by
  obtain ⟨hr, hb, u, hc⟩ := RecordBehavior_success_inv s now a req hok
  have hstore := RecordBehavior_store s now a req u hr hb hc
  generalize hs1 : (s.createBehaviorRecord
      { ID := 0, ChildID := req.ChildID, RecorderID := a.userID,
        BehaviorType := behaviorTypeOf req.ScoreChange, BehaviorDesc := req.BehaviorDesc,
        ScoreChange := req.ScoreChange, ImageURL := req.ImageURL,
        RecordedAt := now }).1 = s1 at hstore
  have hup1 : s1.userPoints = s.userPoints := by rw [← hs1]; rfl
  have hlast1 : s1.lastUserPointsID = s.lastUserPointsID := by rw [← hs1]; rfl
  have hwf1 : PointsTableWF s1 := PointsTableWF_of_eq s s1 hup1 hlast1 hwf
  have hwf2 := getOrCreateUserPoints_wf s1 req.ChildID hwf1
  have hmem := getOrCreateUserPoints_mem s1 req.ChildID
  have hrow := getOrCreateUserPoints_row s1 req.ChildID
  have hk := applyScoreChange_keys (behaviorTypeOf req.ScoreChange) req.ScoreChange
    (s1.getOrCreateUserPoints req.ChildID).2
  have hother := saveUserPoints_first_other (s1.getOrCreateUserPoints req.ChildID).1
    (s1.getOrCreateUserPoints req.ChildID).2
    (applyScoreChange (behaviorTypeOf req.ScoreChange) req.ScoreChange
      (s1.getOrCreateUserPoints req.ChildID).2) c hwf2.1 hmem hk.1
    (by rw [hrow.1]; exact fun h => hcc h.symm)
    (by rw [hk.2, hrow.1]; exact fun h => hcc h.symm)
  rw [hstore, hother]
  have h2 : (s1.getOrCreateUserPoints req.ChildID).1.firstUserPoints c =
      s1.firstUserPoints c := by
    unfold Store.getOrCreateUserPoints
    split
    · rfl
    · unfold Store.createUserPoints
      split
      · rfl
      · unfold Store.firstUserPoints
        exact firstUserPoints_append_other _ _ _ (fun h => hcc h.symm)
  rw [h2]
  unfold Store.firstUserPoints
  rw [hup1]

theorem behaviorTypeOf_good_iff (d : Int) : behaviorTypeOf d = "good" ↔ 0 < d := by
  unfold behaviorTypeOf
  by_cases h : d > 0
  · rw [if_pos h]; exact ⟨fun _ => h, fun _ => rfl⟩
  · rw [if_neg h]; exact ⟨fun h' => absurd h' (by decide), fun h' => absurd h' h⟩

/-- One `RecordBehavior` call whose additions stay in range: no exchange record is
written, the gap between spendable and total never shrinks for anybody, and it
stays the same for everybody for whom the call takes no floor. -/
theorem RecordBehavior_spend_step (s : Store) (now : Nat) (a : Actor)
    (req : RecordBehaviorRequest) (hinv : PointsInvariant s) (hwf : PointsTableWF s)
    (ht : InInt (totalOf s req.ChildID + req.ScoreChange))
    (ha : InInt (availableOf s req.ChildID + req.ScoreChange)) (u : Nat) :
    availableOf s u - totalOf s u ≤
        availableOf (RecordBehavior s now a req).1 u - totalOf (RecordBehavior s now a req).1 u ∧
      ((Call.recordBehavior now a req).clamps s u = false →
        availableOf (RecordBehavior s now a req).1 u - totalOf (RecordBehavior s now a req).1 u =
          availableOf s u - totalOf s u) := by
  cases hok : (RecordBehavior s now a req).2.isSuccess with
  | false =>
    rw [RecordBehavior_fail_store s now a req hok]
    exact ⟨le_refl _, fun _ => rfl⟩
  | true =>
    by_cases hu : u = req.ChildID
    · subst hu
      obtain ⟨hr, hb, usr, hc⟩ := RecordBehavior_success_inv s now a req hok
      obtain ⟨p0, h0t, h0a, hfirst⟩ := RecordBehavior_first s now a req usr hr hb hc
      have hnn : 0 ≤ p0.AvailablePoints := by rw [h0a]; exact availableOf_nonneg s _ hinv
      have hex := applyScoreChange_exact req.ScoreChange p0 hnn (by rw [h0t]; exact ht)
        (by rw [h0a]; exact ha)
      have hA : availableOf (RecordBehavior s now a req).1 req.ChildID =
          max 0 (availableOf s req.ChildID + req.ScoreChange) := by
        rw [← h0a, ← hex.2]
        unfold availableOf
        rw [hfirst]
      have hT : totalOf (RecordBehavior s now a req).1 req.ChildID =
          totalOf s req.ChildID + req.ScoreChange := by
        rw [← h0t, ← hex.1]
        unfold totalOf
        rw [hfirst]
      rw [hA, hT]
      constructor
      · have := le_max_right 0 (availableOf s req.ChildID + req.ScoreChange)
        omega
      · intro hcl
        have hge : 0 ≤ availableOf s req.ChildID + req.ScoreChange := by
          have hcl' : ((RecordBehavior s now a req).2.isSuccess && req.ChildID == req.ChildID &&
              decide (behaviorTypeOf req.ScoreChange ≠ "good") &&
              decide (addInt (availableOf s req.ChildID) req.ScoreChange < 0)) = false := hcl
          clear hcl
          rename' hcl' => hcl
          rw [hok] at hcl
          simp only [Bool.true_and, beq_self_eq_true, Bool.and_eq_false_iff,
            decide_eq_false_iff_not, not_not, not_lt] at hcl
          rcases hcl with hg | hlt
          · have := (behaviorTypeOf_good_iff req.ScoreChange).1 hg
            have := availableOf_nonneg s req.ChildID hinv
            omega
          · unfold addInt at hlt
            rw [wrapInt_of_inInt ha] at hlt
            exact hlt
        rw [max_eq_right hge]
        omega
    · have hfo := RecordBehavior_first_other s now a req hwf hok u hu
      have hA : availableOf (RecordBehavior s now a req).1 u = availableOf s u := by
        unfold availableOf; rw [hfo]
      have hT : totalOf (RecordBehavior s now a req).1 u = totalOf s u := by
        unfold totalOf; rw [hfo]
      rw [hA, hT]
      exact ⟨le_refl _, fun _ => rfl⟩

/-- One `ExchangeReward` call on a store that satisfies `PointsInvariant`: for
every user, spendable minus total plus spent is what it was. -/
theorem ExchangeReward_spend_step (s : Store) (now : Nat) (a : Actor)
    (req : ExchangeRewardRequest) (hinv : PointsInvariant s) (hwf : PointsTableWF s)
    (u : Nat) :
    availableOf (ExchangeReward s now a req).1 u - totalOf (ExchangeReward s now a req).1 u +
        spentBy (ExchangeReward s now a req).1 u =
      availableOf s u - totalOf s u + spentBy s u := by
  have hT := (ExchangeReward_ledger_step s now a req hwf).2.1 u
  rw [hT]
  rcases ExchangeReward_cases s now a req with hf | ⟨t, r, up, _, _, hr, _, _, hup, hle, heq⟩
  · rw [hf.1]
  · have hmem : up ∈ s.userPoints := List.mem_of_find?_eq_some hup
    have hrm : r ∈ s.rewards := List.mem_of_find?_eq_some hr
    have hut := firstUserPoints_userID s t up hup
    have hsub : subInt up.AvailablePoints r.Points = up.AvailablePoints - r.Points :=
      subInt_exact_of_le (hinv.2 r hrm) hle (hinv.1 up hmem).2
    have hsp := spentBy_append s (commitExchange s now t req r up).1 _ u
      (commitExchange_exchangeRecords s now t req r up)
    rw [heq, hsp]
    by_cases hu : u = t
    · subst hu
      have hA : availableOf (commitExchange s now u req r up).1 u =
          up.AvailablePoints - r.Points := by
        unfold availableOf
        rw [(commitExchange_rows s now u req r up hr hup).2]
        exact hsub
      have hA0 : availableOf s u = up.AvailablePoints := by
        unfold availableOf; rw [hup]
      rw [hA, hA0, if_pos rfl]
      show up.AvailablePoints - r.Points - totalOf s u + (spentBy s u + r.Points) = _
      omega
    · have h1 : (commitExchange s now t req r up).1.firstUserPoints u =
          (s.saveUserPoints
            { up with AvailablePoints := subInt up.AvailablePoints r.Points }).firstUserPoints u := by
        unfold Store.firstUserPoints
        rw [commitExchange_userPoints]
      have h2 := saveUserPoints_first_other s up
        { up with AvailablePoints := subInt up.AvailablePoints r.Points } u hwf.1 hmem rfl
        (by rw [hut]; exact fun h => hu h.symm)
        (by show up.UserID ≠ u; rw [hut]; exact fun h => hu h.symm)
      have hA : availableOf (commitExchange s now t req r up).1 u = availableOf s u := by
        unfold availableOf; rw [h1, h2]
      rw [hA, if_neg hu]
      omega


/-- C28 as stated fails in Go arithmetic: after a fine of 10 (floored), the largest
`int` and 5 more points, the total is `maxInt - 5` while the spendable balance has
wrapped to `minInt + 4`, with no exchange record at all. -/
theorem spend_bound_counterexample :
    totalOf (runCalls emptyStore overflowSpendCalls) 1 = 9223372036854775802 ∧
    availableOf (runCalls emptyStore overflowSpendCalls) 1 = -9223372036854775804 ∧
    spentBy (runCalls emptyStore overflowSpendCalls) 1 = 0 ∧
    ¬ (totalOf (runCalls emptyStore overflowSpendCalls) 1 -
        spentBy (runCalls emptyStore overflowSpendCalls) 1 ≤
      availableOf (runCalls emptyStore overflowSpendCalls) 1) := by
  decide

theorem Call.inRange_of_exact (s : Store) (c : Call) (h : c.exact s = true) :
    c.inRange s = true := by
  cases c with
  | recordBehavior now a req =>
    have h' : (decide (InInt (totalOf s req.ChildID + req.ScoreChange)) &&
        decide (InInt (availableOf s req.ChildID + req.ScoreChange))) = true := h
    rw [Bool.and_eq_true, decide_eq_true_iff, decide_eq_true_iff] at h'
    show decide (availableOf s req.ChildID + req.ScoreChange ≤ maxInt) = true
    rw [decide_eq_true_iff]
    exact h'.2.2
  | register hashed token req => rfl
  | createChild a req => rfl
  | createReward a req => rfl
  | exchangeReward now a req => rfl

/-- One call whose additions stay in range: for every user, spendable minus total
plus spent does not shrink, and it stays the same unless the call takes the
floor for that user. -/
theorem Call.run_spend (s : Store) (c : Call) (hinv : PointsInvariant s)
    (hwf : PointsTableWF s) (hex : c.exact s = true) (u : Nat) :
    availableOf s u - totalOf s u + spentBy s u ≤
        availableOf (c.run s) u - totalOf (c.run s) u + spentBy (c.run s) u ∧
      (c.clamps s u = false →
        availableOf (c.run s) u - totalOf (c.run s) u + spentBy (c.run s) u =
          availableOf s u - totalOf s u + spentBy s u) := by
  cases c with
  | register hashed token req =>
    have hA := Register_available s hashed token req u
    have hT := (Register_ledger_step s hashed token req hwf).2.1 u
    have hS := spentBy_of_eq s _ (Register_rewards_exchangeRecords s hashed token req).2 u
    show _ ≤ availableOf (Register s hashed token req).1 u -
      totalOf (Register s hashed token req).1 u + spentBy (Register s hashed token req).1 u ∧
      (_ → availableOf (Register s hashed token req).1 u -
        totalOf (Register s hashed token req).1 u + spentBy (Register s hashed token req).1 u = _)
    rw [hA, hT, hS]
    exact ⟨le_refl _, fun _ => rfl⟩
  | createChild a req =>
    have hA := CreateChild_available s a req u
    have hT := (CreateChild_ledger_step s a req hwf).2.1 u
    have hS := spentBy_of_eq s _ (CreateChild_rewards_exchangeRecords s a req).2 u
    show _ ≤ availableOf (CreateChild s a req).1 u -
      totalOf (CreateChild s a req).1 u + spentBy (CreateChild s a req).1 u ∧
      (_ → availableOf (CreateChild s a req).1 u -
        totalOf (CreateChild s a req).1 u + spentBy (CreateChild s a req).1 u = _)
    rw [hA, hT, hS]
    exact ⟨le_refl _, fun _ => rfl⟩
  | createReward a req =>
    have hA := availableOf_of_eq s _ (CreateReward_userPoints s a req) u
    have hT := totalOf_of_eq s _ (CreateReward_userPoints s a req) u
    have hS := spentBy_of_eq s _ (CreateReward_exchangeRecords s a req) u
    show _ ≤ availableOf (CreateReward s a req).1 u -
      totalOf (CreateReward s a req).1 u + spentBy (CreateReward s a req).1 u ∧
      (_ → availableOf (CreateReward s a req).1 u -
        totalOf (CreateReward s a req).1 u + spentBy (CreateReward s a req).1 u = _)
    rw [hA, hT, hS]
    exact ⟨le_refl _, fun _ => rfl⟩
  | recordBehavior now a req =>
    have hex' : (decide (InInt (totalOf s req.ChildID + req.ScoreChange)) &&
        decide (InInt (availableOf s req.ChildID + req.ScoreChange))) = true := hex
    rw [Bool.and_eq_true, decide_eq_true_iff, decide_eq_true_iff] at hex'
    have hstep := RecordBehavior_spend_step s now a req hinv hwf hex'.1 hex'.2 u
    have hS := spentBy_of_eq s _ (RecordBehavior_exchangeRecords s now a req) u
    show _ ≤ availableOf (RecordBehavior s now a req).1 u -
      totalOf (RecordBehavior s now a req).1 u + spentBy (RecordBehavior s now a req).1 u ∧
      (_ → availableOf (RecordBehavior s now a req).1 u -
        totalOf (RecordBehavior s now a req).1 u + spentBy (RecordBehavior s now a req).1 u = _)
    rw [hS]
    refine ⟨by have := hstep.1; omega, fun h => by have := hstep.2 h; omega⟩
  | exchangeReward now a req =>
    have hstep := ExchangeReward_spend_step s now a req hinv hwf u
    show _ ≤ availableOf (ExchangeReward s now a req).1 u -
      totalOf (ExchangeReward s now a req).1 u + spentBy (ExchangeReward s now a req).1 u ∧
      (_ → availableOf (ExchangeReward s now a req).1 u -
        totalOf (ExchangeReward s now a req).1 u + spentBy (ExchangeReward s now a req).1 u = _)
    rw [hstep]
    exact ⟨le_refl _, fun _ => rfl⟩

theorem runCalls_spend : ∀ (calls : List Call) (s : Store), PointsInvariant s →
    LedgerInvariant s → callsExact s calls = true → ∀ u,
    availableOf s u - totalOf s u + spentBy s u ≤
        availableOf (runCalls s calls) u - totalOf (runCalls s calls) u +
          spentBy (runCalls s calls) u ∧
      (clampedFor s u calls = false →
        availableOf (runCalls s calls) u - totalOf (runCalls s calls) u +
            spentBy (runCalls s calls) u =
          availableOf s u - totalOf s u + spentBy s u) := by
  intro calls
  induction calls with
  | nil => intro s _ _ _ u; exact ⟨le_refl _, fun _ => rfl⟩
  | cons c rest ih =>
    intro s hinv hl hex u
    have hex' : (c.exact s && callsExact (c.run s) rest) = true := hex
    rw [Bool.and_eq_true] at hex'
    have hstep := Call.run_spend s c hinv hl.1 hex'.1 u
    have hinv' := Call.run_invariant s c hinv (Call.inRange_of_exact s c hex'.1)
    have hl' := Call.run_ledger s c hl
    have hrest := ih (c.run s) hinv' hl' hex'.2 u
    show _ ≤ availableOf (runCalls (c.run s) rest) u - totalOf (runCalls (c.run s) rest) u +
        spentBy (runCalls (c.run s) rest) u ∧
      (_ → availableOf (runCalls (c.run s) rest) u - totalOf (runCalls (c.run s) rest) u +
        spentBy (runCalls (c.run s) rest) u = _)
    refine ⟨le_trans hstep.1 hrest.1, ?_⟩
    intro hcl
    have hcl' : (c.clamps s u || clampedFor (c.run s) u rest) = false := hcl
    rw [Bool.or_eq_false_iff] at hcl'
    rw [hrest.2 hcl'.2, hstep.2 hcl'.1]

/-- C28 with the range condition it needs: in every state reached from the empty
store by Register, CreateChild, CreateReward, RecordBehavior and ExchangeReward
calls in which no score addition leaves the range of `int`, each user's
`available_points` is at least `total_points` minus the sum of `points_used` over
that user's exchange records, and the two are equal unless some `RecordBehavior`
call of the run took the floor at zero for that user. -/
theorem spend_bound_reachable (calls : List Call) (u : Nat)
    (hex : callsExact emptyStore calls = true) :
    totalOf (runCalls emptyStore calls) u - spentBy (runCalls emptyStore calls) u ≤
        availableOf (runCalls emptyStore calls) u ∧
      (clampedFor emptyStore u calls = true ∨
        availableOf (runCalls emptyStore calls) u =
          totalOf (runCalls emptyStore calls) u - spentBy (runCalls emptyStore calls) u) := by
  have h := runCalls_spend calls emptyStore emptyStore_invariant emptyStore_ledger hex u
  have h0 : availableOf emptyStore u - totalOf emptyStore u + spentBy emptyStore u = 0 := rfl
  rw [h0] at h
  refine ⟨by have := h.1; omega, ?_⟩
  cases hcl : clampedFor emptyStore u calls with
  | true => exact Or.inl rfl
  | false => exact Or.inr (by have := h.2 hcl; omega)

/-- C28 on a concrete run without a floor: the child earns 10 points and redeems
the toy for 5, so 5 = 10 - 5. -/
theorem spend_bound_reachable_witness :
    callsExact emptyStore demoSpendCalls = true ∧
    clampedFor emptyStore 2 demoSpendCalls = false ∧
    spentBy (runCalls emptyStore demoSpendCalls) 2 = 5 ∧
    (totalOf (runCalls emptyStore demoSpendCalls) 2 -
        spentBy (runCalls emptyStore demoSpendCalls) 2 ≤
        availableOf (runCalls emptyStore demoSpendCalls) 2 ∧
      (clampedFor emptyStore 2 demoSpendCalls = true ∨
        availableOf (runCalls emptyStore demoSpendCalls) 2 =
          totalOf (runCalls emptyStore demoSpendCalls) 2 -
            spentBy (runCalls emptyStore demoSpendCalls) 2)) :=
  ⟨by decide, by decide, by decide, spend_bound_reachable demoSpendCalls 2 (by decide)⟩

/-! ## The exchange under storage faults -/

theorem commitExchangeFaulty_none (s : Store) (now t : Nat) (req : ExchangeRewardRequest)
    (r : Reward) (up : UserPoints) :
    commitExchangeFaulty s now t req r up ExchangeFaults.none =
      commitExchange s now t req r up := rfl

/-- With no failing statement the fault model is the handler. -/
theorem ExchangeRewardFaulty_none (s : Store) (now : Nat) (a : Actor)
    (req : ExchangeRewardRequest) :
    ExchangeRewardFaulty s now a req ExchangeFaults.none = ExchangeReward s now a req := by
  unfold ExchangeRewardFaulty ExchangeReward exchangeForFaulty exchangeFor
  simp only [commitExchangeFaulty_none]

theorem ExchangeRewardFaulty_commit (s : Store) (now : Nat) (a : Actor)
    (req : ExchangeRewardRequest) (f : ExchangeFaults)
    (t : Nat) (r : Reward) (up : UserPoints) (hb : req.bind = true)
    (ht : resolveTargetUser s a req = .ok t) (hr : s.firstReward req.RewardID = some r)
    (hact : r.IsActive = true) (hst : 0 < r.Stock) (hup : s.firstUserPoints t = some up)
    (hle : r.Points ≤ up.AvailablePoints) :
    ExchangeRewardFaulty s now a req f = commitExchangeFaulty s now t req r up f := by
  have h1 : ¬ (r.Stock ≤ 0) := by omega
  have h2 : ¬ (up.AvailablePoints < r.Points) := by omega
  unfold ExchangeRewardFaulty exchangeForFaulty
  simp [hb, ht, hr, hact, h1, hup, h2]

/-- Whatever fails, a call that the handler without faults refuses is refused in
the same way and writes nothing. -/
theorem ExchangeRewardFaulty_of_refused (s : Store) (now : Nat) (a : Actor)
    (req : ExchangeRewardRequest) (f : ExchangeFaults)
    (h : (ExchangeReward s now a req).2.isSuccess = false) :
    ExchangeRewardFaulty s now a req f = ExchangeReward s now a req := by
  rcases ExchangeReward_cases s now a req with _ | ⟨t, r, up, _, _, _, _, _, _, _, heq⟩
  · unfold ExchangeRewardFaulty ExchangeReward exchangeForFaulty exchangeFor at *
    by_cases hb : req.bind = false
    · simp [hb]
    · simp only [hb, if_false] at h ⊢
      cases ht : resolveTargetUser s a req with
      | error e => rfl
      | ok t =>
        rw [ht] at h
        simp only at h ⊢
        cases hr : s.firstReward req.RewardID with
        | none => rfl
        | some r =>
          rw [hr] at h
          simp only at h ⊢
          by_cases hact : r.IsActive = false
          · simp [hact]
          · by_cases hst : r.Stock ≤ 0
            · simp [hact, hst]
            · cases hp : s.firstUserPoints t with
              | none => simp [hact, hst]
              | some up =>
                rw [hp] at h
                by_cases hlt : up.AvailablePoints < r.Points
                · simp [hact, hst, hlt]
                · simp [hact, hst, hlt, commitExchange, Response.isSuccess] at h
  · rw [heq, commitExchange_isSuccess] at h
    cases h

/-- The three statements whose error the handler reads: when one of them fails
the call answers an error and the store is the store before the call. -/
theorem ExchangeRewardFaulty_checked (s : Store) (now : Nat) (a : Actor)
    (req : ExchangeRewardRequest) (f : ExchangeFaults)
    (hf : f.saveUserPoints = true ∨ f.saveReward = true ∨ f.createExchangeRecord = true) :
    (ExchangeRewardFaulty s now a req f).1 = s ∧
      (ExchangeRewardFaulty s now a req f).2.isSuccess = false := by
  rcases ExchangeReward_cases s now a req with hfail | ⟨t, r, up, hb, ht, hr, hact, hst, hup, hle, _⟩
  · rw [ExchangeRewardFaulty_of_refused s now a req f hfail.2]
    exact hfail
  · rw [ExchangeRewardFaulty_commit s now a req f t r up hb ht hr hact hst hup hle]
    unfold commitExchangeFaulty
    dsimp only
    by_cases h1 : f.saveUserPoints = true
    · rw [if_pos h1]; exact ⟨rfl, rfl⟩
    · rw [if_neg h1]
      by_cases h2 : f.saveReward = true
      · rw [if_pos h2]; exact ⟨rfl, rfl⟩
      · rw [if_neg h2]
        by_cases h3 : f.createExchangeRecord = true
        · rw [if_pos h3]; exact ⟨rfl, rfl⟩
        · rcases hf with h | h | h
          · exact absurd h h1
          · exact absurd h h2
          · exact absurd h h3

/-- C21 fails on the commit: for every store and every call that the handler
answers with 200, the same call with a failing `tx.Commit()` is answered with
the same 200 while the store is the store before the call, so success is
reported although no effect persists.  Line 255 does not read the result of
`tx.Commit()`; for the three statements whose error is read the call answers 500
and writes nothing (`ExchangeRewardFaulty_checked`). -/
theorem exchange_commit_failure_reports_success (s : Store) (now : Nat) (a : Actor)
    (req : ExchangeRewardRequest) (hok : (ExchangeReward s now a req).2.isSuccess = true) :
    (ExchangeRewardFaulty s now a req ExchangeFaults.commitOnly).2 =
        (ExchangeReward s now a req).2 ∧
      (ExchangeRewardFaulty s now a req ExchangeFaults.commitOnly).1 = s := by
  rcases ExchangeReward_cases s now a req with hfail | ⟨t, r, up, hb, ht, hr, hact, hst, hup, hle, heq⟩
  · rw [hfail.2] at hok; cases hok
  · rw [ExchangeRewardFaulty_commit s now a req _ t r up hb ht hr hact hst hup hle, heq]
    exact ⟨rfl, rfl⟩

/-- C21 on `demoShop`: the child (5 available points) redeems the toy (5 points,
one unit) and `tx.Commit()` fails.  The call answers 200 with exchange id 1 and 0
remaining points, while the store still has 5 available points, one unit in
stock and no exchange record.  When one of the three checked statements fails
instead, the same call answers 500 and writes nothing. -/
theorem exchange_commit_failure_reports_success_witness :
    (ExchangeReward demoShop 2 demoChild (demoExchange 5 0)).2.isSuccess = true ∧
    ((ExchangeRewardFaulty demoShop 2 demoChild (demoExchange 5 0)
          ExchangeFaults.commitOnly).2 =
        (ExchangeReward demoShop 2 demoChild (demoExchange 5 0)).2 ∧
      (ExchangeRewardFaulty demoShop 2 demoChild (demoExchange 5 0)
          ExchangeFaults.commitOnly).1 = demoShop) ∧
    (ExchangeRewardFaulty demoShop 2 demoChild (demoExchange 5 0) ExchangeFaults.commitOnly).2 =
      .success { exchange_id := 1, reward_name := "toy", points := 5, remaining_points := 0,
                 exchanged_at := 2, status := "completed" } ∧
    availableOf demoShop 2 = 5 ∧ (demoShop.firstReward 1).map Reward.Stock = some 1 ∧
    demoShop.exchangeRecords = [] ∧
    ExchangeRewardFaulty demoShop 2 demoChild (demoExchange 5 0)
        { ExchangeFaults.none with saveUserPoints := true } =
      (demoShop, .failure 500 "Failed to update points") ∧
    ExchangeRewardFaulty demoShop 2 demoChild (demoExchange 5 0)
        { ExchangeFaults.none with saveReward := true } =
      (demoShop, .failure 500 "Failed to update stock") ∧
    ExchangeRewardFaulty demoShop 2 demoChild (demoExchange 5 0)
        { ExchangeFaults.none with createExchangeRecord := true } =
      (demoShop, .failure 500 "Failed to create exchange record") :=
  ⟨by decide,
    exchange_commit_failure_reports_success demoShop 2 demoChild (demoExchange 5 0)
      (by decide),
    by decide, by decide, by decide, by decide, by decide, by decide, by decide⟩

/-! ## `RecordBehavior` under storage faults -/

/-- With no failing statement the fault model is the handler. -/
theorem RecordBehaviorFaulty_none (s : Store) (now : Nat) (a : Actor)
    (req : RecordBehaviorRequest) :
    RecordBehaviorFaulty s now a req BehaviorFaults.none = RecordBehavior s now a req := rfl

/-- C22 fails when the save of the balance fails: for every store and every call
that the handler answers with 200, the same call with a failing
`h.db.Save(&userPoints)` is answered with the same 200 and the ledger has the new
row, while the points table of a child that already had a row is the table
before the call.  `RecordBehavior` opens no transaction and does not read the
result of the save. -/
theorem recordBehavior_save_failure_reports_success (s : Store) (now : Nat) (a : Actor)
    (req : RecordBehaviorRequest) (hok : (RecordBehavior s now a req).2.isSuccess = true) :
    (RecordBehaviorFaulty s now a req BehaviorFaults.saveOnly).2 =
        (RecordBehavior s now a req).2 ∧
      (RecordBehaviorFaulty s now a req BehaviorFaults.saveOnly).1.behaviorRecords =
        (RecordBehavior s now a req).1.behaviorRecords ∧
      ∀ p, s.firstUserPoints req.ChildID = some p →
        (RecordBehaviorFaulty s now a req BehaviorFaults.saveOnly).1.userPoints =
          s.userPoints := by
  obtain ⟨hr, hb, u, hc⟩ := RecordBehavior_success_inv s now a req hok
  have hnr : ¬ (a.userRole ≠ "parent") := fun h => h hr
  have hnb : ¬ (req.bind = false) := by rw [hb]; decide
  unfold RecordBehaviorFaulty RecordBehavior
  rw [if_neg hnr, if_neg hnb, if_neg hnr, if_neg hnb]
  simp only [hc, BehaviorFaults.saveOnly, if_true, Bool.false_eq_true, if_false]
  refine ⟨trivial, ?_, ?_⟩
  · rw [saveUserPoints_behaviorRecords]
  · intro p hp
    have h1 : (s.createBehaviorRecord
        { ID := 0, ChildID := req.ChildID, RecorderID := a.userID,
          BehaviorType := behaviorTypeOf req.ScoreChange, BehaviorDesc := req.BehaviorDesc,
          ScoreChange := req.ScoreChange, ImageURL := req.ImageURL,
          RecordedAt := now }).1.firstUserPoints req.ChildID = some p := hp
    unfold Store.getOrCreateUserPoints
    rw [h1]
    rfl

/-- C22 on `demoFamily`: the parent records +5 for the child and
`h.db.Save(&userPoints)` fails.  The call answers 200 with ledger row 1, the row
is in the ledger, and the child's balance is still {0, 0}: the ledger sums to 5
for a total of 0.  Only a failure of the insert of the ledger row itself is
reported (500, nothing written). -/
theorem recordBehavior_save_failure_reports_success_witness :
    (RecordBehavior demoFamily 1 demoParent (demoBehavior 5)).2.isSuccess = true ∧
    ((RecordBehaviorFaulty demoFamily 1 demoParent (demoBehavior 5)
          BehaviorFaults.saveOnly).2 =
        (RecordBehavior demoFamily 1 demoParent (demoBehavior 5)).2 ∧
      (RecordBehaviorFaulty demoFamily 1 demoParent (demoBehavior 5)
          BehaviorFaults.saveOnly).1.behaviorRecords =
        (RecordBehavior demoFamily 1 demoParent (demoBehavior 5)).1.behaviorRecords ∧
      ∀ p, demoFamily.firstUserPoints (demoBehavior 5).ChildID = some p →
        (RecordBehaviorFaulty demoFamily 1 demoParent (demoBehavior 5)
          BehaviorFaults.saveOnly).1.userPoints = demoFamily.userPoints) ∧
    (RecordBehaviorFaulty demoFamily 1 demoParent (demoBehavior 5) BehaviorFaults.saveOnly).2 =
      .success { ID := 1, ChildID := 2, RecorderID := 1, BehaviorType := "good",
                 BehaviorDesc := "homework", ScoreChange := 5, ImageURL := "",
                 RecordedAt := 1 } ∧
    (RecordBehaviorFaulty demoFamily 1 demoParent (demoBehavior 5)
        BehaviorFaults.saveOnly).1.behaviorRecords =
      [{ ID := 1, ChildID := 2, RecorderID := 1, BehaviorType := "good",
         BehaviorDesc := "homework", ScoreChange := 5, ImageURL := "", RecordedAt := 1 }] ∧
    (RecordBehaviorFaulty demoFamily 1 demoParent (demoBehavior 5)
        BehaviorFaults.saveOnly).1.firstUserPoints 2 =
      some { ID := 2, UserID := 2, TotalPoints := 0, AvailablePoints := 0 } ∧
    ledgerSum (RecordBehaviorFaulty demoFamily 1 demoParent (demoBehavior 5)
        BehaviorFaults.saveOnly).1 2 = 5 ∧
    totalOf (RecordBehaviorFaulty demoFamily 1 demoParent (demoBehavior 5)
        BehaviorFaults.saveOnly).1 2 = 0 ∧
    RecordBehaviorFaulty demoFamily 1 demoParent (demoBehavior 5)
        { BehaviorFaults.none with createBehaviorRecord := true } =
      (demoFamily, .failure 500 "Failed to record behavior") :=
  ⟨by decide,
    recordBehavior_save_failure_reports_success demoFamily 1 demoParent (demoBehavior 5)
      (by decide),
    by decide, by decide, by decide, by decide, by decide, by decide⟩

/-! ## `GetUserPoints` and `DeleteChild` -/

/-- C26 fails for a parent who asks for their own points: for every store, a
requester with role parent whose own account row carries no `parent_id` (every
account made by Register) is answered 403 "Permission denied" for their own id,
whether or not their points row exists.  The check of lines 214-226 looks for the
requester's id in the target's `parent_id` and has no case for the target being
the requester. -/
theorem getUserPoints_parent_refused_own_points (s : Store) (a : Actor) (param : String)
    (u : User) (hrole : a.userRole = "parent") (hparam : parseUint32 param = some a.userID)
    (hu : s.firstUser a.userID = some u) (hnil : u.ParentID = none) :
    GetUserPoints s a param = .failure 403 "Permission denied" := by
  have hc : ¬ (a.userRole = "child" ∧ a.userID ≠ a.userID) := fun h => h.2 rfl
  unfold GetUserPoints
  rw [hparam]
  simp only
  rw [if_neg hc, if_pos hrole, hu]
  simp only
  rw [if_pos (Or.inl hnil)]

/-- C26 on `demoFamily`: the parent (user 1) has a points row and is refused for
"1", while the child reads its own row and the parent reads the child's. -/
theorem getUserPoints_parent_refused_own_points_witness :
    demoParent.userRole = "parent" ∧ parseUint32 "1" = some demoParent.userID ∧
    demoFamily.firstUser demoParent.userID = some demoParentUser ∧
    demoParentUser.ParentID = none ∧
    demoFamily.firstUserPoints 1 =
      some { ID := 1, UserID := 1, TotalPoints := 0, AvailablePoints := 0 } ∧
    GetUserPoints demoFamily demoParent "1" = .failure 403 "Permission denied" ∧
    GetUserPoints demoFamily demoChild "2" =
      .success { total_points := 0, available_points := 0 } ∧
    GetUserPoints demoFamily demoParent "2" =
      .success { total_points := 0, available_points := 0 } :=
  ⟨by decide, by decide, by decide, rfl, by decide,
    getUserPoints_parent_refused_own_points demoFamily demoParent "1" demoParentUser
      (by decide) (by decide) (by decide) rfl,
    by decide, by decide⟩

/-- `Delete(&child)` writes no table but `users`, whether it is rejected or not. -/
theorem deleteUser_tables (s : Store) (u : User) :
    (s.deleteUser u).userPoints = s.userPoints ∧
    (s.deleteUser u).behaviorRecords = s.behaviorRecords ∧
    (s.deleteUser u).exchangeRecords = s.exchangeRecords ∧
    (s.deleteUser u).rewards = s.rewards ∧
    (s.deleteUser u).lastRewardID = s.lastRewardID := by
  unfold Store.deleteUser
  split <;> exact ⟨rfl, rfl, rfl, rfl, rfl⟩

theorem deleteBehaviorRecordsWhere_child_id (s : Store) (c : Nat) :
    s.deleteBehaviorRecordsWhere "child_id" c = s := by
  unfold Store.deleteBehaviorRecordsWhere
  have : behaviorRecordColumn "child_id" = none := by
    unfold behaviorRecordColumn
    rw [if_neg (by decide), if_neg (by decide), if_neg (by decide), if_neg (by decide)]
  rw [this]

/-- C25 fails on the behavior ledger: for every store, when the parent `a` deletes
their child `c`, the call answers 200, no points row and no exchange record of
`c` is left, and the behavior ledger is exactly the ledger before the call.  The
delete of line 347 names the column `child_id`, which `behavior_records` does
not have (`ChildID` is stored as `user_id`). -/
theorem deleteChild_keeps_behavior_records (s : Store) (a : Actor) (param : String)
    (c : Nat) (child : User) (hrole : a.userRole = "parent")
    (hparam : parseUint32 param = some c)
    (hchild : s.firstChildOfParent c a.userID = some child) :
    (DeleteChild s a param).2 = .success "Child account deleted successfully" ∧
    (DeleteChild s a param).1.behaviorRecords = s.behaviorRecords ∧
    (∀ p ∈ (DeleteChild s a param).1.userPoints, p.UserID ≠ c) ∧
    (∀ x ∈ (DeleteChild s a param).1.exchangeRecords, x.UserID ≠ c) := by
  have hnr : ¬ (a.userRole ≠ "parent") := fun h => h hrole
  unfold DeleteChild
  rw [if_neg hnr, hparam]
  simp only
  rw [hchild]
  simp only [deleteBehaviorRecordsWhere_child_id]
  obtain ⟨hu, hb, hx, _, _⟩ :=
    deleteUser_tables ((s.deleteUserPointsOf c).deleteExchangeRecordsOf c) child
  rw [hu, hb, hx]
  refine ⟨trivial, rfl, ?_, ?_⟩
  · intro p hp
    have hp' : p ∈ s.userPoints.filter (fun p => p.UserID != c) := hp
    rw [List.mem_filter] at hp'
    simpa using hp'.2
  · intro x hx
    have hx' : x ∈ s.exchangeRecords.filter (fun x => x.UserID != c) := hx
    rw [List.mem_filter] at hx'
    simpa using hx'.2

/-- C25 on `demoUsedToy`: the child (user 2) has one ledger row (+10) and one
exchange record; after the parent deletes the child the ledger row is still
there.  The same statement with the column `user_id` would have removed it. -/
theorem deleteChild_keeps_behavior_records_witness :
    demoParent.userRole = "parent" ∧ parseUint32 "2" = some 2 ∧
    demoUsedToy.firstChildOfParent 2 demoParent.userID = some demoChildUser ∧
    ((DeleteChild demoUsedToy demoParent "2").2 =
        .success "Child account deleted successfully" ∧
      (DeleteChild demoUsedToy demoParent "2").1.behaviorRecords =
        demoUsedToy.behaviorRecords ∧
      (∀ p ∈ (DeleteChild demoUsedToy demoParent "2").1.userPoints, p.UserID ≠ 2) ∧
      (∀ x ∈ (DeleteChild demoUsedToy demoParent "2").1.exchangeRecords, x.UserID ≠ 2)) ∧
    (DeleteChild demoUsedToy demoParent "2").1.behaviorRecords =
      [{ ID := 1, ChildID := 2, RecorderID := 1, BehaviorType := "good",
         BehaviorDesc := "homework", ScoreChange := 10, ImageURL := "", RecordedAt := 1 }] ∧
    (demoUsedToy.deleteBehaviorRecordsWhere "user_id" 2).behaviorRecords = [] :=
  ⟨by decide, by decide, by decide,
    deleteChild_keeps_behavior_records demoUsedToy demoParent "2" 2 demoChildUser
      (by decide) (by decide) (by decide),
    by decide, by decide⟩

/-! ## Two exchanges in flight -/

/-- A request served alone, reads first and transaction second, is the handler. -/
theorem exchangeAlone_eq (s : Store) (now : Nat) (a : Actor) (req : ExchangeRewardRequest) :
    exchangeAlone s now a req = ExchangeReward s now a req := by
  unfold exchangeAlone exchangeRead ExchangeReward exchangeFor exchangeWrite
  by_cases hb : req.bind = false
  · simp [hb]
  · simp only [hb, if_false]
    cases resolveTargetUser s a req with
    | error e => rfl
    | ok t =>
      simp only
      cases s.firstReward req.RewardID with
      | none => rfl
      | some r =>
        simp only
        by_cases hact : r.IsActive = false
        · simp [hact]
        · by_cases hst : r.Stock ≤ 0
          · simp [hact, hst]
          · cases s.firstUserPoints t with
            | none => simp [hact, hst]
            | some up =>
              by_cases hlt : up.AvailablePoints < r.Points
              · simp [hact, hst, hlt]
              · simp [hact, hst, hlt]

/-- C23 fails: for every store and every two requests that both pass the reads
and checks of lines 163-218 on that store, the schedule in which both finish
these reads before either opens its transaction answers both with 200 and
appends two exchange records, whatever the stock was.  The checks are read
outside the transaction that begins at line 221, and the transaction itself
checks nothing. -/
theorem exchange_race_two_successes (s : Store) (now1 : Nat) (a1 : Actor)
    (req1 : ExchangeRewardRequest) (now2 : Nat) (a2 : Actor) (req2 : ExchangeRewardRequest)
    (snap1 snap2 : ExchangeSnapshot) (h1 : exchangeRead s a1 req1 = .ok snap1)
    (h2 : exchangeRead s a2 req2 = .ok snap2) :
    (exchangeRace s now1 a1 req1 now2 a2 req2).2.1.isSuccess = true ∧
    (exchangeRace s now1 a1 req1 now2 a2 req2).2.2.isSuccess = true ∧
    ∃ x1 x2, x1.RewardID = req1.RewardID ∧ x2.RewardID = req2.RewardID ∧
      (exchangeRace s now1 a1 req1 now2 a2 req2).1.exchangeRecords =
        s.exchangeRecords ++ [x1, x2] := by
  unfold exchangeRace
  rw [h1, h2]
  simp only [exchangeWrite]
  refine ⟨commitExchange_isSuccess _ _ _ _ _ _, commitExchange_isSuccess _ _ _ _ _ _,
    { ID := s.lastExchangeRecordID + 1, UserID := snap1.targetUserID,
      RewardID := req1.RewardID, PointsUsed := snap1.reward.Points, ExchangedAt := now1,
      Status := "completed" },
    { ID := (commitExchange s now1 snap1.targetUserID req1 snap1.reward
        snap1.userPoints).1.lastExchangeRecordID + 1,
      UserID := snap2.targetUserID, RewardID := req2.RewardID,
      PointsUsed := snap2.reward.Points, ExchangedAt := now2, Status := "completed" },
    rfl, rfl, ?_⟩
  rw [commitExchange_exchangeRecords, commitExchange_exchangeRecords, List.append_assoc]
  rfl

/-- C23 on `demoTwoChildren`: the toy has one unit and both children have the 5
points it costs.  Both requests pass their reads on that store; under the
schedule both are answered 200, two exchange records name the toy, both balances
are debited and the stock is 0.  Served one after the other, the same two
requests give one 200 and one "Reward is out of stock". -/
theorem exchange_race_two_successes_witness :
    exchangeRead demoTwoChildren demoChild (demoExchange 5 0) =
      .ok { targetUserID := 2, reward := demoToy,
            userPoints := { ID := 2, UserID := 2, TotalPoints := 5, AvailablePoints := 5 } } ∧
    exchangeRead demoTwoChildren demoSibling (demoExchange 5 0) =
      .ok { targetUserID := 3, reward := demoToy,
            userPoints := { ID := 3, UserID := 3, TotalPoints := 5, AvailablePoints := 5 } } ∧
    ((exchangeRace demoTwoChildren 2 demoChild (demoExchange 5 0)
          3 demoSibling (demoExchange 5 0)).2.1.isSuccess = true ∧
      (exchangeRace demoTwoChildren 2 demoChild (demoExchange 5 0)
          3 demoSibling (demoExchange 5 0)).2.2.isSuccess = true ∧
      ∃ x1 x2, x1.RewardID = (demoExchange 5 0).RewardID ∧
        x2.RewardID = (demoExchange 5 0).RewardID ∧
        (exchangeRace demoTwoChildren 2 demoChild (demoExchange 5 0)
            3 demoSibling (demoExchange 5 0)).1.exchangeRecords =
          demoTwoChildren.exchangeRecords ++ [x1, x2]) ∧
    (demoTwoChildren.firstReward 1).map Reward.Stock = some 1 ∧
    (exchangeRace demoTwoChildren 2 demoChild (demoExchange 5 0)
        3 demoSibling (demoExchange 5 0)).1.countExchangesOfReward 1 = 2 ∧
    ((exchangeRace demoTwoChildren 2 demoChild (demoExchange 5 0)
        3 demoSibling (demoExchange 5 0)).1.firstReward 1).map Reward.Stock = some 0 ∧
    availableOf (exchangeRace demoTwoChildren 2 demoChild (demoExchange 5 0)
        3 demoSibling (demoExchange 5 0)).1 2 = 0 ∧
    availableOf (exchangeRace demoTwoChildren 2 demoChild (demoExchange 5 0)
        3 demoSibling (demoExchange 5 0)).1 3 = 0 ∧
    (ExchangeReward demoTwoChildren 2 demoChild (demoExchange 5 0)).2.isSuccess = true ∧
    (ExchangeReward (ExchangeReward demoTwoChildren 2 demoChild (demoExchange 5 0)).1
        3 demoSibling (demoExchange 5 0)).2 = .failure 400 "Reward is out of stock" :=
  ⟨rfl, rfl,
    exchange_race_two_successes demoTwoChildren 2 demoChild (demoExchange 5 0)
      3 demoSibling (demoExchange 5 0) _ _ rfl rfl,
    by decide, by decide, by decide, by decide, by decide, by decide, by decide⟩

/-! ## A deactivated reward through later calls -/

theorem createUserPoints_lastRewardID (s : Store) (p : UserPoints) :
    (s.createUserPoints p).1.lastRewardID = s.lastRewardID := by
  unfold Store.createUserPoints
  split <;> rfl

theorem saveUserPoints_lastRewardID (s : Store) (p : UserPoints) :
    (s.saveUserPoints p).lastRewardID = s.lastRewardID := by
  unfold Store.saveUserPoints
  split
  · rfl
  · split <;> rfl

theorem getOrCreateUserPoints_lastRewardID (s : Store) (c : Nat) :
    (s.getOrCreateUserPoints c).1.lastRewardID = s.lastRewardID := by
  unfold Store.getOrCreateUserPoints
  split
  · rfl
  · exact createUserPoints_lastRewardID _ _

theorem saveReward_lastRewardID (s : Store) (r : Reward) :
    (s.saveReward r).lastRewardID = s.lastRewardID := by
  unfold Store.saveReward
  split <;> rfl

theorem Register_lastRewardID (s : Store) (hashed : Option String)
    (token : Nat → Option String) (req : RegisterRequest) :
    (Register s hashed token req).1.lastRewardID = s.lastRewardID := by
  unfold Register
  split
  · rfl
  · split
    · rfl
    · split
      · rfl
      · dsimp only
        split <;> exact createUserPoints_lastRewardID _ _

theorem CreateChild_lastRewardID (s : Store) (a : Actor) (req : CreateChildRequest) :
    (CreateChild s a req).1.lastRewardID = s.lastRewardID := by
  unfold CreateChild
  split
  · rfl
  · split
    · rfl
    · exact createUserPoints_lastRewardID _ _

theorem RecordBehavior_lastRewardID (s : Store) (now : Nat) (a : Actor)
    (req : RecordBehaviorRequest) :
    (RecordBehavior s now a req).1.lastRewardID = s.lastRewardID := by
  cases hok : (RecordBehavior s now a req).2.isSuccess with
  | false => rw [RecordBehavior_fail_store s now a req hok]
  | true =>
    obtain ⟨hr, hb, u, hc⟩ := RecordBehavior_success_inv s now a req hok
    rw [RecordBehavior_store s now a req u hr hb hc, saveUserPoints_lastRewardID,
      getOrCreateUserPoints_lastRewardID]
    rfl

theorem ExchangeReward_lastRewardID (s : Store) (now : Nat) (a : Actor)
    (req : ExchangeRewardRequest) :
    (ExchangeReward s now a req).1.lastRewardID = s.lastRewardID := by
  rcases ExchangeReward_cases s now a req with h | ⟨t, r, up, _, _, _, _, _, _, _, heq⟩
  · rw [h.1]
  · rw [heq]
    show ((s.saveUserPoints _).saveReward _).lastRewardID = s.lastRewardID
    rw [saveReward_lastRewardID, saveUserPoints_lastRewardID]

theorem UpdateReward_lastRewardID (s : Store) (a : Actor) (param : String)
    (req : UpdateRewardRequest) :
    (UpdateReward s a param req).1.lastRewardID = s.lastRewardID := by
  unfold UpdateReward
  split
  · rfl
  · split <;> rfl

theorem DeleteReward_lastRewardID (s : Store) (a : Actor) (param : String) :
    (DeleteReward s a param).1.lastRewardID = s.lastRewardID := by
  unfold DeleteReward
  split
  · rfl
  · split
    · rfl
    · split
      · rfl
      · split
        · rfl
        · split <;> rfl

/-- DeleteChild writes neither the catalog nor its counter. -/
theorem DeleteChild_rewards (s : Store) (a : Actor) (param : String) :
    (DeleteChild s a param).1.rewards = s.rewards ∧
    (DeleteChild s a param).1.lastRewardID = s.lastRewardID := by
  unfold DeleteChild
  split
  · exact ⟨rfl, rfl⟩
  · split
    · exact ⟨rfl, rfl⟩
    · dsimp only
      split
      · exact ⟨rfl, rfl⟩
      · simp only [deleteBehaviorRecordsWhere_child_id]
        obtain ⟨_, _, _, h4, h5⟩ := deleteUser_tables
          ((s.deleteUserPointsOf _).deleteExchangeRecordsOf _) _
        exact ⟨h4, h5⟩

/-- UpdateUserProfile writes the `users` table only. -/
theorem UpdateUserProfile_frame (s : Store) (a : Actor) (req : UpdateProfileRequest) :
    (UpdateUserProfile s a req).1.rewards = s.rewards ∧
    (UpdateUserProfile s a req).1.lastRewardID = s.lastRewardID ∧
    (UpdateUserProfile s a req).1.exchangeRecords = s.exchangeRecords := by
  unfold UpdateUserProfile
  split <;> exact ⟨rfl, rfl, rfl⟩

/-- UpdateChild writes the `users` table only. -/
theorem UpdateChild_frame (s : Store) (a : Actor) (param : String) (req : UpdateChildRequest) :
    (UpdateChild s a param req).1.rewards = s.rewards ∧
    (UpdateChild s a param req).1.lastRewardID = s.lastRewardID ∧
    (UpdateChild s a param req).1.exchangeRecords = s.exchangeRecords := by
  unfold UpdateChild
  split
  · exact ⟨rfl, rfl, rfl⟩
  · split
    · exact ⟨rfl, rfl, rfl⟩
    · dsimp only
      split <;> exact ⟨rfl, rfl, rfl⟩

/-- ChangePassword writes the `users` table only. -/
theorem ChangePassword_frame (s : Store) (check : String → String → Bool)
    (hashed : Option String) (a : Actor) (req : ChangePasswordRequest) :
    (ChangePassword s check hashed a req).1.rewards = s.rewards ∧
    (ChangePassword s check hashed a req).1.lastRewardID = s.lastRewardID ∧
    (ChangePassword s check hashed a req).1.exchangeRecords = s.exchangeRecords := by
  unfold ChangePassword
  split
  · exact ⟨rfl, rfl, rfl⟩
  · split
    · exact ⟨rfl, rfl, rfl⟩
    · split
      · exact ⟨rfl, rfl, rfl⟩
      · split
        · exact ⟨rfl, rfl, rfl⟩
        · split <;> exact ⟨rfl, rfl, rfl⟩

theorem Shelved_of_frame (s s' : Store) (rid : Nat) (h : Shelved s rid)
    (hr : s'.rewards = s.rewards) (hx : s'.exchangeRecords = s.exchangeRecords) :
    Shelved s' rid := by
  obtain ⟨r, h1, h2, h3⟩ := h
  exact ⟨r, by rw [firstReward_of_rewards_eq s s' rid hr]; exact h1, h2,
    by rw [countExchangesOfReward_of_eq s s' rid hx]; exact h3⟩

theorem Retired_of_frame (s s' : Store) (rid : Nat) (h : Retired s rid)
    (hr : s'.rewards = s.rewards) (hl : s'.lastRewardID = s.lastRewardID) :
    Retired s' rid := by
  unfold Retired at h ⊢
  rw [hl, firstReward_of_rewards_eq s s' rid hr]
  exact h

theorem CreateReward_lastRewardID_le (s : Store) (a : Actor) (req : CreateRewardRequest) :
    s.lastRewardID ≤ (CreateReward s a req).1.lastRewardID := by
  unfold CreateReward Store.createReward
  dsimp only
  split
  · exact Nat.le_refl _
  · split
    · exact Nat.le_refl _
    · exact Nat.le_succ _

theorem CreateReward_firstReward_none (s : Store) (a : Actor) (req : CreateRewardRequest)
    (rid : Nat) (hle : rid ≤ s.lastRewardID) (hr : s.firstReward rid = none) :
    (CreateReward s a req).1.firstReward rid = none := by
  unfold CreateReward
  split
  · exact hr
  · split
    · exact hr
    · unfold Store.firstReward at hr ⊢
      simp only [Store.createReward]
      rw [List.find?_append, hr]
      have hne : (s.lastRewardID + 1 == rid) = false := by
        rw [beq_eq_false_iff_ne]; omega
      simp only [List.find?, hne]
      rfl

/-- CreateReward hands out a key above every key handed out before, so a reward
that is gone stays gone, and a stored reward stays as it is. -/
theorem CreateReward_retired (s : Store) (a : Actor) (req : CreateRewardRequest) (rid : Nat)
    (h : Retired s rid) : Retired (CreateReward s a req).1 rid := by
  obtain ⟨hle, hm⟩ := h
  refine ⟨Nat.le_trans hle (CreateReward_lastRewardID_le s a req), ?_⟩
  cases hr : s.firstReward rid with
  | some r =>
    rw [hr] at hm
    rw [CreateReward_firstReward s a req rid r hr]
    exact hm
  | none =>
    rw [CreateReward_firstReward_none s a req rid hle hr]
    trivial

theorem find?_filter_other {α : Type} (p q : α → Bool) (hpq : ∀ x, q x = true → p x = true) :
    ∀ (l : List α), (l.filter p).find? q = l.find? q := by
  intro l
  induction l with
  | nil => rfl
  | cons x rest ih =>
    by_cases hp : p x = true
    · rw [List.filter_cons_of_pos hp, List.find?_cons, List.find?_cons, ih]
    · rw [List.filter_cons_of_neg hp, ih, List.find?_cons]
      have hq : q x = false := by
        cases hqx : q x with
        | false => rfl
        | true => exact absurd (hpq x hqx) hp
      rw [hq]

/-- What UpdateReward does to the row a lookup by key finds. -/
theorem UpdateReward_firstReward (s : Store) (a : Actor) (param : String)
    (req : UpdateRewardRequest) (rid : Nat) :
    (UpdateReward s a param req).1.firstReward rid = s.firstReward rid ∨
    (a.userRole = "parent" ∧ parseUint32 param = some rid ∧
      ∃ r, s.firstReward rid = some r ∧
        (UpdateReward s a param req).1.firstReward rid = some (applyRewardUpdates req r)) := by
  unfold UpdateReward
  by_cases hrole : a.userRole ≠ "parent"
  · left; rw [if_pos hrole]
  · rw [if_neg hrole]
    have hrole' : a.userRole = "parent" := by simpa using hrole
    cases hp : parseUint32 param with
    | none => left; rfl
    | some k =>
      simp only
      by_cases hk : k = rid
      · subst hk
        cases hr : s.firstReward k with
        | none =>
          left
          unfold Store.firstReward Store.updatesReward at *
          have hmap := find?_map_key (fun q : Reward => q.ID == k)
            (fun q : Reward => if q.ID == k then applyRewardUpdates req q else q)
            (by
              intro x
              simp only
              split
              · rw [applyRewardUpdates_eq]
              · rfl) s.rewards
          simp only
          rw [hmap, hr]
          rfl
        | some r =>
          right
          exact ⟨hrole', rfl, r, rfl, updatesReward_first s k req r hr⟩
      · left
        unfold Store.firstReward Store.updatesReward
        simp only
        apply find?_map_of_agree
        intro x _
        by_cases hx : (x.ID == k) = true
        · right
          have hxk : x.ID = k := by simpa using hx
          have hne : (x.ID == rid) = false := by
            rw [beq_eq_false_iff_ne, hxk]; exact hk
          rw [if_pos hx]
          refine ⟨hne, ?_⟩
          show ((applyRewardUpdates req x).ID == rid) = false
          rw [applyRewardUpdates_eq]
          exact hne
        · left; rw [if_neg hx]

/-- What DeleteReward does to the row a lookup by key finds: nothing, or the row
is switched off while a record names it, or the row is removed when none does. -/
theorem DeleteReward_firstReward (s : Store) (a : Actor) (param : String) (rid : Nat) :
    (DeleteReward s a param).1.firstReward rid = s.firstReward rid ∨
    ∃ r, s.firstReward rid = some r ∧
      ((0 < s.countExchangesOfReward rid ∧
          (DeleteReward s a param).1.firstReward rid = some { r with IsActive := false }) ∨
        (s.countExchangesOfReward rid = 0 ∧
          (DeleteReward s a param).1.firstReward rid = none)) := by
  unfold DeleteReward
  by_cases hrole : a.userRole ≠ "parent"
  · left; rw [if_pos hrole]
  · rw [if_neg hrole]
    cases hp : parseUint32 param with
    | none => left; rfl
    | some k =>
      simp only
      cases hr : s.firstReward k with
      | none => left; rfl
      | some r =>
        simp only
        by_cases hown : r.CreatedBy ≠ a.userID
        · left; rw [if_pos hown]
        · rw [if_neg hown]
          have hid := firstReward_id s k r hr
          by_cases hk : k = rid
          · subst hk
            right
            refine ⟨r, hr, ?_⟩
            by_cases hc : s.countExchangesOfReward k > 0
            · left
              rw [if_pos hc]
              exact ⟨hc, deactivateReward_first s k r hr⟩
            · right
              rw [if_neg hc]
              exact ⟨by omega, deleteReward_first s k r hr⟩
          · left
            by_cases hc : s.countExchangesOfReward k > 0
            · rw [if_pos hc]
              unfold Store.firstReward Store.deactivateReward
              simp only
              apply find?_map_of_agree
              intro x _
              by_cases hx : (x.ID == r.ID) = true
              · right
                have hxk : x.ID = k := by rw [← hid]; simpa using hx
                have hne : (x.ID == rid) = false := by
                  rw [beq_eq_false_iff_ne, hxk]; exact hk
                rw [if_pos hx]
                exact ⟨hne, hne⟩
              · left; rw [if_neg hx]
            · rw [if_neg hc]
              unfold Store.firstReward Store.deleteReward
              simp only
              apply find?_filter_other
              intro x hx
              have hxr : x.ID = rid := by simpa using hx
              rw [hxr, hid]
              simpa using fun h => hk h.symm

/-- An exchange of a reward that is not stored stops at the first check. -/
theorem ExchangeReward_notFound (s : Store) (now : Nat) (b : Actor)
    (req : ExchangeRewardRequest) (hr : s.firstReward req.RewardID = none) :
    (ExchangeReward s now b req).2.isSuccess = false ∧ (ExchangeReward s now b req).1 = s ∧
    (req.bind = true → ∀ t, resolveTargetUser s b req = .ok t →
      ExchangeReward s now b req = (s, .failure 404 "Reward not found")) := by
  rcases ExchangeReward_cases s now b req with h | ⟨t, r', up, _, _, hr', _⟩
  · refine ⟨h.2, h.1, ?_⟩
    intro hb t ht
    unfold ExchangeReward exchangeFor
    simp only [hb, ht, hr]
    rfl
  · rw [hr] at hr'
    cases hr'

theorem ExchangeReward_retired (s : Store) (now : Nat) (a : Actor)
    (req : ExchangeRewardRequest) (rid : Nat) (h : Retired s rid) :
    Retired (ExchangeReward s now a req).1 rid := by
  rcases ExchangeReward_cases s now a req with hf | ⟨t, r', up, _, _, hr', hact', _, _, _, heq⟩
  · rw [hf.1]; exact h
  · have hid := firstReward_id s _ r' hr'
    have hne : r'.ID ≠ rid := by
      intro hidr
      rw [hid] at hidr
      have h2 := h.2
      rw [← hidr, hr'] at h2
      have h3 : r'.IsActive = false := h2
      rw [hact'] at h3
      cases h3
    have hfirst : (ExchangeReward s now a req).1.firstReward rid = s.firstReward rid := by
      rw [heq]
      have h5 : (commitExchange s now t req r' up).1.firstReward rid =
          (s.saveReward { r' with Stock := subInt r'.Stock 1 }).firstReward rid := by
        unfold Store.firstReward
        rw [commitExchange_rewards]
      rw [h5]
      exact saveReward_first_other s _ rid hne
    unfold Retired at h ⊢
    rw [ExchangeReward_lastRewardID, hfirst]
    exact h

theorem Call.run_retired (s : Store) (c : Call) (rid : Nat) (h : Retired s rid) :
    Retired (c.run s) rid := by
  cases c with
  | register hashed token req =>
    exact Retired_of_frame s _ rid h (Register_rewards_exchangeRecords s hashed token req).1
      (Register_lastRewardID s hashed token req)
  | createChild a req =>
    exact Retired_of_frame s _ rid h (CreateChild_rewards_exchangeRecords s a req).1
      (CreateChild_lastRewardID s a req)
  | createReward a req => exact CreateReward_retired s a req rid h
  | recordBehavior now a req =>
    exact Retired_of_frame s _ rid h (RecordBehavior_rewards s now a req)
      (RecordBehavior_lastRewardID s now a req)
  | exchangeReward now a req => exact ExchangeReward_retired s now a req rid h

/-- The active flag of a patched row when the patch does not carry
`is_active = true`. -/
theorem applyRewardUpdates_inactive (req : UpdateRewardRequest) (r : Reward)
    (hact : r.IsActive = false) (hreq : req.IsActive ≠ some true) :
    (applyRewardUpdates req r).IsActive = false := by
  rw [applyRewardUpdates_eq]
  cases h : req.IsActive with
  | none => exact hact
  | some v =>
    cases v with
    | false => rfl
    | true => exact absurd h hreq

theorem reactivates_false (a : Actor) (param : String) (req : UpdateRewardRequest) (rid : Nat)
    (hc : (AnyCall.updateReward a param req).reactivates rid = false)
    (hrole : a.userRole = "parent") (hp : parseUint32 param = some rid) :
    req.IsActive ≠ some true := by
  intro h
  have hc' : (decide (a.userRole = "parent") && parseUint32 param == some rid &&
      req.IsActive == some true) = false := hc
  rw [hp, h] at hc'
  simp [hrole] at hc'

theorem AnyCall.step_retired (s : Store) (c : AnyCall) (rid : Nat) (h : Retired s rid)
    (hc : c.reactivates rid = false) : Retired (c.run s) rid := by
  cases c with
  | points c => exact Call.run_retired s c rid h
  | updateReward a param req =>
    show Retired (UpdateReward s a param req).1 rid
    unfold Retired at h ⊢
    rw [UpdateReward_lastRewardID]
    refine ⟨h.1, ?_⟩
    rcases UpdateReward_firstReward s a param req rid with he | ⟨hrole, hp, r, hr, he⟩
    · rw [he]; exact h.2
    · rw [he]
      have h2 := h.2
      rw [hr] at h2
      exact applyRewardUpdates_inactive req r h2 (reactivates_false a param req rid hc hrole hp)
  | deleteReward a param =>
    show Retired (DeleteReward s a param).1 rid
    unfold Retired at h ⊢
    rw [DeleteReward_lastRewardID]
    refine ⟨h.1, ?_⟩
    rcases DeleteReward_firstReward s a param rid with he | ⟨r, _, ⟨_, he⟩ | ⟨_, he⟩⟩
    · rw [he]; exact h.2
    · rw [he]
    · rw [he]; trivial
  | deleteChild a param =>
    exact Retired_of_frame s _ rid h (DeleteChild_rewards s a param).1
      (DeleteChild_rewards s a param).2
  | updateUserProfile a req =>
    have hf := UpdateUserProfile_frame s a req
    exact Retired_of_frame s _ rid h hf.1 hf.2.1
  | updateChild a param req =>
    have hf := UpdateChild_frame s a param req
    exact Retired_of_frame s _ rid h hf.1 hf.2.1
  | changePassword check hashed a req =>
    have hf := ChangePassword_frame s check hashed a req
    exact Retired_of_frame s _ rid h hf.1 hf.2.1

theorem runAnyCalls_retired : ∀ (calls : List AnyCall) (s : Store) (rid : Nat),
    Retired s rid → calls.any (AnyCall.reactivates rid) = false →
    Retired (runAnyCalls s calls) rid := by
  intro calls
  induction calls with
  | nil => intro s rid h _; exact h
  | cons c rest ih =>
    intro s rid h hc
    rw [List.any_cons, Bool.or_eq_false_iff] at hc
    exact ih _ rid (AnyCall.step_retired s c rid h hc.1) hc.2

theorem AnyCall.step_shelved (s : Store) (c : AnyCall) (rid : Nat) (h : Shelved s rid)
    (hc : c.reactivates rid = false) (hd : c.isDeleteChild = false) :
    Shelved (c.run s) rid := by
  obtain ⟨r, hr, hact, hpos⟩ := h
  cases c with
  | points c =>
    obtain ⟨r', hr', hact'⟩ := Call.run_inactive s c rid ⟨r, hr, hact⟩
    refine ⟨r', hr', hact', ?_⟩
    show 0 < (c.run s).countExchangesOfReward rid
    rw [Call.run_redeems s c rid]
    omega
  | updateReward a param req =>
    show Shelved (UpdateReward s a param req).1 rid
    have hx := countExchangesOfReward_of_eq s _ rid (UpdateReward_exchangeRecords s a param req)
    rcases UpdateReward_firstReward s a param req rid with he | ⟨hrole, hp, r2, hr2, he⟩
    · exact ⟨r, by rw [he]; exact hr, hact, by rw [hx]; exact hpos⟩
    · rw [hr] at hr2
      cases hr2
      exact ⟨_, he,
        applyRewardUpdates_inactive req r hact (reactivates_false a param req rid hc hrole hp),
        by rw [hx]; exact hpos⟩
  | deleteReward a param =>
    show Shelved (DeleteReward s a param).1 rid
    have hx := countExchangesOfReward_of_eq s _ rid (DeleteReward_exchangeRecords s a param)
    rcases DeleteReward_firstReward s a param rid with he | ⟨r2, hr2, ⟨_, he⟩ | ⟨h0, _⟩⟩
    · exact ⟨r, by rw [he]; exact hr, hact, by rw [hx]; exact hpos⟩
    · exact ⟨_, he, rfl, by rw [hx]; exact hpos⟩
    · omega
  | deleteChild a param => cases hd
  | updateUserProfile a req =>
    have hf := UpdateUserProfile_frame s a req
    exact Shelved_of_frame s _ rid ⟨r, hr, hact, hpos⟩ hf.1 hf.2.2
  | updateChild a param req =>
    have hf := UpdateChild_frame s a param req
    exact Shelved_of_frame s _ rid ⟨r, hr, hact, hpos⟩ hf.1 hf.2.2
  | changePassword check hashed a req =>
    have hf := ChangePassword_frame s check hashed a req
    exact Shelved_of_frame s _ rid ⟨r, hr, hact, hpos⟩ hf.1 hf.2.2

theorem runAnyCalls_shelved : ∀ (calls : List AnyCall) (s : Store) (rid : Nat),
    Shelved s rid → calls.any (AnyCall.reactivates rid) = false →
    calls.any AnyCall.isDeleteChild = false → Shelved (runAnyCalls s calls) rid := by
  intro calls
  induction calls with
  | nil => intro s rid h _ _; exact h
  | cons c rest ih =>
    intro s rid h hc hd
    rw [List.any_cons, Bool.or_eq_false_iff] at hc hd
    exact ih _ rid (AnyCall.step_shelved s c rid h hc.1 hd.1) hc.2 hd.2

/-- C15 as stated fails in two ways.  In `demoUsedToy` the toy has one exchange
record, so DeleteReward by its owner only deactivates it.  A later UpdateReward
that sets is_active again makes a later ExchangeReward of the toy answer 200.  And
after DeleteChild has erased the child's exchange record, a second DeleteReward
removes the toy, so a later ExchangeReward of it answers "Reward not found", not
"Reward is not active". -/
theorem deleteReward_policy_counterexample :
    0 < demoUsedToy.countExchangesOfReward 1 ∧
    (DeleteReward demoUsedToy demoParent "1").2 = .success "Reward deactivated successfully" ∧
    (ExchangeReward
      (UpdateReward (DeleteReward demoUsedToy demoParent "1").1 demoParent "1"
        demoReactivate).1 5 demoChild (demoExchange 5 0)).2.isSuccess = true ∧
    demoWipeCalls.any (AnyCall.reactivates 1) = false ∧
    (runAnyCalls demoUsedToy demoWipeCalls).firstReward 1 = none ∧
    (ExchangeReward (runAnyCalls demoUsedToy demoWipeCalls) 9 demoChild (demoExchange 5 0)).2 =
      .failure 404 "Reward not found" := by
  decide

/-- C15 (amended): DeleteReward by the owning parent removes the reward when no
ExchangeRecord references it; when at least one references it, the reward is kept
with active = false and its existing ExchangeRecords are unchanged.  From then
on, after any further calls of the handlers that write the database (`AnyCall`)
among which no UpdateReward by a parent on that reward carries is_active = true,
every ExchangeReward of it is refused and changes nothing; once the body is
bound and the beneficiary resolved the answer is "Reward is not active" while
the reward is stored and "Reward not found" once it has been removed; and the
reward is still stored, inactive, when none of the further calls is a
DeleteChild. -/
theorem deleteReward_policy (s : Store) (a : Actor) (param : String) (rid : Nat) (r : Reward)
    (hrole : a.userRole = "parent") (hparse : parseUint32 param = some rid)
    (hr : s.firstReward rid = some r) (hown : r.CreatedBy = a.userID)
    (hkey : rid ≤ s.lastRewardID) :
    (s.countExchangesOfReward rid = 0 →
      (DeleteReward s a param).2 = .success "Reward deleted successfully" ∧
      (DeleteReward s a param).1.rewards = s.rewards.filter (fun q => q.ID != rid) ∧
      (DeleteReward s a param).1.firstReward rid = none ∧
      (DeleteReward s a param).1.exchangeRecords = s.exchangeRecords) ∧
    (0 < s.countExchangesOfReward rid →
      (DeleteReward s a param).2 = .success "Reward deactivated successfully" ∧
      (DeleteReward s a param).1.firstReward rid = some { r with IsActive := false } ∧
      (DeleteReward s a param).1.exchangeRecords = s.exchangeRecords ∧
      ∀ (later : List AnyCall) (now : Nat) (b : Actor) (req : ExchangeRewardRequest),
        later.any (AnyCall.reactivates rid) = false → req.RewardID = rid →
        (ExchangeReward (runAnyCalls (DeleteReward s a param).1 later) now b req).2.isSuccess =
          false ∧
        (ExchangeReward (runAnyCalls (DeleteReward s a param).1 later) now b req).1 =
          runAnyCalls (DeleteReward s a param).1 later ∧
        (req.bind = true →
          ∀ t, resolveTargetUser (runAnyCalls (DeleteReward s a param).1 later) b req = .ok t →
          ExchangeReward (runAnyCalls (DeleteReward s a param).1 later) now b req =
            (runAnyCalls (DeleteReward s a param).1 later,
              if ((runAnyCalls (DeleteReward s a param).1 later).firstReward rid).isSome then
                .failure 400 "Reward is not active"
              else .failure 404 "Reward not found")) ∧
        (later.any AnyCall.isDeleteChild = false →
          ∃ r', (runAnyCalls (DeleteReward s a param).1 later).firstReward rid = some r' ∧
            r'.IsActive = false)) := by
  have hdel := DeleteReward_owner s a param rid r hrole hparse hr hown
  have hid := firstReward_id s rid r hr
  constructor
  · intro h0
    have hnot : ¬ (s.countExchangesOfReward rid > 0) := by omega
    rw [hdel, if_neg hnot]
    refine ⟨rfl, ?_, deleteReward_first s rid r hr, rfl⟩
    unfold Store.deleteReward
    rw [hid]
  · intro hpos
    rw [hdel, if_pos hpos]
    refine ⟨rfl, deactivateReward_first s rid r hr, rfl, ?_⟩
    intro later now b req hlater hreq
    have hfirst := deactivateReward_first s rid r hr
    have hret0 : Retired (s.deactivateReward r) rid := by
      refine ⟨hkey, ?_⟩
      rw [hfirst]
    have hsh0 : Shelved (s.deactivateReward r) rid := ⟨_, hfirst, rfl, hpos⟩
    have hret := runAnyCalls_retired later _ rid hret0 hlater
    simp only
    refine ⟨?_, ?_, ?_, ?_⟩
    · cases hf : (runAnyCalls (s.deactivateReward r) later).firstReward rid with
      | none => exact (ExchangeReward_notFound _ now b req (by rw [hreq]; exact hf)).1
      | some r' =>
        have h2 := hret.2
        rw [hf] at h2
        exact (ExchangeReward_inactive _ now b req r' (by rw [hreq]; exact hf) h2).1
    · cases hf : (runAnyCalls (s.deactivateReward r) later).firstReward rid with
      | none => exact (ExchangeReward_notFound _ now b req (by rw [hreq]; exact hf)).2.1
      | some r' =>
        have h2 := hret.2
        rw [hf] at h2
        exact (ExchangeReward_inactive _ now b req r' (by rw [hreq]; exact hf) h2).2.1
    · intro hb t ht
      cases hf : (runAnyCalls (s.deactivateReward r) later).firstReward rid with
      | none =>
        exact (ExchangeReward_notFound _ now b req (by rw [hreq]; exact hf)).2.2 hb t ht
      | some r' =>
        have h2 := hret.2
        rw [hf] at h2
        exact (ExchangeReward_inactive _ now b req r' (by rw [hreq]; exact hf) h2).2.2 hb t ht
    · intro hd
      obtain ⟨r', hr', hact', _⟩ := runAnyCalls_shelved later _ rid hsh0 hlater hd
      exact ⟨r', hr', hact'⟩

/-- Witness for C15: the owner deletes the once-redeemed toy of `demoUsedToy`.
After a rename, a second delete, one more behavior record and edits of both
accounts the toy is still stored inactive and its exchange is answered "Reward
is not active". -/
theorem deleteReward_policy_witness :
    demoParent.userRole = "parent" ∧ parseUint32 "1" = some 1 ∧
    demoUsedToy.firstReward 1 = some demoToy ∧
    demoToy.CreatedBy = demoParent.userID ∧
    1 ≤ demoUsedToy.lastRewardID ∧
    ((demoUsedToy.countExchangesOfReward 1 = 0 →
      (DeleteReward demoUsedToy demoParent "1").2 = .success "Reward deleted successfully" ∧
      (DeleteReward demoUsedToy demoParent "1").1.rewards =
        demoUsedToy.rewards.filter (fun q => q.ID != 1) ∧
      (DeleteReward demoUsedToy demoParent "1").1.firstReward 1 = none ∧
      (DeleteReward demoUsedToy demoParent "1").1.exchangeRecords =
        demoUsedToy.exchangeRecords) ∧
    (0 < demoUsedToy.countExchangesOfReward 1 →
      (DeleteReward demoUsedToy demoParent "1").2 =
        .success "Reward deactivated successfully" ∧
      (DeleteReward demoUsedToy demoParent "1").1.firstReward 1 =
        some { demoToy with IsActive := false } ∧
      (DeleteReward demoUsedToy demoParent "1").1.exchangeRecords =
        demoUsedToy.exchangeRecords ∧
      ∀ (later : List AnyCall) (now : Nat) (b : Actor) (req : ExchangeRewardRequest),
        later.any (AnyCall.reactivates 1) = false → req.RewardID = 1 →
        (ExchangeReward (runAnyCalls (DeleteReward demoUsedToy demoParent "1").1 later) now b
          req).2.isSuccess = false ∧
        (ExchangeReward (runAnyCalls (DeleteReward demoUsedToy demoParent "1").1 later) now b
          req).1 = runAnyCalls (DeleteReward demoUsedToy demoParent "1").1 later ∧
        (req.bind = true →
          ∀ t, resolveTargetUser (runAnyCalls (DeleteReward demoUsedToy demoParent "1").1 later)
              b req = .ok t →
          ExchangeReward (runAnyCalls (DeleteReward demoUsedToy demoParent "1").1 later) now b
              req =
            (runAnyCalls (DeleteReward demoUsedToy demoParent "1").1 later,
              if ((runAnyCalls (DeleteReward demoUsedToy demoParent "1").1 later).firstReward
                  1).isSome then
                .failure 400 "Reward is not active"
              else .failure 404 "Reward not found")) ∧
        (later.any AnyCall.isDeleteChild = false →
          ∃ r', (runAnyCalls (DeleteReward demoUsedToy demoParent "1").1 later).firstReward 1 =
              some r' ∧ r'.IsActive = false))) ∧
    0 < demoUsedToy.countExchangesOfReward 1 ∧
    demoRetiredCalls.any (AnyCall.reactivates 1) = false ∧
    demoRetiredCalls.any AnyCall.isDeleteChild = false ∧
    ExchangeReward (runAnyCalls (DeleteReward demoUsedToy demoParent "1").1 demoRetiredCalls)
        9 demoChild (demoExchange 5 0) =
      (runAnyCalls (DeleteReward demoUsedToy demoParent "1").1 demoRetiredCalls,
        .failure 400 "Reward is not active") :=
  ⟨by decide, by decide, by decide, by decide, by decide,
    deleteReward_policy demoUsedToy demoParent "1" 1 demoToy
      (by decide) (by decide) (by decide) (by decide) (by decide),
    by decide, by decide, by decide, by decide⟩

end ChildBehavior
